import Mathlib

/-!
# LumenSwitcher: a shallow embedding of `ULumenSwitchComponentBase`

The component lives in
`Plugins/LumenSwitchComponent/Source/LumenSwitchComponent/Private/LumenSwitchComponentBase.cpp`
(declarations in `Public/LumenSwitchComponentBase.h`).

Conventions of the embedding

* `float` values are elements of an arbitrary linearly ordered field `α`
  (exact arithmetic); the definitions are computable at `α = ℚ` and the
  geometric theorems instantiate `α = ℝ`. `TickComponent`, whose comparison
  depends on the rounding of the sum, takes the rounding of the `float` format
  as a parameter, and its `int32` counter wraps around.
* A pointer that may be null is an `Option`; a member function that would
  dereference a null pointer returns `none`.
* Host engine types that the component only reads (`UWorld`, the post process
  volumes, the camera, the scene view) are records holding exactly the members
  the component touches; host functions whose bodies are not part of the
  plugin (`EncompassesPoint`, `TransformPositionNoScale`, `CalcSceneView`,
  `FMath::Sin`, ...) are fields or parameters.
* Log output (`UE_LOGFMT`) has no effect on any value and is left out.
-/

namespace LumenSwitcher

/-! ## Host data -/

/-- The name type of the host, used as key of the volume map. Two names are equal exactly when
the host compares them equal: a value is the normalised text of the name. -/
abbrev FName := String

/-- The vector type of the host: three `float` components. -/
structure FVector (α : Type) where
  X : α
  Y : α
  Z : α
deriving DecidableEq, Repr

/-- Enumerators of `EReflectionMethod` named by the switch in `ToggleReflectionMethod`;
`Unknown` stands for every other value (the `default:` branch). -/
inductive EReflectionMethod where
  | None
  | Lumen
  | ScreenSpace
  | Unknown
deriving DecidableEq, Repr

/-- Enumerators of `EDynamicGlobalIlluminationMethod` named by the switch in
`ToggleGlobalIlluminationMethod`; `Plugin` is the method the source comment says is not
considered (the `default:` branch). -/
inductive EDynamicGlobalIlluminationMethod where
  | None
  | Lumen
  | ScreenSpace
  | Plugin
deriving DecidableEq, Repr

/-- The members of `FPostProcessSettings` the component reads or writes. -/
structure FPostProcessSettings where
  bOverride_SceneColorTint : Bool
  bOverride_ReflectionMethod : Bool
  ReflectionMethod : EReflectionMethod
  bOverride_DynamicGlobalIlluminationMethod : Bool
  DynamicGlobalIlluminationMethod : EDynamicGlobalIlluminationMethod
deriving DecidableEq, Repr

/-- The camera component of the owner: its world location (`GetComponentLocation()`) and its
post process settings. -/
structure UCameraComponent (α : Type) where
  ComponentLocation : FVector α
  PostProcessSettings : FPostProcessSettings
deriving DecidableEq, Repr

/-- Result of `GetProperties()` on a post process volume interface. -/
structure FPostProcessVolumeProperties (α : Type) where
  bIsEnabled : Bool
  bIsUnbound : Bool
  BlendRadius : α
  Priority : α
deriving DecidableEq, Repr

/-- A post process volume actor (`APostProcessVolume`): the members the component touches.
`ActorLabel` is the name `FName(*PPVol->GetActorLabel())`; `BrushPoints` is `none` when
`GetBrushComponent()` is null and otherwise the value of `BrushComp->Brush->Points.Num()`;
`Scale3D` and `TransformPositionNoScale` are those of `GetTransform()`; `EncompassesPoint` is
the host box test (without the out parameter `Distance`, which the component never reads). -/
structure APostProcessVolume (α : Type) where
  ActorLabel : FName
  bEnabled : Bool
  bUnbound : Bool
  BlendRadius : α
  Priority : α
  Scale3D : FVector α
  TransformPositionNoScale : FVector α → FVector α
  BrushPoints : Option Nat
  EncompassesPoint : FVector α → α → Bool

/-- An entry of `World->PostProcessVolumes`: either a post process volume actor (the
`Cast<APostProcessVolume>` succeeds) or some other implementer of the interface (the cast
yields null), of which only the properties and the box test are visible. -/
inductive IInterface_PostProcessVolume (α : Type) where
  | Volume (PPVol : APostProcessVolume α)
  | Other (Properties : FPostProcessVolumeProperties α) (EncompassesPoint : FVector α → α → Bool)

/-- The host function `APostProcessVolume::GetProperties`. -/
def APostProcessVolume.GetProperties {α : Type} (V : APostProcessVolume α) :
    FPostProcessVolumeProperties α :=
  { bIsEnabled := V.bEnabled, bIsUnbound := V.bUnbound,
    BlendRadius := V.BlendRadius, Priority := V.Priority }

/-- The interface call `PPVolInterface->GetProperties()`. -/
def IInterface_PostProcessVolume.GetProperties {α : Type} :
    IInterface_PostProcessVolume α → FPostProcessVolumeProperties α
  | .Volume V => V.GetProperties
  | .Other P _ => P

/-- The interface call `PPVolInterface->EncompassesPoint(Point, SphereRadius, &Distance)`. -/
def IInterface_PostProcessVolume.EncompassesPoint {α : Type} :
    IInterface_PostProcessVolume α → FVector α → α → Bool
  | .Volume V => V.EncompassesPoint
  | .Other _ E => E

/-- The cast `Cast<APostProcessVolume>(PPVolInterface->_getUObject())`. -/
def IInterface_PostProcessVolume.Cast {α : Type} :
    IInterface_PostProcessVolume α → Option (APostProcessVolume α)
  | .Volume V => some V
  | .Other _ _ => none

/-- The scene view computed by the host: its final post process settings. -/
structure FSceneView where
  FinalPostProcessSettings : FPostProcessSettings
deriving DecidableEq, Repr

/-- The local player: `CalcSceneView` is the host computation of the view, which depends on
the camera of the owner (null when the host has no valid view). -/
structure ULocalPlayer (α : Type) where
  CalcSceneView : Option (UCameraComponent α) → Option FSceneView

/-- The world: the volume array and the first local player (null when there is none). -/
structure UWorld (α : Type) where
  PostProcessVolumes : List (IInterface_PostProcessVolume α)
  FirstLocalPlayerFromController : Option (ULocalPlayer α)

/-! ## The map type -/

/-- The host map `TMap` as an association list without duplicate keys. -/
abbrev TMap (κ ν : Type) := List (κ × ν)

/-- The call `Map.Add(Key, Value)`: the value of an existing key is replaced, a new key is
appended. -/
def TMap.Add {κ ν : Type} [DecidableEq κ] : TMap κ ν → κ → ν → TMap κ ν
  | [], k, v => [(k, v)]
  | (k', v') :: rest, k, v =>
    if k' = k then (k, v) :: rest else (k', v') :: TMap.Add rest k v

/-- The call `Map.Find(Key)`: the stored value, or null. -/
def TMap.Find {κ ν : Type} [DecidableEq κ] : TMap κ ν → κ → Option ν
  | [], _ => none
  | (k', v') :: rest, k => if k' = k then some v' else TMap.Find rest k

/-! ## The component -/

/-- Infos for post process volumes in level (`FPostProcessVolumeInfo`). -/
structure FPostProcessVolumeInfo (α : Type) where
  bIsEnabled : Bool
  bIsInfinte : Bool
  Priority : α
  bCameraEncompassed : Bool
deriving DecidableEq, Repr

/-- The data members of `ULumenSwitchComponentBase` that the modelled member functions read
or write. -/
structure ULumenSwitchComponentBase (α : Type) where
  bEnableAtStart : Bool
  FPSRefreshRate : α
  bVisualizePPVolBounds : Bool
  VisualizationLineThickness : α
  bColorizeByPriority : Bool
  FrameCount : Int
  AccuTime : α
  bIsOVerrideEnabled : Bool
  MaxPPVolPrioInLevel : α
  PlayerCameraComponent : Option (UCameraComponent α)
  PPVolumesInLevel : TMap FName (FPostProcessVolumeInfo α)
deriving DecidableEq, Repr

set_option linter.unusedSectionVars false
set_option linter.unusedVariables false

variable {α : Type} [LinearOrderedField α]

/-- The body of the `for` loop of `GetPostProcessVolumesInLevel` (lines 130-145): the pair is
the local `Prio` and the map `PPVolMap`. -/
def GetPostProcessVolumesInLevel.body (Cam : UCameraComponent α)
    (acc : α × TMap FName (FPostProcessVolumeInfo α))
    (PPVolInterface : IInterface_PostProcessVolume α) :
    α × TMap FName (FPostProcessVolumeInfo α) :=
  let Properties := PPVolInterface.GetProperties
  match PPVolInterface.Cast with
  | some PPVol =>
    let DisplayName : FName := PPVol.ActorLabel
    let bEncompass := PPVolInterface.EncompassesPoint Cam.ComponentLocation Properties.BlendRadius
    let Info : FPostProcessVolumeInfo α :=
      { bIsInfinte := Properties.bIsUnbound
        Priority := Properties.Priority
        bIsEnabled := Properties.bIsEnabled
        bCameraEncompassed := bEncompass || Properties.bIsUnbound }
    (Info.Priority, TMap.Add acc.2 DisplayName Info)
  | none => acc

/-- The member function `GetPostProcessVolumesInLevel(PPVolMap, bDebug)` (lines 122-162):
the returned `float` and the map after the call. `bDebug` only selects log output. -/
def GetPostProcessVolumesInLevel (World : Option (UWorld α))
    (self : ULumenSwitchComponentBase α)
    (PPVolMap : TMap FName (FPostProcessVolumeInfo α)) (bDebug : Bool) :
    α × TMap FName (FPostProcessVolumeInfo α) :=
  match World, self.PlayerCameraComponent with
  | some W, some Cam =>
    W.PostProcessVolumes.foldl (GetPostProcessVolumesInLevel.body Cam) (0, PPVolMap)
  | _, _ => (0, PPVolMap)

/-- The member function `ToggleOverrides()` (lines 95-104): the returned `bool` and the
component after the call. -/
def ToggleOverrides (self : ULumenSwitchComponentBase α) :
    Bool × ULumenSwitchComponentBase α :=
  let self1 := { self with bIsOVerrideEnabled := !self.bIsOVerrideEnabled }
  let self2 :=
    match self1.PlayerCameraComponent with
    | some Cam =>
      { self1 with
        PlayerCameraComponent := some
          { Cam with
            PostProcessSettings :=
              { Cam.PostProcessSettings with
                bOverride_ReflectionMethod := self1.bIsOVerrideEnabled
                bOverride_DynamicGlobalIlluminationMethod := self1.bIsOVerrideEnabled } } }
    | none => self1
  (self2.bIsOVerrideEnabled, self2)

/-- The member function `IsOverrideEnabled()` (lines 107-110). -/
def IsOverrideEnabled (self : ULumenSwitchComponentBase α) : Bool :=
  self.bIsOVerrideEnabled

/-- The member function `GetCurrentPostProcessSettings(OutPPSettings)` (lines 451-477): the
value of the out parameter after the call, given its value before the call. -/
def GetCurrentPostProcessSettings (World : Option (UWorld α))
    (self : ULumenSwitchComponentBase α) (OutPPSettings : FPostProcessSettings) :
    FPostProcessSettings :=
  match World with
  | some W =>
    match W.FirstLocalPlayerFromController with
    | some LocalPlayer =>
      match LocalPlayer.CalcSceneView self.PlayerCameraComponent with
      | some SceneView => SceneView.FinalPostProcessSettings
      | none => OutPPSettings
    | none => OutPPSettings
  | none => OutPPSettings

/-- The member function `ToggleGlobalIlluminationMethod()` (lines 395-416).
`PPSettingsDefault` is the value of the default constructed local `PPSettingsCurrent`
(the constructor is host code). The result is `none` when the camera pointer is
dereferenced while null. -/
def ToggleGlobalIlluminationMethod (World : Option (UWorld α))
    (PPSettingsDefault : FPostProcessSettings) (self : ULumenSwitchComponentBase α) :
    Option (ULumenSwitchComponentBase α) :=
  if !self.bIsOVerrideEnabled then some self
  else
    let PPSettingsCurrent := GetCurrentPostProcessSettings World self PPSettingsDefault
    match self.PlayerCameraComponent with
    | none => none
    | some Cam =>
      let PP1 : FPostProcessSettings :=
        { Cam.PostProcessSettings with
          bOverride_ReflectionMethod := true
          bOverride_DynamicGlobalIlluminationMethod := true }
      let PP2 : FPostProcessSettings :=
        match PPSettingsCurrent.DynamicGlobalIlluminationMethod with
        | .None => { PP1 with DynamicGlobalIlluminationMethod := .Lumen }
        | .Lumen => { PP1 with DynamicGlobalIlluminationMethod := .ScreenSpace }
        | .ScreenSpace => { PP1 with DynamicGlobalIlluminationMethod := .None }
        | .Plugin => PP1
      some { self with PlayerCameraComponent := some { Cam with PostProcessSettings := PP2 } }

/-- The member function `ToggleReflectionMethod()` (lines 419-440), with the same
conventions as `ToggleGlobalIlluminationMethod`. -/
def ToggleReflectionMethod (World : Option (UWorld α))
    (PPSettingsDefault : FPostProcessSettings) (self : ULumenSwitchComponentBase α) :
    Option (ULumenSwitchComponentBase α) :=
  if !self.bIsOVerrideEnabled then some self
  else
    let PPSettingsCurrent := GetCurrentPostProcessSettings World self PPSettingsDefault
    match self.PlayerCameraComponent with
    | none => none
    | some Cam =>
      let PP1 : FPostProcessSettings :=
        { Cam.PostProcessSettings with
          bOverride_ReflectionMethod := true
          bOverride_DynamicGlobalIlluminationMethod := true }
      let PP2 : FPostProcessSettings :=
        match PPSettingsCurrent.ReflectionMethod with
        | .None => { PP1 with ReflectionMethod := .Lumen }
        | .Lumen => { PP1 with ReflectionMethod := .ScreenSpace }
        | .ScreenSpace => { PP1 with ReflectionMethod := .None }
        | .Unknown => PP1
      some { self with PlayerCameraComponent := some { Cam with PostProcessSettings := PP2 } }

/-- The member function `IsCameraInside(PPVolume)` (lines 374-384). -/
def IsCameraInside (self : ULumenSwitchComponentBase α)
    (PPVolume : Option (APostProcessVolume α)) : Bool :=
  match PPVolume with
  | none => false
  | some V =>
    let Properties := V.GetProperties
    match self.PlayerCameraComponent with
    | some Cam => V.EncompassesPoint Cam.ComponentLocation Properties.BlendRadius
    | none => false

/-- The `int32` value that the integer `z` becomes when it is stored in an `int32` (wrap
around modulo `2 ^ 32` into the range from `-2 ^ 31` to `2 ^ 31 - 1`). -/
def WrapInt32 (z : Int) : Int := (z + 2147483648) % 4294967296 - 2147483648

/-- The member function `TickComponent(DeltaTime, ...)` (lines 80-93): the component after
the tick and the values passed to the callback `OnUpdateUI` during the tick, in call order.
`Round` is the rounding of the `float` format of the host: a `float` sum or quotient is the
exact one rounded, and `FrameCount / AccuTime` converts the `int32` to `float` first
(`Round = id` is exact arithmetic). `FrameCount++` wraps around in `int32`. -/
def TickComponent (Round : α → α) (self : ULumenSwitchComponentBase α) (DeltaTime : α) :
    ULumenSwitchComponentBase α × List α :=
  let calls1 : List α := if self.FPSRefreshRate = 0 then [DeltaTime] else []
  let self1 := { self with FrameCount := WrapInt32 (self.FrameCount + 1) }
  let self2 := { self1 with AccuTime := Round (self1.AccuTime + DeltaTime) }
  if self2.FPSRefreshRate ≤ self2.AccuTime then
    ({ self2 with FrameCount := 0, AccuTime := 0 },
      calls1 ++ [Round (Round (self2.FrameCount : α) / self2.AccuTime)])
  else (self2, calls1)

/-! ## Visualization -/

/-- The colour type of the host (`FColor`). -/
structure FColor where
  R : Nat
  G : Nat
  B : Nat
  A : Nat
deriving DecidableEq, Repr

/-- A line segment handed to the line batcher (`FBatchedLine`). -/
structure FBatchedLine (α : Type) where
  Start : FVector α
  End : FVector α
  Color : FColor
  RemainingLifeTime : α
  Thickness : α
  DepthPriority : Nat
deriving DecidableEq, Repr

/-- The array `XPoints` of `VisualizePPVol` (lines 245-266), in local space. -/
def VisualizePPVol.XPoints (X Y Z R F1 F2 F3 : α) : List (FVector α) :=
  [ ⟨X, -Y - R, -Z⟩,
    ⟨X, -Y - R, Z⟩,
    ⟨X, -Y - R * F3, Z + R * F1⟩,
    ⟨X, -Y - R * F2, Z + R * F2⟩,
    ⟨X, -Y - R * F1, Z + R * F3⟩,
    ⟨X, -Y, Z + R⟩,
    ⟨X, Y, Z + R⟩,
    ⟨X, Y + R * F1, Z + R * F3⟩,
    ⟨X, Y + R * F2, Z + R * F2⟩,
    ⟨X, Y + R * F3, Z + R * F1⟩,
    ⟨X, Y + R, Z⟩,
    ⟨X, Y + R, -Z⟩,
    ⟨X, Y + R * F3, -Z - R * F1⟩,
    ⟨X, Y + R * F2, -Z - R * F2⟩,
    ⟨X, Y + R * F1, -Z - R * F3⟩,
    ⟨X, Y, -Z - R⟩,
    ⟨X, -Y, -Z - R⟩,
    ⟨X, -Y - R * F1, -Z - R * F3⟩,
    ⟨X, -Y - R * F2, -Z - R * F2⟩,
    ⟨X, -Y - R * F3, -Z - R * F1⟩ ]

/-- The array `YPoints` of `VisualizePPVol` (lines 268-289), in local space. -/
def VisualizePPVol.YPoints (X Y Z R F1 F2 F3 : α) : List (FVector α) :=
  [ ⟨-X - R, Y, -Z⟩,
    ⟨-X - R, Y, Z⟩,
    ⟨-X - R * F3, Y, Z + R * F1⟩,
    ⟨-X - R * F2, Y, Z + R * F2⟩,
    ⟨-X - R * F1, Y, Z + R * F3⟩,
    ⟨-X, Y, Z + R⟩,
    ⟨X, Y, Z + R⟩,
    ⟨X + R * F1, Y, Z + R * F3⟩,
    ⟨X + R * F2, Y, Z + R * F2⟩,
    ⟨X + R * F3, Y, Z + R * F1⟩,
    ⟨X + R, Y, Z⟩,
    ⟨X + R, Y, -Z⟩,
    ⟨X + R * F3, Y, -Z - R * F1⟩,
    ⟨X + R * F2, Y, -Z - R * F2⟩,
    ⟨X + R * F1, Y, -Z - R * F3⟩,
    ⟨X, Y, -Z - R⟩,
    ⟨-X, Y, -Z - R⟩,
    ⟨-X - R * F1, Y, -Z - R * F3⟩,
    ⟨-X - R * F2, Y, -Z - R * F2⟩,
    ⟨-X - R * F3, Y, -Z - R * F1⟩ ]

/-- The array `ZPoints` of `VisualizePPVol` (lines 291-312), in local space. -/
def VisualizePPVol.ZPoints (X Y Z R F1 F2 F3 : α) : List (FVector α) :=
  [ ⟨-X, -Y - R, Z⟩,
    ⟨X, -Y - R, Z⟩,
    ⟨X + R * F1, -Y - R * F3, Z⟩,
    ⟨X + R * F2, -Y - R * F2, Z⟩,
    ⟨X + R * F3, -Y - R * F1, Z⟩,
    ⟨X + R, -Y, Z⟩,
    ⟨X + R, Y, Z⟩,
    ⟨X + R * F3, Y + R * F1, Z⟩,
    ⟨X + R * F2, Y + R * F2, Z⟩,
    ⟨X + R * F1, Y + R * F3, Z⟩,
    ⟨X, Y + R, Z⟩,
    ⟨-X, Y + R, Z⟩,
    ⟨-X - R * F1, Y + R * F3, Z⟩,
    ⟨-X - R * F2, Y + R * F2, Z⟩,
    ⟨-X - R * F3, Y + R * F1, Z⟩,
    ⟨-X - R, Y, Z⟩,
    ⟨-X - R, -Y, Z⟩,
    ⟨-X - R * F3, -Y - R * F1, Z⟩,
    ⟨-X - R * F2, -Y - R * F2, Z⟩,
    ⟨-X - R * F1, -Y - R * F3, Z⟩ ]

/-- The element access `Points[i]` on an array of vectors. Every access in `VisualizePPVol`
is within the 20 elements of the array. -/
def VisualizePPVol.elemAt (Points : List (FVector α)) (i : Nat) : FVector α :=
  Points.getD i ⟨0, 0, 0⟩

/-- The segment `FBatchedLine(Points[i], Points[j], Color, LifeTime, Thickness, 0)` added to
`LineSegments` (lines 344-356). -/
def VisualizePPVol.Line (Color : FColor) (LifeTime Thickness : α) (Points : List (FVector α))
    (i j : Nat) : FBatchedLine α :=
  ⟨VisualizePPVol.elemAt Points i, VisualizePPVol.elemAt Points j, Color, LifeTime, Thickness, 0⟩

/-- The member function `VisualizePPVol(PPVol, Color, LifeTime, Thickness)` (lines 221-359):
the line segments passed to `LineBatcher->DrawLines`, in order; the empty list when the
function returns before drawing. `Sin`, `Cos` and `PI` are `FMath::Sin`, `FMath::Cos` and
`UE_PI` of the host. The test on the number of brush points (lines 229-232) only logs. -/
def VisualizePPVol (Sin Cos : α → α) (PI : α) (World : Option (UWorld α))
    (PPVol : Option (APostProcessVolume α)) (Color : FColor) (LifeTime Thickness : α) :
    List (FBatchedLine α) :=
  match World, PPVol with
  | some _, some V =>
    if V.bUnbound then []
    else
      match V.BrushPoints with
      | none => []
      | some _ =>
        let Scale := V.Scale3D
        let R := V.BlendRadius
        let X := Scale.X * 100
        let Y := Scale.Y * 100
        let Z := Scale.Z * 100
        let F1 := Sin (PI / 8)
        let F2 := Sin (PI / 4)
        let F3 := Cos (PI / 8)
        let XPoints := VisualizePPVol.XPoints X Y Z R F1 F2 F3
        let YPoints := VisualizePPVol.YPoints X Y Z R F1 F2 F3
        let ZPoints := VisualizePPVol.ZPoints X Y Z R F1 F2 F3
        let XPointsA := XPoints.map fun Point => V.TransformPositionNoScale Point
        let XPointsB := XPoints.map fun Point =>
          V.TransformPositionNoScale ⟨-Point.X, Point.Y, Point.Z⟩
        let YPointsA := YPoints.map fun Point => V.TransformPositionNoScale Point
        let YPointsB := YPoints.map fun Point =>
          V.TransformPositionNoScale ⟨Point.X, -Point.Y, Point.Z⟩
        let ZPointsA := ZPoints.map fun Point => V.TransformPositionNoScale Point
        let ZPointsB := ZPoints.map fun Point =>
          V.TransformPositionNoScale ⟨Point.X, Point.Y, -Point.Z⟩
        let Last : Nat := XPointsA.length - 1
        (List.range Last).flatMap (fun i =>
          [ VisualizePPVol.Line Color LifeTime Thickness XPointsA i (i + 1),
            VisualizePPVol.Line Color LifeTime Thickness XPointsB i (i + 1),
            VisualizePPVol.Line Color LifeTime Thickness YPointsA i (i + 1),
            VisualizePPVol.Line Color LifeTime Thickness YPointsB i (i + 1),
            VisualizePPVol.Line Color LifeTime Thickness ZPointsA i (i + 1),
            VisualizePPVol.Line Color LifeTime Thickness ZPointsB i (i + 1) ])
        ++ [ VisualizePPVol.Line Color LifeTime Thickness XPointsA Last 0,
             VisualizePPVol.Line Color LifeTime Thickness XPointsB Last 0,
             VisualizePPVol.Line Color LifeTime Thickness YPointsA Last 0,
             VisualizePPVol.Line Color LifeTime Thickness YPointsB Last 0,
             VisualizePPVol.Line Color LifeTime Thickness ZPointsA Last 0,
             VisualizePPVol.Line Color LifeTime Thickness ZPointsB Last 0 ]
  | _, _ => []

/-- A linear colour of the host (`FLinearColor`). -/
structure FLinearColor (α : Type) where
  R : α
  G : α
  B : α
  A : α
deriving DecidableEq, Repr

/-- The colour curve asset (`UCurveLinearColor`): its member function
`GetLinearColorValue`. -/
structure UCurveLinearColor (α : Type) where
  GetLinearColorValue : α → FLinearColor α

/-- The `for` loop of `VisualizePostprocessVolumesInLevel` (lines 191-210) over the remaining
entries of the volume array: the values passed to `GetLinearColorValue` and the segments
submitted to the line batcher, both in order. The `return` of line 200 ends the loop.
`SMALL_NUMBER` is `UE_SMALL_NUMBER` and `ToFColor` is `FLinearColor::ToFColor(true)` of the
host; `VisualizationColor` and `VisualizationColorCurve` are the members of the component of
these names. -/
def VisualizePostprocessVolumesInLevel.loop (Sin Cos : α → α) (PI SMALL_NUMBER : α)
    (ToFColor : FLinearColor α → FColor) (World : Option (UWorld α))
    (self : ULumenSwitchComponentBase α) (VisualizationColor : FLinearColor α)
    (VisualizationColorCurve : Option (UCurveLinearColor α)) (LifeTime : α) :
    List (IInterface_PostProcessVolume α) → List α × List (FBatchedLine α)
  | [] => ([], [])
  | PPVolInterface :: rest =>
    match PPVolInterface.Cast with
    | some PPVol =>
      if self.bColorizeByPriority then
        match VisualizationColorCurve with
        | none => ([], [])
        | some Curve =>
          let RelativePrio : α :=
            if self.MaxPPVolPrioInLevel < SMALL_NUMBER then 1
            else PPVol.Priority / self.MaxPPVolPrioInLevel
          let Lines := VisualizePPVol Sin Cos PI World (some PPVol)
            (ToFColor (Curve.GetLinearColorValue RelativePrio)) LifeTime
            self.VisualizationLineThickness
          let Rest := VisualizePostprocessVolumesInLevel.loop Sin Cos PI SMALL_NUMBER ToFColor
            World self VisualizationColor VisualizationColorCurve LifeTime rest
          (RelativePrio :: Rest.1, Lines ++ Rest.2)
      else
        let Lines := VisualizePPVol Sin Cos PI World (some PPVol) (ToFColor VisualizationColor)
          LifeTime self.VisualizationLineThickness
        let Rest := VisualizePostprocessVolumesInLevel.loop Sin Cos PI SMALL_NUMBER ToFColor
          World self VisualizationColor VisualizationColorCurve LifeTime rest
        (Rest.1, Lines ++ Rest.2)
    | none =>
      VisualizePostprocessVolumesInLevel.loop Sin Cos PI SMALL_NUMBER ToFColor World self
        VisualizationColor VisualizationColorCurve LifeTime rest

/-- The member function `VisualizePostprocessVolumesInLevel(LifeTime)` (lines 185-211): the
values passed to the colour curve and the segments submitted to the line batcher during the
call. -/
def VisualizePostprocessVolumesInLevel (Sin Cos : α → α) (PI SMALL_NUMBER : α)
    (ToFColor : FLinearColor α → FColor) (World : Option (UWorld α))
    (self : ULumenSwitchComponentBase α) (VisualizationColor : FLinearColor α)
    (VisualizationColorCurve : Option (UCurveLinearColor α)) (LifeTime : α) :
    List α × List (FBatchedLine α) :=
  if !self.bVisualizePPVolBounds then ([], [])
  else
    match World with
    | none => ([], [])
    | some W =>
      VisualizePostprocessVolumesInLevel.loop Sin Cos PI SMALL_NUMBER ToFColor World self
        VisualizationColor VisualizationColorCurve LifeTime W.PostProcessVolumes

/-! ## Start of play and the host volumes -/

/-- The owner of the component when it is a character (`ACharacter`): the camera component
found by `FindComponentByClass<UCameraComponent>()`, null when there is none. -/
structure ACharacter (α : Type) where
  CameraComponent : Option (UCameraComponent α)

/-- The member function `BeginPlay()` (lines 38-77): the component after the call and the
segments submitted to the line batcher by the call of line 75; `none` when the camera pointer
is dereferenced while null (line 67). `OwnerCharacter` is the result of
`Cast<ACharacter>(GetOwner())`. `SetupEnhancedInput` and `GetDefaultLumen_HardwareRayTracing`
act on the input subsystem and on a member that no modelled function reads, and are left
out. The other parameters are those of `VisualizePostprocessVolumesInLevel` and of
`ToggleGlobalIlluminationMethod`. -/
def BeginPlay (Sin Cos : α → α) (PI SMALL_NUMBER : α) (ToFColor : FLinearColor α → FColor)
    (World : Option (UWorld α)) (OwnerCharacter : Option (ACharacter α))
    (PPSettingsDefault : FPostProcessSettings) (self : ULumenSwitchComponentBase α)
    (VisualizationColor : FLinearColor α)
    (VisualizationColorCurve : Option (UCurveLinearColor α)) :
    Option (ULumenSwitchComponentBase α × List (FBatchedLine α)) :=
  let self1 :=
    match OwnerCharacter with
    | some Owner => { self with PlayerCameraComponent := Owner.CameraComponent }
    | none => self
  let self2 := { self1 with bIsOVerrideEnabled := self1.bEnableAtStart }
  let Result := GetPostProcessVolumesInLevel World self2 self2.PPVolumesInLevel true
  let self3 := { self2 with MaxPPVolPrioInLevel := Result.1, PPVolumesInLevel := Result.2 }
  let CurrentPPSettings := GetCurrentPostProcessSettings World self3 PPSettingsDefault
  match self3.PlayerCameraComponent with
  | none => none
  | some Cam =>
    let self4 :=
      { self3 with
        PlayerCameraComponent := some
          { Cam with
            PostProcessSettings :=
              { Cam.PostProcessSettings with
                bOverride_SceneColorTint := false
                bOverride_ReflectionMethod := self3.bIsOVerrideEnabled
                ReflectionMethod := CurrentPPSettings.ReflectionMethod
                bOverride_DynamicGlobalIlluminationMethod := self3.bIsOVerrideEnabled
                DynamicGlobalIlluminationMethod :=
                  CurrentPPSettings.DynamicGlobalIlluminationMethod } } }
    let Lines :=
      if self4.bVisualizePPVolBounds then
        (VisualizePostprocessVolumesInLevel Sin Cos PI SMALL_NUMBER ToFColor World self4
          VisualizationColor VisualizationColorCurve (-1)).2
      else []
    some (self4, Lines)

/-- The member function `DisableAllPostprocessVolumesInLevel()` (lines 170-182): the world
and the component after the call. The volume array is read through `World` (line 173) before
the null test of line 174, so the result is `none` when there is no world. -/
def DisableAllPostprocessVolumesInLevel (World : Option (UWorld α))
    (self : ULumenSwitchComponentBase α) :
    Option (UWorld α × ULumenSwitchComponentBase α) :=
  match World with
  | none => none
  | some W =>
    some ({ W with
            PostProcessVolumes := W.PostProcessVolumes.map fun PPVolInterface =>
              match PPVolInterface.Cast with
              | some PPVol => .Volume { PPVol with bEnabled := false }
              | none => PPVolInterface }, self)

/-! ## Auxiliary notions used to state the properties -/

/-- The post process volume actors among the entries of the volume array, in array order. -/
def Volumes (l : List (IInterface_PostProcessVolume α)) : List (APostProcessVolume α) :=
  l.filterMap IInterface_PostProcessVolume.Cast

/-- Squared Euclidean distance of two points. -/
def DistSquared (a b : FVector α) : α :=
  (a.X - b.X) ^ 2 + (a.Y - b.Y) ^ 2 + (a.Z - b.Z) ^ 2

/-- Membership of a point in the axis aligned box `[-H, H]` of the local frame. -/
def InBox (H p : FVector α) : Prop :=
  |p.X| ≤ H.X ∧ |p.Y| ≤ H.Y ∧ |p.Z| ≤ H.Z

instance (H p : FVector α) : Decidable (InBox H p) := by
  unfold InBox; infer_instance

/-- The 120 local space vertices of `VisualizePPVol`: the arrays `XPoints`, `YPoints`,
`ZPoints` (the arguments of `TransformPositionNoScale` for the `A` arrays) and their copies
with the first, second and third coordinate negated (the arguments for the `B` arrays,
lines 321-335). -/
def VisualizePPVol.LocalVertices (X Y Z R F1 F2 F3 : α) : List (FVector α) :=
  VisualizePPVol.XPoints X Y Z R F1 F2 F3
    ++ (VisualizePPVol.XPoints X Y Z R F1 F2 F3).map (fun P => ⟨-P.X, P.Y, P.Z⟩)
    ++ VisualizePPVol.YPoints X Y Z R F1 F2 F3
    ++ (VisualizePPVol.YPoints X Y Z R F1 F2 F3).map (fun P => ⟨P.X, -P.Y, P.Z⟩)
    ++ VisualizePPVol.ZPoints X Y Z R F1 F2 F3
    ++ (VisualizePPVol.ZPoints X Y Z R F1 F2 F3).map (fun P => ⟨P.X, P.Y, -P.Z⟩)

/-- The amount by which the coordinate `x` lies outside the interval `[-h, h]`. -/
def Excess (h x : α) : α := max (|x| - h) 0

/-- The point of the interval `[-h, h]` nearest to `x`. -/
def ClampCoord (h x : α) : α := max (-h) (min h x)

/-- The point of the box `[-H, H]` nearest to `p`. -/
def Clamp (H p : FVector α) : FVector α :=
  ⟨ClampCoord H.X p.X, ClampCoord H.Y p.Y, ClampCoord H.Z p.Z⟩

/-- Squared distance of `p` from the box `[-H, H]` (zero inside). -/
def BoxDistSquared (H p : FVector α) : α :=
  Excess H.X p.X ^ 2 + Excess H.Y p.Y ^ 2 + Excess H.Z p.Z ^ 2

/-- The entry of the volume array with its enabled flag set to `b` and nothing else
changed. -/
def IInterface_PostProcessVolume.withEnabled (b : Bool) :
    IInterface_PostProcessVolume α → IInterface_PostProcessVolume α
  | .Volume V => .Volume { V with bEnabled := b }
  | .Other P E => .Other { P with bIsEnabled := b } E

/-- A call of one of the three toggle functions; the two method toggles carry the world as
it is at the time of the call. -/
inductive ToggleCall (α : Type) where
  | Overrides
  | GlobalIlluminationMethod (World : Option (UWorld α))
  | ReflectionMethod (World : Option (UWorld α))

/-- The component after one toggle call (`none` when the call fails). -/
def ToggleCall.apply (D : FPostProcessSettings) :
    ToggleCall α → ULumenSwitchComponentBase α → Option (ULumenSwitchComponentBase α)
  | .Overrides, self => some (ToggleOverrides self).2
  | .GlobalIlluminationMethod World, self => ToggleGlobalIlluminationMethod World D self
  | .ReflectionMethod World, self => ToggleReflectionMethod World D self

/-- The component after a sequence of toggle calls, made in list order. -/
def RunCalls (D : FPostProcessSettings) :
    List (ToggleCall α) → ULumenSwitchComponentBase α → Option (ULumenSwitchComponentBase α)
  | [], self => some self
  | c :: cs, self => (c.apply D self).bind (RunCalls D cs)

/-- The cosine column of the corner table of `VisualizePPVol`: the factors 1, `F3`, `F2`,
`F1`, 0 at the steps 0 to 4. -/
def ArcCos (F1 F2 F3 : α) : Nat → α
  | 0 => 1
  | 1 => F3
  | 2 => F2
  | 3 => F1
  | _ => 0

/-- The sine column of the corner table of `VisualizePPVol`: the factors 0, `F1`, `F2`, `F3`,
1 at the steps 0 to 4. -/
def ArcSin (F1 F2 F3 : α) : Nat → α
  | 0 => 0
  | 1 => F1
  | 2 => F2
  | 3 => F3
  | _ => 1

/-! ## Sample data (over `ℚ`) on which the definitions are evaluated -/

namespace Sample

/-- A post process settings value with both overrides set. -/
def Settings (r : EReflectionMethod) (g : EDynamicGlobalIlluminationMethod) (b : Bool) :
    FPostProcessSettings :=
  { bOverride_SceneColorTint := false
    bOverride_ReflectionMethod := b
    ReflectionMethod := r
    bOverride_DynamicGlobalIlluminationMethod := b
    DynamicGlobalIlluminationMethod := g }

/-- A camera at the origin. -/
def Camera (r : EReflectionMethod) (g : EDynamicGlobalIlluminationMethod) (b : Bool) :
    UCameraComponent ℚ :=
  { ComponentLocation := ⟨0, 0, 0⟩, PostProcessSettings := Settings r g b }

/-- A component with the header defaults and the given override state and camera. -/
def Component (enabled : Bool) (Cam : Option (UCameraComponent ℚ)) :
    ULumenSwitchComponentBase ℚ :=
  { bEnableAtStart := true
    FPSRefreshRate := 3 / 10
    bVisualizePPVolBounds := false
    VisualizationLineThickness := 1
    bColorizeByPriority := false
    FrameCount := 0
    AccuTime := 0
    bIsOVerrideEnabled := enabled
    MaxPPVolPrioInLevel := 0
    PlayerCameraComponent := Cam
    PPVolumesInLevel := [] }

/-- A unit scale volume at the origin whose box test answers the constant `inside`. -/
def Volume (label : FName) (priority : ℚ) (enabled unbound inside : Bool) :
    APostProcessVolume ℚ :=
  { ActorLabel := label
    bEnabled := enabled
    bUnbound := unbound
    BlendRadius := 0
    Priority := priority
    Scale3D := ⟨1, 1, 1⟩
    TransformPositionNoScale := fun P => P
    BrushPoints := some 8
    EncompassesPoint := fun _ _ => inside }

/-- A world holding the given volume actors and no local player. -/
def World (l : List (APostProcessVolume ℚ)) : UWorld ℚ :=
  { PostProcessVolumes := l.map IInterface_PostProcessVolume.Volume
    FirstLocalPlayerFromController := none }

/-- A local player whose scene view reports the post process settings of the camera (no view
without a camera). -/
def Player : ULocalPlayer ℚ :=
  { CalcSceneView := fun C => C.map fun c => ⟨c.PostProcessSettings⟩ }

/-- A world without volumes whose local player is `Player`. -/
def ViewWorld : UWorld ℚ :=
  { PostProcessVolumes := [], FirstLocalPlayerFromController := some Player }

/-- A bounded box volume of scale (1, 2, 3) with blend radius `R`, placed by a quarter turn
about the Z axis followed by a translation. -/
def BoxVolume (α : Type) [LinearOrderedField α] (R : α) : APostProcessVolume α :=
  { ActorLabel := "Box"
    bEnabled := true
    bUnbound := false
    BlendRadius := R
    Priority := 1
    Scale3D := ⟨1, 2, 3⟩
    TransformPositionNoScale := fun P => ⟨-P.Y + 10, P.X, P.Z + 5⟩
    BrushPoints := some 8
    EncompassesPoint := fun _ _ => false }

/-- A rational stand-in for `FMath::Sin`. -/
def Sin (x : ℚ) : ℚ := x - x ^ 3 / 6

/-- A rational stand-in for `FMath::Cos`. -/
def Cos (x : ℚ) : ℚ := 1 - x ^ 2 / 2

/-- A rational stand-in for `UE_PI`. -/
def PI : ℚ := 22 / 7

/-- The component `Component true none` with refresh interval 0. -/
def EveryTick : ULumenSwitchComponentBase ℚ :=
  { Component true none with FPSRefreshRate := 0 }

/-- The box volume with a brush of 6 points. -/
def SixPointVolume : APostProcessVolume ℚ :=
  { BoxVolume ℚ 20 with BrushPoints := some 6 }

/-- A component that visualizes, colouring by priority or not, with the given stored maximum
priority. -/
def Visualizer (byPriority : Bool) (maxPriority : ℚ) : ULumenSwitchComponentBase ℚ :=
  { Component true (some (Camera .None .None true)) with
    bVisualizePPVolBounds := true
    bColorizeByPriority := byPriority
    MaxPPVolPrioInLevel := maxPriority }

/-- A colour curve from black to green. -/
def Curve : UCurveLinearColor ℚ :=
  { GetLinearColorValue := fun t => ⟨0, t, 0, 1⟩ }

/-- A conversion of linear colours that keeps only opacity. -/
def ToFColor (_c : FLinearColor ℚ) : FColor := ⟨0, 0, 0, 255⟩

/-- A rational stand-in for `UE_SMALL_NUMBER`. -/
def SMALL_NUMBER : ℚ := 1 / 100000000

/-- A snapshot entry. -/
def Info : FPostProcessVolumeInfo ℚ :=
  { bIsEnabled := true, bIsInfinte := false, Priority := 3, bCameraEncompassed := false }

/-- A default constructed settings value with both methods Lumen. -/
def DefaultSettings : FPostProcessSettings := Settings .Lumen .Lumen false

/-- A character owning the camera at the origin with both methods Lumen and no override
set. -/
def Character : ACharacter ℚ :=
  { CameraComponent := some (Camera .Lumen .Lumen false) }

/-- A world without volumes whose view reports the global illumination method Plugin and a
reflection method outside the three named ones. -/
def PluginWorld : UWorld ℚ :=
  { PostProcessVolumes := []
    FirstLocalPlayerFromController := some
      { CalcSceneView := fun _ => some ⟨Settings .Unknown .Plugin false⟩ } }

/-- A world without volumes and without local player, over any field. -/
def EmptyWorld (α : Type) : UWorld α :=
  { PostProcessVolumes := [], FirstLocalPlayerFromController := none }

/-- Rounding to the nearest `float` (single precision, 24 bit significand) for values of
the two binades in which the sums and quotients of the sampler examples lie: multiples of
`2 ^ (-25)` on `[1/4, 1/2)` and of `2 ^ (-22)` on `[2, 4)`. Elsewhere the identity (the other
values that occur in the examples are representable). -/
def RoundSingle (x : ℚ) : ℚ :=
  if 1 / 4 ≤ x ∧ x < 1 / 2 then (⌊x * 2 ^ 25 + 1 / 2⌋ : ℤ) / 2 ^ 25
  else if 2 ≤ x ∧ x < 4 then (⌊x * 2 ^ 22 + 1 / 2⌋ : ℤ) / 2 ^ 22
  else x

/-- A component without camera with the given refresh interval, frame count and accumulated
time. -/
def Sampler (T : ℚ) (n : Int) (a : ℚ) : ULumenSwitchComponentBase ℚ :=
  { Component true none with FPSRefreshRate := T, FrameCount := n, AccuTime := a }

end Sample

/-! ## Properties of the volume snapshot -/

theorem body_fst (Cam : UCameraComponent α) (acc : α × TMap FName (FPostProcessVolumeInfo α))
    (I : IInterface_PostProcessVolume α) :
    (GetPostProcessVolumesInLevel.body Cam acc I).1
      = ((I.Cast).map APostProcessVolume.Priority).getD acc.1 := by
  cases I <;> rfl

theorem foldl_body_fst (Cam : UCameraComponent α) (l : List (IInterface_PostProcessVolume α))
    (acc : α × TMap FName (FPostProcessVolumeInfo α)) :
    (l.foldl (GetPostProcessVolumesInLevel.body Cam) acc).1
      = ((Volumes l).getLast?.map APostProcessVolume.Priority).getD acc.1 := by
  induction l using List.reverseRecOn with
  | nil => rfl
  | append_singleton l I ih =>
    rw [List.foldl_append, List.foldl_cons, List.foldl_nil, body_fst, ih]
    cases I with
    | Volume V =>
      simp [Volumes, IInterface_PostProcessVolume.Cast, List.filterMap_append]
    | Other P E =>
      simp [Volumes, IInterface_PostProcessVolume.Cast, List.filterMap_append]

/-- Claim C1, as amended: with a world and an attached camera, if the volume actors of the
array stand in ascending order of priority (the order the host keeps), the value returned by
`GetPostProcessVolumesInLevel` is `0` when there is no volume actor and otherwise the largest
priority among all of them, whatever their enabled flags. -/
theorem GetPostProcessVolumesInLevel_max_of_sorted (W : UWorld α)
    (self : ULumenSwitchComponentBase α) (Cam : UCameraComponent α)
    (PPVolMap : TMap FName (FPostProcessVolumeInfo α)) (bDebug : Bool)
    (hcam : self.PlayerCameraComponent = some Cam)
    (hsorted : (Volumes W.PostProcessVolumes).Pairwise
      (fun a b => a.Priority ≤ b.Priority)) :
    (Volumes W.PostProcessVolumes = [] ∧
        (GetPostProcessVolumesInLevel (some W) self PPVolMap bDebug).1 = 0) ∨
      ((∃ V ∈ Volumes W.PostProcessVolumes,
          V.Priority = (GetPostProcessVolumesInLevel (some W) self PPVolMap bDebug).1) ∧
        ∀ V ∈ Volumes W.PostProcessVolumes,
          V.Priority ≤ (GetPostProcessVolumesInLevel (some W) self PPVolMap bDebug).1) := by
  have hr : (GetPostProcessVolumesInLevel (some W) self PPVolMap bDebug).1
      = ((Volumes W.PostProcessVolumes).getLast?.map APostProcessVolume.Priority).getD 0 := by
    simp only [GetPostProcessVolumesInLevel, hcam]
    exact foldl_body_fst Cam _ _
  rw [hr]
  rcases List.eq_nil_or_concat (Volumes W.PostProcessVolumes) with h | ⟨vs, V, h⟩
  · left; simp [h]
  · right
    rw [h] at hsorted ⊢
    simp only [List.concat_eq_append] at hsorted ⊢
    rw [List.pairwise_append] at hsorted
    simp only [List.getLast?_append, List.getLast?_singleton, Option.map_some',
      Option.getD_some, List.mem_append, List.mem_singleton]
    refine ⟨⟨V, Or.inr rfl, ?_⟩, ?_⟩
    · simp
    · rintro V' (hV' | rfl)
      · simpa using hsorted.2.2 V' hV' V (by simp)
      · simp

/-- Sample evaluation for claim C1 (amended): the array [A (priority 5, enabled),
B (priority 10, disabled)] is sorted and the returned value is its largest priority. -/
theorem GetPostProcessVolumesInLevel_max_of_sorted_witness :
    (Sample.Component true (some (Sample.Camera .None .None true))).PlayerCameraComponent
        = some (Sample.Camera .None .None true) ∧
      (Volumes (Sample.World [Sample.Volume "A" 5 true false true,
          Sample.Volume "B" 10 false false true]).PostProcessVolumes).Pairwise
        (fun a b => a.Priority ≤ b.Priority) ∧
      ((Volumes (Sample.World [Sample.Volume "A" 5 true false true,
            Sample.Volume "B" 10 false false true]).PostProcessVolumes = [] ∧
          (GetPostProcessVolumesInLevel
            (some (Sample.World [Sample.Volume "A" 5 true false true,
              Sample.Volume "B" 10 false false true]))
            (Sample.Component true (some (Sample.Camera .None .None true))) [] false).1 = 0) ∨
        ((∃ V ∈ Volumes (Sample.World [Sample.Volume "A" 5 true false true,
              Sample.Volume "B" 10 false false true]).PostProcessVolumes,
            V.Priority = (GetPostProcessVolumesInLevel
              (some (Sample.World [Sample.Volume "A" 5 true false true,
                Sample.Volume "B" 10 false false true]))
              (Sample.Component true (some (Sample.Camera .None .None true))) [] false).1) ∧
          ∀ V ∈ Volumes (Sample.World [Sample.Volume "A" 5 true false true,
              Sample.Volume "B" 10 false false true]).PostProcessVolumes,
            V.Priority ≤ (GetPostProcessVolumesInLevel
              (some (Sample.World [Sample.Volume "A" 5 true false true,
                Sample.Volume "B" 10 false false true]))
              (Sample.Component true (some (Sample.Camera .None .None true))) [] false).1)) :=
  ⟨rfl, by
      simp only [Volumes, Sample.World, Sample.Volume, IInterface_PostProcessVolume.Cast,
        List.map, List.filterMap, List.pairwise_cons, List.mem_cons, List.mem_singleton,
        List.not_mem_nil, forall_eq_or_imp, forall_eq, List.Pairwise.nil]
      norm_num,
    GetPostProcessVolumesInLevel_max_of_sorted _ _ _ [] false rfl
      (by
      simp only [Volumes, Sample.World, Sample.Volume, IInterface_PostProcessVolume.Cast,
        List.map, List.filterMap, List.pairwise_cons, List.mem_cons, List.mem_singleton,
        List.not_mem_nil, forall_eq_or_imp, forall_eq, List.Pairwise.nil]
      norm_num)⟩

/-- Claim C1 fails as stated: with a camera attached, on the array [A (priority 10),
B (priority 5)] the returned value is 5, below the priority 10 of the volume A of the array,
and on the permuted array [B, A] the returned value is 10. -/
theorem GetPostProcessVolumesInLevel_returns_last_priority :
    (Sample.Component true (some (Sample.Camera .None .None true))).PlayerCameraComponent
        = some (Sample.Camera .None .None true) ∧
      (GetPostProcessVolumesInLevel
        (some (Sample.World [Sample.Volume "A" 10 true false true,
          Sample.Volume "B" 5 true false true]))
        (Sample.Component true (some (Sample.Camera .None .None true))) [] false).1 = 5 ∧
      (∃ V ∈ Volumes (Sample.World [Sample.Volume "A" 10 true false true,
          Sample.Volume "B" 5 true false true]).PostProcessVolumes,
        (GetPostProcessVolumesInLevel
          (some (Sample.World [Sample.Volume "A" 10 true false true,
            Sample.Volume "B" 5 true false true]))
          (Sample.Component true (some (Sample.Camera .None .None true))) [] false).1
          < V.Priority) ∧
      (GetPostProcessVolumesInLevel
        (some (Sample.World [Sample.Volume "B" 5 true false true,
          Sample.Volume "A" 10 true false true]))
        (Sample.Component true (some (Sample.Camera .None .None true))) [] false).1 = 10 ∧
      List.Perm [Sample.Volume "A" 10 true false true, Sample.Volume "B" 5 true false true]
        [Sample.Volume "B" 5 true false true, Sample.Volume "A" 10 true false true] :=
  ⟨rfl, rfl,
    ⟨Sample.Volume "A" 10 true false true, List.mem_cons_self _ _, by
      show (5 : ℚ) < 10
      norm_num⟩,
    rfl, List.Perm.swap _ _ _⟩

theorem TMap.Find_Add {κ ν : Type} [DecidableEq κ] (m : TMap κ ν) (k k' : κ) (v : ν) :
    TMap.Find (TMap.Add m k v) k' = if k = k' then some v else TMap.Find m k' := by
  induction m with
  | nil => simp [TMap.Add, TMap.Find]
  | cons p rest ih =>
    obtain ⟨a, b⟩ := p
    by_cases h : a = k
    · subst h
      by_cases h' : a = k' <;> simp [TMap.Add, TMap.Find, h']
    · by_cases h' : a = k'
      · subst h'
        have h2 : ¬ k = a := fun e => h e.symm
        simp [TMap.Add, TMap.Find, h, h2]
      · simp [TMap.Add, TMap.Find, h, h', ih]

theorem foldl_body_find (Cam : UCameraComponent α) (n : FName)
    (l : List (IInterface_PostProcessVolume α))
    (acc : α × TMap FName (FPostProcessVolumeInfo α)) :
    TMap.Find (l.foldl (GetPostProcessVolumesInLevel.body Cam) acc).2 n
      = match ((Volumes l).filter (fun V => V.ActorLabel = n)).getLast? with
        | some V =>
          some { bIsEnabled := V.bEnabled
                 bIsInfinte := V.bUnbound
                 Priority := V.Priority
                 bCameraEncompassed :=
                   V.EncompassesPoint Cam.ComponentLocation V.BlendRadius || V.bUnbound }
        | none => TMap.Find acc.2 n := by
  induction l using List.reverseRecOn with
  | nil => rfl
  | append_singleton l I ih =>
    rw [List.foldl_append, List.foldl_cons, List.foldl_nil]
    cases I with
    | Other P E =>
      simpa [Volumes, IInterface_PostProcessVolume.Cast, List.filterMap_append,
        GetPostProcessVolumesInLevel.body] using ih
    | Volume V =>
      simp only [GetPostProcessVolumesInLevel.body, IInterface_PostProcessVolume.Cast,
        TMap.Find_Add, IInterface_PostProcessVolume.GetProperties,
        IInterface_PostProcessVolume.EncompassesPoint, APostProcessVolume.GetProperties]
      by_cases h : V.ActorLabel = n
      · simp [Volumes, IInterface_PostProcessVolume.Cast, List.filterMap_append,
          List.filter_append, h]
      · simp only [h, if_false]
        rw [ih]
        simp [Volumes, IInterface_PostProcessVolume.Cast, List.filterMap_append,
          List.filter_append, h]

/-- Claim C2: with a world and an attached camera, for every prior content of the map and
every name carried by a volume actor of the array, the array has a last volume actor with that
name and the map after `GetPostProcessVolumesInLevel` stores under the name the status of
that one: enabled, infinite and priority copied from it and
`bCameraEncompassed = box test at the camera location with its blend radius || infinite`;
so the entry of an infinite volume has `bCameraEncompassed = true`. -/
theorem GetPostProcessVolumesInLevel_last_write_wins (W : UWorld α)
    (self : ULumenSwitchComponentBase α) (Cam : UCameraComponent α)
    (PPVolMap : TMap FName (FPostProcessVolumeInfo α)) (bDebug : Bool) (n : FName)
    (hcam : self.PlayerCameraComponent = some Cam)
    (hocc : ∃ V0 ∈ Volumes W.PostProcessVolumes, V0.ActorLabel = n) :
    ∃ V, ((Volumes W.PostProcessVolumes).filter (fun V => V.ActorLabel = n)).getLast? = some V ∧
      TMap.Find (GetPostProcessVolumesInLevel (some W) self PPVolMap bDebug).2 n
        = some { bIsEnabled := V.bEnabled
                 bIsInfinte := V.bUnbound
                 Priority := V.Priority
                 bCameraEncompassed :=
                   V.EncompassesPoint Cam.ComponentLocation V.BlendRadius || V.bUnbound } ∧
      (V.bUnbound = true →
        ∃ Info, TMap.Find (GetPostProcessVolumesInLevel (some W) self PPVolMap bDebug).2 n
            = some Info ∧ Info.bCameraEncompassed = true) := by
  obtain ⟨V0, hV0, hn⟩ := hocc
  have hne : (Volumes W.PostProcessVolumes).filter (fun V => V.ActorLabel = n) ≠ [] := by
    intro h
    have : V0 ∈ (Volumes W.PostProcessVolumes).filter (fun V => V.ActorLabel = n) := by
      simp [List.mem_filter, hV0, hn]
    rw [h] at this
    exact List.not_mem_nil _ this
  obtain ⟨V, hV⟩ : ∃ V, ((Volumes W.PostProcessVolumes).filter
      (fun V => V.ActorLabel = n)).getLast? = some V :=
    ⟨_, List.getLast?_eq_getLast _ hne⟩
  have hfind : TMap.Find (GetPostProcessVolumesInLevel (some W) self PPVolMap bDebug).2 n
      = some { bIsEnabled := V.bEnabled
               bIsInfinte := V.bUnbound
               Priority := V.Priority
               bCameraEncompassed :=
                 V.EncompassesPoint Cam.ComponentLocation V.BlendRadius || V.bUnbound } := by
    simp only [GetPostProcessVolumesInLevel, hcam]
    rw [foldl_body_find, hV]
  refine ⟨V, hV, hfind, fun hU => ⟨_, hfind, ?_⟩⟩
  simp [hU]

/-- Sample evaluation for claim C2: two volume actors named "A", the second one infinite with
a box test answering false; the entry under "A" is the status of the second one. -/
theorem GetPostProcessVolumesInLevel_last_write_wins_witness :
    ∃ V, ((Volumes (Sample.World [Sample.Volume "A" 5 true false true,
          Sample.Volume "A" 7 false true false]).PostProcessVolumes).filter
        (fun V => V.ActorLabel = "A")).getLast? = some V ∧
      TMap.Find (GetPostProcessVolumesInLevel
          (some (Sample.World [Sample.Volume "A" 5 true false true,
            Sample.Volume "A" 7 false true false]))
          (Sample.Component true (some (Sample.Camera .None .None true)))
          [("A", ⟨true, false, 1, false⟩)] false).2 "A"
        = some { bIsEnabled := V.bEnabled
                 bIsInfinte := V.bUnbound
                 Priority := V.Priority
                 bCameraEncompassed :=
                   V.EncompassesPoint (Sample.Camera .None .None true).ComponentLocation
                     V.BlendRadius || V.bUnbound } ∧
      (V.bUnbound = true →
        ∃ Info, TMap.Find (GetPostProcessVolumesInLevel
            (some (Sample.World [Sample.Volume "A" 5 true false true,
              Sample.Volume "A" 7 false true false]))
            (Sample.Component true (some (Sample.Camera .None .None true)))
            [("A", ⟨true, false, 1, false⟩)] false).2 "A"
            = some Info ∧ Info.bCameraEncompassed = true) :=
  GetPostProcessVolumesInLevel_last_write_wins _ _ _ _ false "A" rfl
    ⟨Sample.Volume "A" 5 true false true, by
      simp [Volumes, Sample.World, IInterface_PostProcessVolume.Cast], rfl⟩

/-! ## Properties of the override controller -/

/-- Claim C3: with a camera attached, `ToggleOverrides` returns the negation of the previous
`bIsOVerrideEnabled`, leaves `bIsOVerrideEnabled` (and so `IsOverrideEnabled`) equal to the
returned value and sets both override flags of the camera to the returned value. -/
theorem ToggleOverrides_spec (self : ULumenSwitchComponentBase α) (Cam : UCameraComponent α)
    (hcam : self.PlayerCameraComponent = some Cam) :
    (ToggleOverrides self).1 = !self.bIsOVerrideEnabled ∧
      (ToggleOverrides self).2.bIsOVerrideEnabled = (ToggleOverrides self).1 ∧
      IsOverrideEnabled (ToggleOverrides self).2 = (ToggleOverrides self).1 ∧
      ∃ Cam1, (ToggleOverrides self).2.PlayerCameraComponent = some Cam1 ∧
        Cam1.PostProcessSettings.bOverride_ReflectionMethod = (ToggleOverrides self).1 ∧
        Cam1.PostProcessSettings.bOverride_DynamicGlobalIlluminationMethod
          = (ToggleOverrides self).1 := by
  simp [ToggleOverrides, IsOverrideEnabled, hcam]

/-- Sample evaluation for claim C3. -/
theorem ToggleOverrides_spec_witness :
    (Sample.Component true (some (Sample.Camera .Lumen .None true))).PlayerCameraComponent
        = some (Sample.Camera .Lumen .None true) ∧
      (ToggleOverrides (Sample.Component true (some (Sample.Camera .Lumen .None true)))).1
        = false :=
  ⟨rfl, (ToggleOverrides_spec (Sample.Component true (some (Sample.Camera .Lumen .None true)))
    (Sample.Camera .Lumen .None true) rfl).1⟩

/-- Claim C4: with a camera attached, two calls of `ToggleOverrides` in a row return
`bIsOVerrideEnabled` to its original value (the second call returns it), leave both override
flags of the camera equal to it, and leave both stored method values of the camera as they
were. -/
theorem ToggleOverrides_twice (self : ULumenSwitchComponentBase α) (Cam : UCameraComponent α)
    (hcam : self.PlayerCameraComponent = some Cam) :
    (ToggleOverrides (ToggleOverrides self).2).1 = self.bIsOVerrideEnabled ∧
      (ToggleOverrides (ToggleOverrides self).2).2.bIsOVerrideEnabled
        = self.bIsOVerrideEnabled ∧
      ∃ Cam2, (ToggleOverrides (ToggleOverrides self).2).2.PlayerCameraComponent = some Cam2 ∧
        Cam2.PostProcessSettings.bOverride_ReflectionMethod = self.bIsOVerrideEnabled ∧
        Cam2.PostProcessSettings.bOverride_DynamicGlobalIlluminationMethod
          = self.bIsOVerrideEnabled ∧
        Cam2.PostProcessSettings.ReflectionMethod = Cam.PostProcessSettings.ReflectionMethod ∧
        Cam2.PostProcessSettings.DynamicGlobalIlluminationMethod
          = Cam.PostProcessSettings.DynamicGlobalIlluminationMethod := by
  simp [ToggleOverrides, hcam]

/-- Sample evaluation for claim C4. -/
theorem ToggleOverrides_twice_witness :
    (Sample.Component false (some (Sample.Camera .Lumen .ScreenSpace false))).PlayerCameraComponent
        = some (Sample.Camera .Lumen .ScreenSpace false) ∧
      (ToggleOverrides (ToggleOverrides
        (Sample.Component false (some (Sample.Camera .Lumen .ScreenSpace false)))).2).1
        = false :=
  ⟨rfl, (ToggleOverrides_twice
    (Sample.Component false (some (Sample.Camera .Lumen .ScreenSpace false)))
    (Sample.Camera .Lumen .ScreenSpace false) rfl).1⟩

theorem ToggleGlobalIlluminationMethod_step (W : UWorld α) (LP : ULocalPlayer α)
    (D : FPostProcessSettings) (self : ULumenSwitchComponentBase α) (Cam : UCameraComponent α)
    (SV : FSceneView)
    (hLP : W.FirstLocalPlayerFromController = some LP)
    (hen : self.bIsOVerrideEnabled = true) (hcam : self.PlayerCameraComponent = some Cam)
    (hSV : LP.CalcSceneView (some Cam) = some SV) :
    ToggleGlobalIlluminationMethod (some W) D self
      = some { self with
          PlayerCameraComponent := some
            { Cam with
              PostProcessSettings :=
                { Cam.PostProcessSettings with
                  bOverride_ReflectionMethod := true
                  bOverride_DynamicGlobalIlluminationMethod := true
                  DynamicGlobalIlluminationMethod :=
                    match SV.FinalPostProcessSettings.DynamicGlobalIlluminationMethod with
                    | .None => .Lumen
                    | .Lumen => .ScreenSpace
                    | .ScreenSpace => .None
                    | .Plugin =>
                      Cam.PostProcessSettings.DynamicGlobalIlluminationMethod } } } := by
  simp only [ToggleGlobalIlluminationMethod, GetCurrentPostProcessSettings, hen, hcam, hLP, hSV]
  cases SV.FinalPostProcessSettings.DynamicGlobalIlluminationMethod <;> rfl

theorem ToggleReflectionMethod_step (W : UWorld α) (LP : ULocalPlayer α)
    (D : FPostProcessSettings) (self : ULumenSwitchComponentBase α) (Cam : UCameraComponent α)
    (SV : FSceneView)
    (hLP : W.FirstLocalPlayerFromController = some LP)
    (hen : self.bIsOVerrideEnabled = true) (hcam : self.PlayerCameraComponent = some Cam)
    (hSV : LP.CalcSceneView (some Cam) = some SV) :
    ToggleReflectionMethod (some W) D self
      = some { self with
          PlayerCameraComponent := some
            { Cam with
              PostProcessSettings :=
                { Cam.PostProcessSettings with
                  bOverride_ReflectionMethod := true
                  bOverride_DynamicGlobalIlluminationMethod := true
                  ReflectionMethod :=
                    match SV.FinalPostProcessSettings.ReflectionMethod with
                    | .None => .Lumen
                    | .Lumen => .ScreenSpace
                    | .ScreenSpace => .None
                    | .Unknown => Cam.PostProcessSettings.ReflectionMethod } } } := by
  simp only [ToggleReflectionMethod, GetCurrentPostProcessSettings, hen, hcam, hLP, hSV]
  cases SV.FinalPostProcessSettings.ReflectionMethod <;> rfl

theorem ToggleGlobalIlluminationMethod_advance (W : UWorld α) (LP : ULocalPlayer α)
    (D : FPostProcessSettings)
    (hLP : W.FirstLocalPlayerFromController = some LP)
    (self : ULumenSwitchComponentBase α) (Cam : UCameraComponent α)
    (hen : self.bIsOVerrideEnabled = true) (hcam : self.PlayerCameraComponent = some Cam)
    (hview : ∃ SV, LP.CalcSceneView (some Cam) = some SV ∧
      SV.FinalPostProcessSettings.DynamicGlobalIlluminationMethod = Cam.PostProcessSettings.DynamicGlobalIlluminationMethod) :
    ∃ s1 C1, ToggleGlobalIlluminationMethod (some W) D self = some s1 ∧
      s1.PlayerCameraComponent = some C1 ∧ s1.bIsOVerrideEnabled = true ∧
      C1.PostProcessSettings.bOverride_ReflectionMethod = true ∧
      C1.PostProcessSettings.bOverride_DynamicGlobalIlluminationMethod = true ∧
      C1.PostProcessSettings.DynamicGlobalIlluminationMethod
        = (match Cam.PostProcessSettings.DynamicGlobalIlluminationMethod with
          | .None => .Lumen
          | .Lumen => .ScreenSpace
          | .ScreenSpace => .None
          | .Plugin => .Plugin) := by
  obtain ⟨SV, hSV, hEq⟩ := hview
  refine ⟨_, _, ToggleGlobalIlluminationMethod_step W LP D self Cam SV hLP hen hcam hSV, rfl, hen, rfl, rfl, ?_⟩
  rw [hEq]
  cases Cam.PostProcessSettings.DynamicGlobalIlluminationMethod <;> rfl

theorem ToggleReflectionMethod_advance (W : UWorld α) (LP : ULocalPlayer α)
    (D : FPostProcessSettings)
    (hLP : W.FirstLocalPlayerFromController = some LP)
    (self : ULumenSwitchComponentBase α) (Cam : UCameraComponent α)
    (hen : self.bIsOVerrideEnabled = true) (hcam : self.PlayerCameraComponent = some Cam)
    (hview : ∃ SV, LP.CalcSceneView (some Cam) = some SV ∧
      SV.FinalPostProcessSettings.ReflectionMethod = Cam.PostProcessSettings.ReflectionMethod) :
    ∃ s1 C1, ToggleReflectionMethod (some W) D self = some s1 ∧
      s1.PlayerCameraComponent = some C1 ∧ s1.bIsOVerrideEnabled = true ∧
      C1.PostProcessSettings.bOverride_ReflectionMethod = true ∧
      C1.PostProcessSettings.bOverride_DynamicGlobalIlluminationMethod = true ∧
      C1.PostProcessSettings.ReflectionMethod
        = (match Cam.PostProcessSettings.ReflectionMethod with
          | .None => .Lumen
          | .Lumen => .ScreenSpace
          | .ScreenSpace => .None
          | .Unknown => .Unknown) := by
  obtain ⟨SV, hSV, hEq⟩ := hview
  refine ⟨_, _, ToggleReflectionMethod_step W LP D self Cam SV hLP hen hcam hSV, rfl, hen, rfl, rfl, ?_⟩
  rw [hEq]
  cases Cam.PostProcessSettings.ReflectionMethod <;> rfl

/-- Claim C5: let override be enabled and a camera be attached, and let the host view
resolve, for every camera whose override flag of a category is set, to the method value stored
in that camera for the category. For a category whose effective method in the start state is
the method stored in the camera, and is one of None, Lumen, ScreenSpace: one call of
`ToggleGlobalIlluminationMethod` (resp. `ToggleReflectionMethod`) takes the stored method
from None to Lumen, from Lumen to ScreenSpace and from ScreenSpace to None and sets both
override flags; override stays enabled; the first and the second call give a method different
from the start and the third call gives the start method back. -/
theorem Toggle_method_three_cycle (W : UWorld α) (LP : ULocalPlayer α)
    (D : FPostProcessSettings) (self : ULumenSwitchComponentBase α) (Cam : UCameraComponent α)
    (hLP : W.FirstLocalPlayerFromController = some LP)
    (hviewG : ∀ C : UCameraComponent α,
      C.PostProcessSettings.bOverride_DynamicGlobalIlluminationMethod = true →
        ∃ SV, LP.CalcSceneView (some C) = some SV ∧
          SV.FinalPostProcessSettings.DynamicGlobalIlluminationMethod
            = C.PostProcessSettings.DynamicGlobalIlluminationMethod)
    (hviewR : ∀ C : UCameraComponent α,
      C.PostProcessSettings.bOverride_ReflectionMethod = true →
        ∃ SV, LP.CalcSceneView (some C) = some SV ∧
          SV.FinalPostProcessSettings.ReflectionMethod
            = C.PostProcessSettings.ReflectionMethod)
    (hen : self.bIsOVerrideEnabled = true) (hcam : self.PlayerCameraComponent = some Cam) :
    ((∃ SV, LP.CalcSceneView (some Cam) = some SV ∧
          SV.FinalPostProcessSettings.DynamicGlobalIlluminationMethod
            = Cam.PostProcessSettings.DynamicGlobalIlluminationMethod) →
        Cam.PostProcessSettings.DynamicGlobalIlluminationMethod ≠ .Plugin →
        ∃ s1 s2 s3 C1 C2 C3,
          ToggleGlobalIlluminationMethod (some W) D self = some s1 ∧
          ToggleGlobalIlluminationMethod (some W) D s1 = some s2 ∧
          ToggleGlobalIlluminationMethod (some W) D s2 = some s3 ∧
          s1.PlayerCameraComponent = some C1 ∧ s2.PlayerCameraComponent = some C2 ∧
          s3.PlayerCameraComponent = some C3 ∧
          (Cam.PostProcessSettings.DynamicGlobalIlluminationMethod = .None →
            C1.PostProcessSettings.DynamicGlobalIlluminationMethod = .Lumen) ∧
          (Cam.PostProcessSettings.DynamicGlobalIlluminationMethod = .Lumen →
            C1.PostProcessSettings.DynamicGlobalIlluminationMethod = .ScreenSpace) ∧
          (Cam.PostProcessSettings.DynamicGlobalIlluminationMethod = .ScreenSpace →
            C1.PostProcessSettings.DynamicGlobalIlluminationMethod = .None) ∧
          C1.PostProcessSettings.bOverride_ReflectionMethod = true ∧
          C1.PostProcessSettings.bOverride_DynamicGlobalIlluminationMethod = true ∧
          s1.bIsOVerrideEnabled = true ∧ s2.bIsOVerrideEnabled = true ∧
          s3.bIsOVerrideEnabled = true ∧
          C1.PostProcessSettings.DynamicGlobalIlluminationMethod ≠ Cam.PostProcessSettings.DynamicGlobalIlluminationMethod ∧
          C2.PostProcessSettings.DynamicGlobalIlluminationMethod ≠ Cam.PostProcessSettings.DynamicGlobalIlluminationMethod ∧
          C3.PostProcessSettings.DynamicGlobalIlluminationMethod = Cam.PostProcessSettings.DynamicGlobalIlluminationMethod) ∧
      ((∃ SV, LP.CalcSceneView (some Cam) = some SV ∧
          SV.FinalPostProcessSettings.ReflectionMethod
            = Cam.PostProcessSettings.ReflectionMethod) →
        Cam.PostProcessSettings.ReflectionMethod ≠ .Unknown →
        ∃ s1 s2 s3 C1 C2 C3,
          ToggleReflectionMethod (some W) D self = some s1 ∧
          ToggleReflectionMethod (some W) D s1 = some s2 ∧
          ToggleReflectionMethod (some W) D s2 = some s3 ∧
          s1.PlayerCameraComponent = some C1 ∧ s2.PlayerCameraComponent = some C2 ∧
          s3.PlayerCameraComponent = some C3 ∧
          (Cam.PostProcessSettings.ReflectionMethod = .None →
            C1.PostProcessSettings.ReflectionMethod = .Lumen) ∧
          (Cam.PostProcessSettings.ReflectionMethod = .Lumen →
            C1.PostProcessSettings.ReflectionMethod = .ScreenSpace) ∧
          (Cam.PostProcessSettings.ReflectionMethod = .ScreenSpace →
            C1.PostProcessSettings.ReflectionMethod = .None) ∧
          C1.PostProcessSettings.bOverride_ReflectionMethod = true ∧
          C1.PostProcessSettings.bOverride_DynamicGlobalIlluminationMethod = true ∧
          s1.bIsOVerrideEnabled = true ∧ s2.bIsOVerrideEnabled = true ∧
          s3.bIsOVerrideEnabled = true ∧
          C1.PostProcessSettings.ReflectionMethod ≠ Cam.PostProcessSettings.ReflectionMethod ∧
          C2.PostProcessSettings.ReflectionMethod ≠ Cam.PostProcessSettings.ReflectionMethod ∧
          C3.PostProcessSettings.ReflectionMethod = Cam.PostProcessSettings.ReflectionMethod) := by
  refine ⟨fun hstart hbad => ?_, fun hstart hbad => ?_⟩
  ·
    obtain ⟨s1, C1, t1, c1, e1, fR1, fG1, g1⟩ :=
      ToggleGlobalIlluminationMethod_advance W LP D hLP self Cam hen hcam hstart
    obtain ⟨s2, C2, t2, c2, e2, fR2, fG2, g2⟩ :=
      ToggleGlobalIlluminationMethod_advance W LP D hLP s1 C1 e1 c1 (hviewG C1 fG1)
    obtain ⟨s3, C3, t3, c3, e3, _, _, g3⟩ :=
      ToggleGlobalIlluminationMethod_advance W LP D hLP s2 C2 e2 c2 (hviewG C2 fG2)
    refine ⟨s1, s2, s3, C1, C2, C3, t1, t2, t3, c1, c2, c3, ?_, ?_, ?_, fR1, fG1, e1, e2, e3,
      ?_, ?_, ?_⟩ <;>
    · rw [g2, g1] at g3
      rw [g1] at g2
      revert hbad g1 g2 g3
      cases Cam.PostProcessSettings.DynamicGlobalIlluminationMethod <;> simp_all
  ·
    obtain ⟨s1, C1, t1, c1, e1, fR1, fG1, g1⟩ :=
      ToggleReflectionMethod_advance W LP D hLP self Cam hen hcam hstart
    obtain ⟨s2, C2, t2, c2, e2, fR2, fG2, g2⟩ :=
      ToggleReflectionMethod_advance W LP D hLP s1 C1 e1 c1 (hviewR C1 fR1)
    obtain ⟨s3, C3, t3, c3, e3, _, _, g3⟩ :=
      ToggleReflectionMethod_advance W LP D hLP s2 C2 e2 c2 (hviewR C2 fR2)
    refine ⟨s1, s2, s3, C1, C2, C3, t1, t2, t3, c1, c2, c3, ?_, ?_, ?_, fR1, fG1, e1, e2, e3,
      ?_, ?_, ?_⟩ <;>
    · rw [g2, g1] at g3
      rw [g1] at g2
      revert hbad g1 g2 g3
      cases Cam.PostProcessSettings.ReflectionMethod <;> simp_all

/-- Sample evaluation for claim C5: a view that reports the camera settings, override enabled,
camera with reflection method Lumen and global illumination method None. -/
theorem Toggle_method_three_cycle_witness :
    (Sample.ViewWorld.FirstLocalPlayerFromController = some Sample.Player ∧
      (Sample.Component true (some (Sample.Camera .Lumen .None true))).bIsOVerrideEnabled
        = true ∧
      (Sample.Component true (some (Sample.Camera .Lumen .None true))).PlayerCameraComponent
        = some (Sample.Camera .Lumen .None true) ∧
      (Sample.Camera .Lumen .None true).PostProcessSettings.DynamicGlobalIlluminationMethod
        ≠ .Plugin ∧
      (Sample.Camera .Lumen .None true).PostProcessSettings.ReflectionMethod ≠ .Unknown) ∧
    (∃ s1 s2 s3 C1 C2 C3,
          ToggleGlobalIlluminationMethod (some Sample.ViewWorld) (Sample.Settings .None .None false) (Sample.Component true (some (Sample.Camera .Lumen .None true))) = some s1 ∧
          ToggleGlobalIlluminationMethod (some Sample.ViewWorld) (Sample.Settings .None .None false) s1 = some s2 ∧
          ToggleGlobalIlluminationMethod (some Sample.ViewWorld) (Sample.Settings .None .None false) s2 = some s3 ∧
          s1.PlayerCameraComponent = some C1 ∧ s2.PlayerCameraComponent = some C2 ∧
          s3.PlayerCameraComponent = some C3 ∧
          ((Sample.Camera .Lumen .None true).PostProcessSettings.DynamicGlobalIlluminationMethod = .None →
            C1.PostProcessSettings.DynamicGlobalIlluminationMethod = .Lumen) ∧
          ((Sample.Camera .Lumen .None true).PostProcessSettings.DynamicGlobalIlluminationMethod = .Lumen →
            C1.PostProcessSettings.DynamicGlobalIlluminationMethod = .ScreenSpace) ∧
          ((Sample.Camera .Lumen .None true).PostProcessSettings.DynamicGlobalIlluminationMethod = .ScreenSpace →
            C1.PostProcessSettings.DynamicGlobalIlluminationMethod = .None) ∧
          C1.PostProcessSettings.bOverride_ReflectionMethod = true ∧
          C1.PostProcessSettings.bOverride_DynamicGlobalIlluminationMethod = true ∧
          s1.bIsOVerrideEnabled = true ∧ s2.bIsOVerrideEnabled = true ∧
          s3.bIsOVerrideEnabled = true ∧
          C1.PostProcessSettings.DynamicGlobalIlluminationMethod ≠ (Sample.Camera .Lumen .None true).PostProcessSettings.DynamicGlobalIlluminationMethod ∧
          C2.PostProcessSettings.DynamicGlobalIlluminationMethod ≠ (Sample.Camera .Lumen .None true).PostProcessSettings.DynamicGlobalIlluminationMethod ∧
          C3.PostProcessSettings.DynamicGlobalIlluminationMethod = (Sample.Camera .Lumen .None true).PostProcessSettings.DynamicGlobalIlluminationMethod) ∧
    (∃ s1 s2 s3 C1 C2 C3,
          ToggleReflectionMethod (some Sample.ViewWorld) (Sample.Settings .None .None false) (Sample.Component true (some (Sample.Camera .Lumen .None true))) = some s1 ∧
          ToggleReflectionMethod (some Sample.ViewWorld) (Sample.Settings .None .None false) s1 = some s2 ∧
          ToggleReflectionMethod (some Sample.ViewWorld) (Sample.Settings .None .None false) s2 = some s3 ∧
          s1.PlayerCameraComponent = some C1 ∧ s2.PlayerCameraComponent = some C2 ∧
          s3.PlayerCameraComponent = some C3 ∧
          ((Sample.Camera .Lumen .None true).PostProcessSettings.ReflectionMethod = .None →
            C1.PostProcessSettings.ReflectionMethod = .Lumen) ∧
          ((Sample.Camera .Lumen .None true).PostProcessSettings.ReflectionMethod = .Lumen →
            C1.PostProcessSettings.ReflectionMethod = .ScreenSpace) ∧
          ((Sample.Camera .Lumen .None true).PostProcessSettings.ReflectionMethod = .ScreenSpace →
            C1.PostProcessSettings.ReflectionMethod = .None) ∧
          C1.PostProcessSettings.bOverride_ReflectionMethod = true ∧
          C1.PostProcessSettings.bOverride_DynamicGlobalIlluminationMethod = true ∧
          s1.bIsOVerrideEnabled = true ∧ s2.bIsOVerrideEnabled = true ∧
          s3.bIsOVerrideEnabled = true ∧
          C1.PostProcessSettings.ReflectionMethod ≠ (Sample.Camera .Lumen .None true).PostProcessSettings.ReflectionMethod ∧
          C2.PostProcessSettings.ReflectionMethod ≠ (Sample.Camera .Lumen .None true).PostProcessSettings.ReflectionMethod ∧
          C3.PostProcessSettings.ReflectionMethod = (Sample.Camera .Lumen .None true).PostProcessSettings.ReflectionMethod) :=
  ⟨⟨rfl, rfl, rfl, by decide, by decide⟩,
    (Toggle_method_three_cycle Sample.ViewWorld Sample.Player
      (Sample.Settings .None .None false)
      (Sample.Component true (some (Sample.Camera .Lumen .None true)))
      (Sample.Camera .Lumen .None true) rfl
      (fun C _ => ⟨⟨C.PostProcessSettings⟩, rfl, rfl⟩)
      (fun C _ => ⟨⟨C.PostProcessSettings⟩, rfl, rfl⟩) rfl rfl).1
      ⟨⟨(Sample.Camera .Lumen .None true).PostProcessSettings⟩, rfl, rfl⟩ (by decide),
    (Toggle_method_three_cycle Sample.ViewWorld Sample.Player
      (Sample.Settings .None .None false)
      (Sample.Component true (some (Sample.Camera .Lumen .None true)))
      (Sample.Camera .Lumen .None true) rfl
      (fun C _ => ⟨⟨C.PostProcessSettings⟩, rfl, rfl⟩)
      (fun C _ => ⟨⟨C.PostProcessSettings⟩, rfl, rfl⟩) rfl rfl).2
      ⟨⟨(Sample.Camera .Lumen .None true).PostProcessSettings⟩, rfl, rfl⟩ (by decide)⟩

/-- Claim C6: when `bIsOVerrideEnabled` is false, `ToggleGlobalIlluminationMethod` and
`ToggleReflectionMethod` return at once: for every world (so whatever the view computation
would answer, and also without a world), every default settings value and with or without a
camera, the component, its camera settings included, is unchanged. -/
theorem Toggle_method_disabled_noop (World : Option (UWorld α)) (D : FPostProcessSettings)
    (self : ULumenSwitchComponentBase α) (hdis : self.bIsOVerrideEnabled = false) :
    ToggleGlobalIlluminationMethod World D self = some self ∧
      ToggleReflectionMethod World D self = some self := by
  simp [ToggleGlobalIlluminationMethod, ToggleReflectionMethod, hdis]

/-- Sample evaluation for claim C6. -/
theorem Toggle_method_disabled_noop_witness :
    (Sample.Component false (some (Sample.Camera .Lumen .None false))).bIsOVerrideEnabled
        = false ∧
      ToggleGlobalIlluminationMethod (some Sample.ViewWorld) (Sample.Settings .None .None false)
          (Sample.Component false (some (Sample.Camera .Lumen .None false)))
        = some (Sample.Component false (some (Sample.Camera .Lumen .None false))) ∧
      ToggleReflectionMethod (some Sample.ViewWorld) (Sample.Settings .None .None false)
          (Sample.Component false (some (Sample.Camera .Lumen .None false)))
        = some (Sample.Component false (some (Sample.Camera .Lumen .None false))) :=
  ⟨rfl, Toggle_method_disabled_noop (some Sample.ViewWorld) (Sample.Settings .None .None false)
    (Sample.Component false (some (Sample.Camera .Lumen .None false))) rfl⟩

/-! ## The containment query -/

/-- Claim C7 on the code: for an infinite volume whose box test answers false at the camera
location, `IsCameraInside` returns false with a camera attached, while the snapshot built by
`GetPostProcessVolumesInLevel` records `bCameraEncompassed = true` for the same volume. -/
theorem IsCameraInside_infinite_false :
    (Sample.Volume "Inf" 1 true true false).bUnbound = true ∧
      (Sample.Component true (some (Sample.Camera .None .None true))).PlayerCameraComponent
        = some (Sample.Camera .None .None true) ∧
      IsCameraInside (Sample.Component true (some (Sample.Camera .None .None true)))
        (some (Sample.Volume "Inf" 1 true true false)) = false ∧
      (TMap.Find (GetPostProcessVolumesInLevel
          (some (Sample.World [Sample.Volume "Inf" 1 true true false]))
          (Sample.Component true (some (Sample.Camera .None .None true))) [] false).2
        "Inf").map FPostProcessVolumeInfo.bCameraEncompassed = some true :=
  ⟨rfl, rfl, rfl, rfl⟩

/-! ## The sampler -/

theorem WrapInt32_of_range (z : Int) (hlo : -2147483648 ≤ z) (hhi : z ≤ 2147483647) :
    WrapInt32 z = z := by
  unfold WrapInt32
  omega

/-- Claim C10, as amended: for a refresh interval `T > 0`, a frame count `n` in the `int32`
range below its largest value, accumulated time `a` and a tick with delta `d ≥ 0`, with `s`
the `float` sum of `a` and `d` (the exact sum rounded): if `s < T` the callback is not
invoked and the state becomes `(n + 1, s)`; if `s ≥ T` the callback is invoked exactly once,
with the `float` quotient of `n + 1` by `s`, and the state becomes `(0, 0)`. No other member
changes. This holds for every rounding, exact arithmetic included. -/
theorem TickComponent_spec (Round : α → α) (self : ULumenSwitchComponentBase α) (d : α)
    (hT : 0 < self.FPSRefreshRate) (hd : 0 ≤ d)
    (hlo : -2147483648 ≤ self.FrameCount) (hhi : self.FrameCount < 2147483647) :
    (Round (self.AccuTime + d) < self.FPSRefreshRate →
        TickComponent Round self d
          = ({ self with
                FrameCount := self.FrameCount + 1
                AccuTime := Round (self.AccuTime + d) }, [])) ∧
      (self.FPSRefreshRate ≤ Round (self.AccuTime + d) →
        TickComponent Round self d
          = ({ self with FrameCount := 0, AccuTime := 0 },
              [Round (Round ((self.FrameCount + 1 : Int) : α)
                / Round (self.AccuTime + d))])) := by
  have hT0 : self.FPSRefreshRate ≠ 0 := ne_of_gt hT
  have hw : WrapInt32 (self.FrameCount + 1) = self.FrameCount + 1 :=
    WrapInt32_of_range _ (by omega) (by omega)
  constructor
  · intro h
    simp [TickComponent, hT0, not_le.mpr h, hw]
  · intro h
    simp [TickComponent, hT0, h, hw]

/-- Sample evaluation for claim C10 (amended), in exact arithmetic: interval 3/10, state
(0, 0); a tick of 1/10 accumulates without a report, a tick of 1/2 reports once and resets. -/
theorem TickComponent_spec_witness :
    (0 < (Sample.Component true none).FPSRefreshRate ∧ (0 : ℚ) ≤ 1 / 10 ∧ (0 : ℚ) ≤ 1 / 2 ∧
      -2147483648 ≤ (Sample.Component true none).FrameCount ∧
      (Sample.Component true none).FrameCount < 2147483647 ∧
      (fun x : ℚ => x) ((Sample.Component true none).AccuTime + 1 / 10)
        < (Sample.Component true none).FPSRefreshRate ∧
      (Sample.Component true none).FPSRefreshRate
        ≤ (fun x : ℚ => x) ((Sample.Component true none).AccuTime + 1 / 2)) ∧
    TickComponent (fun x => x) (Sample.Component true none) (1 / 10)
      = ({ Sample.Component true none with
            FrameCount := (Sample.Component true none).FrameCount + 1
            AccuTime := (fun x : ℚ => x) ((Sample.Component true none).AccuTime + 1 / 10) },
          []) ∧
    TickComponent (fun x => x) (Sample.Component true none) (1 / 2)
      = ({ Sample.Component true none with FrameCount := 0, AccuTime := 0 },
          [(fun x : ℚ => x)
            ((fun x : ℚ => x) (((Sample.Component true none).FrameCount + 1 : Int) : ℚ)
              / (fun x : ℚ => x) ((Sample.Component true none).AccuTime + 1 / 2))]) :=
  ⟨⟨by norm_num [Sample.Component], by norm_num, by norm_num,
      by norm_num [Sample.Component], by norm_num [Sample.Component],
      by norm_num [Sample.Component], by norm_num [Sample.Component]⟩,
    (TickComponent_spec (fun x => x) (Sample.Component true none) (1 / 10)
      (by norm_num [Sample.Component]) (by norm_num) (by norm_num [Sample.Component])
      (by norm_num [Sample.Component])).1 (by norm_num [Sample.Component]),
    (TickComponent_spec (fun x => x) (Sample.Component true none) (1 / 2)
      (by norm_num [Sample.Component]) (by norm_num) (by norm_num [Sample.Component])
      (by norm_num [Sample.Component])).2 (by norm_num [Sample.Component])⟩

theorem RoundSingle_sample_sum :
    Sample.RoundSingle (9507089 / 33554432 + 8947849 / 536870912) = 5033165 / 16777216 := by
  have hfl : (⌊((9507089 : ℚ) / 33554432 + 8947849 / 536870912) * 2 ^ 25 + 1 / 2⌋ : ℤ)
      = 10066330 := by
    rw [Int.floor_eq_iff]
    constructor <;> norm_num
  unfold Sample.RoundSingle
  rw [if_pos (by constructor <;> norm_num), hfl]
  norm_num

/-- Claim C10 fails as stated. (1) At the largest `int32` frame count 2147483647, interval
3/10, accumulated time 0 and a tick of 1/10 (exact arithmetic), the frame count after the
tick is -2147483648 and not `n + 1`. (2) In single precision, with interval `T = 0.3f`,
accumulated time `a = 0.28333333f`, frame count 0 and delta `d = (1/60)f`, the exact sum
`a + d` is below `T`, yet the `float` sum equals `T`: the callback is invoked and the state
becomes (0, 0). -/
theorem TickComponent_overflow_and_rounding :
    ((0 : ℚ) < 3 / 10 ∧ (0 : ℚ) ≤ 1 / 10 ∧ (0 : ℚ) + 1 / 10 < 3 / 10 ∧
      (TickComponent (fun x => x) (Sample.Sampler (3 / 10) 2147483647 0) (1 / 10)).1.FrameCount
        = -2147483648 ∧
      (-2147483648 : Int) ≠ 2147483647 + 1) ∧
    ((0 : ℚ) < 5033165 / 16777216 ∧ (0 : ℚ) ≤ 8947849 / 536870912 ∧
      (9507089 : ℚ) / 33554432 + 8947849 / 536870912 < 5033165 / 16777216 ∧
      TickComponent Sample.RoundSingle
          (Sample.Sampler (5033165 / 16777216) 0 (9507089 / 33554432)) (8947849 / 536870912)
        = (Sample.Sampler (5033165 / 16777216) 0 0, [13981013 / 4194304])) := by
  refine ⟨⟨by norm_num, by norm_num, by norm_num, ?_, by norm_num⟩,
    by norm_num, by norm_num, by norm_num, ?_⟩
  · norm_num [TickComponent, Sample.Sampler, Sample.Component, WrapInt32]
  · have hw1 : WrapInt32 1 = 1 := by norm_num [WrapInt32]
    have h1 : Sample.RoundSingle 1 = 1 := by norm_num [Sample.RoundSingle]
    have hq : Sample.RoundSingle (1 / (5033165 / 16777216)) = 13981013 / 4194304 := by
      have hfl : (⌊((1 : ℚ) / (5033165 / 16777216)) * 2 ^ 22 + 1 / 2⌋ : ℤ) = 13981013 := by
        rw [Int.floor_eq_iff]
        constructor <;> norm_num
      unfold Sample.RoundSingle
      rw [if_neg (by norm_num), if_pos (by constructor <;> norm_num), hfl]
      norm_num
    simp only [TickComponent, Sample.Sampler, Sample.Component, RoundSingle_sample_sum,
      zero_add, hw1, Int.cast_one, h1, hq]
    norm_num

/-! ## Geometry of the wireframe -/

theorem Excess_nonneg (h x : α) : 0 ≤ Excess h x := le_max_right _ _

theorem Excess_neg (h x : α) : Excess h (-x) = Excess h x := by
  simp [Excess]

theorem Excess_self {h : α} (hh : 0 ≤ h) : Excess h h = 0 := by
  simp [Excess, abs_of_nonneg hh]

theorem Excess_add {h t : α} (hh : 0 ≤ h) (ht : 0 ≤ t) : Excess h (h + t) = t := by
  simp [Excess, abs_of_nonneg (add_nonneg hh ht), ht]

theorem Excess_neg_sub {h t : α} (hh : 0 ≤ h) (ht : 0 ≤ t) : Excess h (-h - t) = t := by
  have : -h - t = -(h + t) := by ring
  rw [this, Excess_neg, Excess_add hh ht]

theorem ClampCoord_abs_le {h : α} (hh : 0 ≤ h) (x : α) : |ClampCoord h x| ≤ h := by
  unfold ClampCoord
  rw [abs_le]
  constructor
  · exact le_max_left _ _
  · exact max_le (by linarith) (min_le_left _ _)

theorem sub_ClampCoord_sq {h : α} (hh : 0 ≤ h) (x : α) :
    (x - ClampCoord h x) ^ 2 = Excess h x ^ 2 := by
  unfold ClampCoord Excess
  rcases le_total x (-h) with h1 | h1
  · have e1 : min h x = x := min_eq_right (by linarith)
    have e2 : max (-h) x = -h := max_eq_left h1
    have e3 : |x| = -x := abs_of_nonpos (by linarith)
    have e4 : max (-x - h) 0 = -x - h := max_eq_left (by linarith)
    rw [e1, e2, e3, e4]; ring
  · rcases le_total x h with h2 | h2
    · have e1 : min h x = x := min_eq_right h2
      have e2 : max (-h) x = x := max_eq_right h1
      have e4 : max (|x| - h) 0 = 0 := max_eq_right (by
        have := abs_le.mpr ⟨h1, h2⟩
        linarith)
      rw [e1, e2, e4]; ring
    · have e1 : min h x = h := min_eq_left h2
      have e2 : max (-h) h = h := max_eq_right (by linarith)
      have e3 : |x| = x := abs_of_nonneg (by linarith)
      have e4 : max (x - h) 0 = x - h := max_eq_left (by linarith)
      rw [e1, e2, e3, e4]

theorem Excess_sq_le {h b : α} (hb : |b| ≤ h) (x : α) : Excess h x ^ 2 ≤ (x - b) ^ 2 := by
  have h1 : Excess h x ≤ |x - b| := by
    unfold Excess
    apply max_le _ (abs_nonneg _)
    have := abs_sub_abs_le_abs_sub x b
    linarith
  have h2 := Excess_nonneg h x
  calc Excess h x ^ 2 ≤ |x - b| ^ 2 := pow_le_pow_left₀ h2 h1 2
    _ = (x - b) ^ 2 := sq_abs _

theorem Clamp_InBox {H : FVector α} (hX : 0 ≤ H.X) (hY : 0 ≤ H.Y) (hZ : 0 ≤ H.Z)
    (p : FVector α) : InBox H (Clamp H p) :=
  ⟨ClampCoord_abs_le hX _, ClampCoord_abs_le hY _, ClampCoord_abs_le hZ _⟩

theorem DistSquared_Clamp {H : FVector α} (hX : 0 ≤ H.X) (hY : 0 ≤ H.Y) (hZ : 0 ≤ H.Z)
    (p : FVector α) : DistSquared p (Clamp H p) = BoxDistSquared H p := by
  simp only [DistSquared, Clamp, BoxDistSquared, sub_ClampCoord_sq hX, sub_ClampCoord_sq hY,
    sub_ClampCoord_sq hZ]

theorem BoxDistSquared_le {H b : FVector α} (hb : InBox H b) (p : FVector α) :
    BoxDistSquared H p ≤ DistSquared p b := by
  unfold BoxDistSquared DistSquared
  have h1 := Excess_sq_le hb.1 p.X
  have h2 := Excess_sq_le hb.2.1 p.Y
  have h3 := Excess_sq_le hb.2.2 p.Z
  linarith

theorem LocalVertices_BoxDistSquared {X Y Z R F1 F2 F3 : α}
    (hX : 0 ≤ X) (hY : 0 ≤ Y) (hZ : 0 ≤ Z) (hR : 0 ≤ R)
    (hF1 : 0 ≤ F1) (hF2 : 0 ≤ F2) (hF3 : 0 ≤ F3)
    (h13 : F1 ^ 2 + F3 ^ 2 = 1) (h22 : F2 ^ 2 + F2 ^ 2 = 1) :
    ∀ p ∈ VisualizePPVol.LocalVertices X Y Z R F1 F2 F3,
      BoxDistSquared ⟨X, Y, Z⟩ p = R ^ 2 := by
  have r1 := mul_nonneg hR hF1
  have r2 := mul_nonneg hR hF2
  have r3 := mul_nonneg hR hF3
  simp only [VisualizePPVol.LocalVertices, VisualizePPVol.XPoints, VisualizePPVol.YPoints,
    VisualizePPVol.ZPoints, List.map, List.cons_append, List.nil_append, List.forall_mem_cons,
    List.not_mem_nil, BoxDistSquared, Excess_neg,
    Excess_self hX, Excess_self hY, Excess_self hZ,
    Excess_add hX hR, Excess_add hX r1, Excess_add hX r2, Excess_add hX r3,
    Excess_add hY hR, Excess_add hY r1, Excess_add hY r2, Excess_add hY r3,
    Excess_add hZ hR, Excess_add hZ r1, Excess_add hZ r2, Excess_add hZ r3,
    Excess_neg_sub hX hR, Excess_neg_sub hX r1, Excess_neg_sub hX r2, Excess_neg_sub hX r3,
    Excess_neg_sub hY hR, Excess_neg_sub hY r1, Excess_neg_sub hY r2, Excess_neg_sub hY r3,
    Excess_neg_sub hZ hR, Excess_neg_sub hZ r1, Excess_neg_sub hZ r2, Excess_neg_sub hZ r3]
  and_intros
  all_goals
    first
      | ring1
      | linear_combination R ^ 2 * h13
      | linear_combination R ^ 2 * h22
      | exact fun _ h => h.elim

theorem XPoints_length (X Y Z R F1 F2 F3 : α) :
    (VisualizePPVol.XPoints X Y Z R F1 F2 F3).length = 20 := rfl

theorem YPoints_length (X Y Z R F1 F2 F3 : α) :
    (VisualizePPVol.YPoints X Y Z R F1 F2 F3).length = 20 := rfl

theorem ZPoints_length (X Y Z R F1 F2 F3 : α) :
    (VisualizePPVol.ZPoints X Y Z R F1 F2 F3).length = 20 := rfl

theorem elemAt_map (f : FVector α → FVector α) (l : List (FVector α)) (i : Nat)
    (h : i < l.length) :
    VisualizePPVol.elemAt (l.map f) i = f (VisualizePPVol.elemAt l i) := by
  simp [VisualizePPVol.elemAt, List.getElem?_eq_getElem h]

theorem elemAt_mem (l : List (FVector α)) (i : Nat) (h : i < l.length) :
    VisualizePPVol.elemAt l i ∈ l := by
  simp [VisualizePPVol.elemAt, List.getElem?_eq_getElem h]

theorem flatMap_six_length {β : Type} (g0 g1 g2 g3 g4 g5 : Nat → β) (n : Nat) :
    ((List.range n).flatMap fun i => [g0 i, g1 i, g2 i, g3 i, g4 i, g5 i]).length = 6 * n := by
  induction n with
  | zero => rfl
  | succ n ih =>
    rw [List.range_succ, List.flatMap_append, List.length_append, ih, List.flatMap_singleton]
    simp only [List.length_cons, List.length_nil]
    omega

theorem flatMap_six_getElem? {β : Type} (g0 g1 g2 g3 g4 g5 : Nat → β) (n i k : Nat)
    (hi : i < n) (hk : k < 6) :
    ((List.range n).flatMap fun i => [g0 i, g1 i, g2 i, g3 i, g4 i, g5 i])[6 * i + k]?
      = [g0 i, g1 i, g2 i, g3 i, g4 i, g5 i][k]? := by
  induction n with
  | zero => omega
  | succ n ih =>
    rw [List.range_succ, List.flatMap_append, List.flatMap_singleton]
    rcases Nat.lt_or_ge i n with h | h
    · rw [List.getElem?_append_left (by rw [flatMap_six_length]; omega)]
      exact ih h
    · have hin : i = n := by omega
      subst hin
      rw [List.getElem?_append_right (by rw [flatMap_six_length]; omega), flatMap_six_length]
      congr 1
      omega

theorem six_loops_getElem? {β : Type} (g0 g1 g2 g3 g4 g5 : Nat → Nat → β) (i k : Nat)
    (hi : i < 20) (hk : k < 6) :
    (((List.range 19).flatMap fun i =>
          [g0 i (i + 1), g1 i (i + 1), g2 i (i + 1), g3 i (i + 1), g4 i (i + 1), g5 i (i + 1)])
        ++ [g0 19 0, g1 19 0, g2 19 0, g3 19 0, g4 19 0, g5 19 0])[6 * i + k]?
      = [g0 i ((i + 1) % 20), g1 i ((i + 1) % 20), g2 i ((i + 1) % 20),
          g3 i ((i + 1) % 20), g4 i ((i + 1) % 20), g5 i ((i + 1) % 20)][k]? := by
  rcases Nat.lt_or_ge i 19 with h | h
  · rw [List.getElem?_append_left (by rw [flatMap_six_length]; omega),
      flatMap_six_getElem? (fun i => g0 i (i + 1)) (fun i => g1 i (i + 1))
        (fun i => g2 i (i + 1)) (fun i => g3 i (i + 1)) (fun i => g4 i (i + 1))
        (fun i => g5 i (i + 1)) 19 i k h hk,
      Nat.mod_eq_of_lt (by omega : i + 1 < 20)]
  · have hin : i = 19 := by omega
    subst hin
    rw [List.getElem?_append_right (by rw [flatMap_six_length]; omega), flatMap_six_length]
    have e : 6 * 19 + k - 6 * 19 = k := by omega
    rw [e]

/-- Claim C9: for a bounded volume (with a world and a brush component, whatever its number of
brush points) `VisualizePPVol` submits exactly 120 segments; the segments at the positions
`6 * i + k` (`i < 20`) form loop number `k`: segment `i` of a loop runs from vertex `i` to
vertex `(i + 1) % 20` of the loop, so each segment ends where the next one starts and the last
one ends at the first vertex. The loops 0, 2, 4 are the transformed arrays `XPoints`,
`YPoints`, `ZPoints`; the loops 1, 3, 5 are the transformed copies of these with the local
X, Y, Z coordinate negated. -/
theorem VisualizePPVol_closed_loops (Sin Cos : α → α) (PI : α) (W : UWorld α)
    (V : APostProcessVolume α) (Color : FColor) (LifeTime Thickness : α) (n : Nat)
    (hbound : V.bUnbound = false) (hbrush : V.BrushPoints = some n) :
    (VisualizePPVol Sin Cos PI (some W) (some V) Color LifeTime Thickness).length = 120 ∧
    ∀ i, i < 20 →
      (VisualizePPVol Sin Cos PI (some W) (some V) Color LifeTime Thickness)[6 * i]?
        = some ⟨V.TransformPositionNoScale (VisualizePPVol.elemAt
          (VisualizePPVol.XPoints (V.Scale3D.X * 100) (V.Scale3D.Y * 100) (V.Scale3D.Z * 100)
            V.BlendRadius (Sin (PI / 8)) (Sin (PI / 4)) (Cos (PI / 8))) i),
          V.TransformPositionNoScale (VisualizePPVol.elemAt
          (VisualizePPVol.XPoints (V.Scale3D.X * 100) (V.Scale3D.Y * 100) (V.Scale3D.Z * 100)
            V.BlendRadius (Sin (PI / 8)) (Sin (PI / 4)) (Cos (PI / 8))) ((i + 1) % 20)),
          Color, LifeTime, Thickness, 0⟩ ∧
      (VisualizePPVol Sin Cos PI (some W) (some V) Color LifeTime Thickness)[6 * i + 1]?
        = some ⟨V.TransformPositionNoScale ⟨-(VisualizePPVol.elemAt
          (VisualizePPVol.XPoints (V.Scale3D.X * 100) (V.Scale3D.Y * 100) (V.Scale3D.Z * 100)
            V.BlendRadius (Sin (PI / 8)) (Sin (PI / 4)) (Cos (PI / 8))) i).X,
          (VisualizePPVol.elemAt
          (VisualizePPVol.XPoints (V.Scale3D.X * 100) (V.Scale3D.Y * 100) (V.Scale3D.Z * 100)
            V.BlendRadius (Sin (PI / 8)) (Sin (PI / 4)) (Cos (PI / 8))) i).Y,
          (VisualizePPVol.elemAt
          (VisualizePPVol.XPoints (V.Scale3D.X * 100) (V.Scale3D.Y * 100) (V.Scale3D.Z * 100)
            V.BlendRadius (Sin (PI / 8)) (Sin (PI / 4)) (Cos (PI / 8))) i).Z⟩,
          V.TransformPositionNoScale ⟨-(VisualizePPVol.elemAt
          (VisualizePPVol.XPoints (V.Scale3D.X * 100) (V.Scale3D.Y * 100) (V.Scale3D.Z * 100)
            V.BlendRadius (Sin (PI / 8)) (Sin (PI / 4)) (Cos (PI / 8))) ((i + 1) % 20)).X,
          (VisualizePPVol.elemAt
          (VisualizePPVol.XPoints (V.Scale3D.X * 100) (V.Scale3D.Y * 100) (V.Scale3D.Z * 100)
            V.BlendRadius (Sin (PI / 8)) (Sin (PI / 4)) (Cos (PI / 8))) ((i + 1) % 20)).Y,
          (VisualizePPVol.elemAt
          (VisualizePPVol.XPoints (V.Scale3D.X * 100) (V.Scale3D.Y * 100) (V.Scale3D.Z * 100)
            V.BlendRadius (Sin (PI / 8)) (Sin (PI / 4)) (Cos (PI / 8))) ((i + 1) % 20)).Z⟩,
          Color, LifeTime, Thickness, 0⟩ ∧
      (VisualizePPVol Sin Cos PI (some W) (some V) Color LifeTime Thickness)[6 * i + 2]?
        = some ⟨V.TransformPositionNoScale (VisualizePPVol.elemAt
          (VisualizePPVol.YPoints (V.Scale3D.X * 100) (V.Scale3D.Y * 100) (V.Scale3D.Z * 100)
            V.BlendRadius (Sin (PI / 8)) (Sin (PI / 4)) (Cos (PI / 8))) i),
          V.TransformPositionNoScale (VisualizePPVol.elemAt
          (VisualizePPVol.YPoints (V.Scale3D.X * 100) (V.Scale3D.Y * 100) (V.Scale3D.Z * 100)
            V.BlendRadius (Sin (PI / 8)) (Sin (PI / 4)) (Cos (PI / 8))) ((i + 1) % 20)),
          Color, LifeTime, Thickness, 0⟩ ∧
      (VisualizePPVol Sin Cos PI (some W) (some V) Color LifeTime Thickness)[6 * i + 3]?
        = some ⟨V.TransformPositionNoScale ⟨(VisualizePPVol.elemAt
          (VisualizePPVol.YPoints (V.Scale3D.X * 100) (V.Scale3D.Y * 100) (V.Scale3D.Z * 100)
            V.BlendRadius (Sin (PI / 8)) (Sin (PI / 4)) (Cos (PI / 8))) i).X,
          -(VisualizePPVol.elemAt
          (VisualizePPVol.YPoints (V.Scale3D.X * 100) (V.Scale3D.Y * 100) (V.Scale3D.Z * 100)
            V.BlendRadius (Sin (PI / 8)) (Sin (PI / 4)) (Cos (PI / 8))) i).Y,
          (VisualizePPVol.elemAt
          (VisualizePPVol.YPoints (V.Scale3D.X * 100) (V.Scale3D.Y * 100) (V.Scale3D.Z * 100)
            V.BlendRadius (Sin (PI / 8)) (Sin (PI / 4)) (Cos (PI / 8))) i).Z⟩,
          V.TransformPositionNoScale ⟨(VisualizePPVol.elemAt
          (VisualizePPVol.YPoints (V.Scale3D.X * 100) (V.Scale3D.Y * 100) (V.Scale3D.Z * 100)
            V.BlendRadius (Sin (PI / 8)) (Sin (PI / 4)) (Cos (PI / 8))) ((i + 1) % 20)).X,
          -(VisualizePPVol.elemAt
          (VisualizePPVol.YPoints (V.Scale3D.X * 100) (V.Scale3D.Y * 100) (V.Scale3D.Z * 100)
            V.BlendRadius (Sin (PI / 8)) (Sin (PI / 4)) (Cos (PI / 8))) ((i + 1) % 20)).Y,
          (VisualizePPVol.elemAt
          (VisualizePPVol.YPoints (V.Scale3D.X * 100) (V.Scale3D.Y * 100) (V.Scale3D.Z * 100)
            V.BlendRadius (Sin (PI / 8)) (Sin (PI / 4)) (Cos (PI / 8))) ((i + 1) % 20)).Z⟩,
          Color, LifeTime, Thickness, 0⟩ ∧
      (VisualizePPVol Sin Cos PI (some W) (some V) Color LifeTime Thickness)[6 * i + 4]?
        = some ⟨V.TransformPositionNoScale (VisualizePPVol.elemAt
          (VisualizePPVol.ZPoints (V.Scale3D.X * 100) (V.Scale3D.Y * 100) (V.Scale3D.Z * 100)
            V.BlendRadius (Sin (PI / 8)) (Sin (PI / 4)) (Cos (PI / 8))) i),
          V.TransformPositionNoScale (VisualizePPVol.elemAt
          (VisualizePPVol.ZPoints (V.Scale3D.X * 100) (V.Scale3D.Y * 100) (V.Scale3D.Z * 100)
            V.BlendRadius (Sin (PI / 8)) (Sin (PI / 4)) (Cos (PI / 8))) ((i + 1) % 20)),
          Color, LifeTime, Thickness, 0⟩ ∧
      (VisualizePPVol Sin Cos PI (some W) (some V) Color LifeTime Thickness)[6 * i + 5]?
        = some ⟨V.TransformPositionNoScale ⟨(VisualizePPVol.elemAt
          (VisualizePPVol.ZPoints (V.Scale3D.X * 100) (V.Scale3D.Y * 100) (V.Scale3D.Z * 100)
            V.BlendRadius (Sin (PI / 8)) (Sin (PI / 4)) (Cos (PI / 8))) i).X,
          (VisualizePPVol.elemAt
          (VisualizePPVol.ZPoints (V.Scale3D.X * 100) (V.Scale3D.Y * 100) (V.Scale3D.Z * 100)
            V.BlendRadius (Sin (PI / 8)) (Sin (PI / 4)) (Cos (PI / 8))) i).Y,
          -(VisualizePPVol.elemAt
          (VisualizePPVol.ZPoints (V.Scale3D.X * 100) (V.Scale3D.Y * 100) (V.Scale3D.Z * 100)
            V.BlendRadius (Sin (PI / 8)) (Sin (PI / 4)) (Cos (PI / 8))) i).Z⟩,
          V.TransformPositionNoScale ⟨(VisualizePPVol.elemAt
          (VisualizePPVol.ZPoints (V.Scale3D.X * 100) (V.Scale3D.Y * 100) (V.Scale3D.Z * 100)
            V.BlendRadius (Sin (PI / 8)) (Sin (PI / 4)) (Cos (PI / 8))) ((i + 1) % 20)).X,
          (VisualizePPVol.elemAt
          (VisualizePPVol.ZPoints (V.Scale3D.X * 100) (V.Scale3D.Y * 100) (V.Scale3D.Z * 100)
            V.BlendRadius (Sin (PI / 8)) (Sin (PI / 4)) (Cos (PI / 8))) ((i + 1) % 20)).Y,
          -(VisualizePPVol.elemAt
          (VisualizePPVol.ZPoints (V.Scale3D.X * 100) (V.Scale3D.Y * 100) (V.Scale3D.Z * 100)
            V.BlendRadius (Sin (PI / 8)) (Sin (PI / 4)) (Cos (PI / 8))) ((i + 1) % 20)).Z⟩,
          Color, LifeTime, Thickness, 0⟩ := by
  simp only [VisualizePPVol, hbound, hbrush, Bool.false_eq_true, if_false, List.length_map,
    XPoints_length]
  refine ⟨?_, ?_⟩
  · rw [List.length_append, flatMap_six_length]
    rfl
  · intro i hi
    have hj : (i + 1) % 20 < 20 := Nat.mod_lt _ (by omega)
    refine ⟨?_, ?_, ?_, ?_, ?_, ?_⟩
    · refine (six_loops_getElem? _ _ _ _ _ _ i 0 hi (by omega)).trans ?_
      simp [VisualizePPVol.Line, elemAt_map, XPoints_length, YPoints_length, ZPoints_length,
        hi, hj]
    · refine (six_loops_getElem? _ _ _ _ _ _ i 1 hi (by omega)).trans ?_
      simp [VisualizePPVol.Line, elemAt_map, XPoints_length, YPoints_length, ZPoints_length,
        hi, hj]
    · refine (six_loops_getElem? _ _ _ _ _ _ i 2 hi (by omega)).trans ?_
      simp [VisualizePPVol.Line, elemAt_map, XPoints_length, YPoints_length, ZPoints_length,
        hi, hj]
    · refine (six_loops_getElem? _ _ _ _ _ _ i 3 hi (by omega)).trans ?_
      simp [VisualizePPVol.Line, elemAt_map, XPoints_length, YPoints_length, ZPoints_length,
        hi, hj]
    · refine (six_loops_getElem? _ _ _ _ _ _ i 4 hi (by omega)).trans ?_
      simp [VisualizePPVol.Line, elemAt_map, XPoints_length, YPoints_length, ZPoints_length,
        hi, hj]
    · refine (six_loops_getElem? _ _ _ _ _ _ i 5 hi (by omega)).trans ?_
      simp [VisualizePPVol.Line, elemAt_map, XPoints_length, YPoints_length, ZPoints_length,
        hi, hj]

theorem LocalVertices_length (X Y Z R F1 F2 F3 : α) :
    (VisualizePPVol.LocalVertices X Y Z R F1 F2 F3).length = 120 := rfl

theorem Line_endpoints (Color : FColor) (LifeTime Thickness : α) (T g : FVector α → FVector α)
    (P S : List (FVector α)) (hS : ∀ p ∈ P, g p ∈ S) (i j : Nat)
    (hi : i < P.length) (hj : j < P.length) :
    ∃ p ∈ S, ∃ q ∈ S,
      (VisualizePPVol.Line Color LifeTime Thickness (P.map fun x => T (g x)) i j).Start = T p ∧
      (VisualizePPVol.Line Color LifeTime Thickness (P.map fun x => T (g x)) i j).End = T q :=
  ⟨g (VisualizePPVol.elemAt P i), hS _ (elemAt_mem P i hi),
    g (VisualizePPVol.elemAt P j), hS _ (elemAt_mem P j hj),
    by simp only [VisualizePPVol.Line]; exact elemAt_map (fun x => T (g x)) P i hi,
    by simp only [VisualizePPVol.Line]; exact elemAt_map (fun x => T (g x)) P j hj⟩

theorem VisualizePPVol_endpoints (Sin Cos : α → α) (PI : α) (World : Option (UWorld α))
    (PPVol : Option (APostProcessVolume α)) (V : APostProcessVolume α) (hV : PPVol = some V)
    (Color : FColor) (LifeTime Thickness : α) :
    ∀ seg ∈ VisualizePPVol Sin Cos PI World PPVol Color LifeTime Thickness,
      ∃ p ∈ VisualizePPVol.LocalVertices (V.Scale3D.X * 100) (V.Scale3D.Y * 100)
          (V.Scale3D.Z * 100) V.BlendRadius (Sin (PI / 8)) (Sin (PI / 4)) (Cos (PI / 8)),
      ∃ q ∈ VisualizePPVol.LocalVertices (V.Scale3D.X * 100) (V.Scale3D.Y * 100)
          (V.Scale3D.Z * 100) V.BlendRadius (Sin (PI / 8)) (Sin (PI / 4)) (Cos (PI / 8)),
        seg.Start = V.TransformPositionNoScale p ∧ seg.End = V.TransformPositionNoScale q := by
  subst hV
  intro seg hseg
  have hXA : ∀ p ∈ VisualizePPVol.XPoints (V.Scale3D.X * 100) (V.Scale3D.Y * 100)
      (V.Scale3D.Z * 100) V.BlendRadius (Sin (PI / 8)) (Sin (PI / 4)) (Cos (PI / 8)),
      (fun P : FVector α => P) p ∈ VisualizePPVol.LocalVertices (V.Scale3D.X * 100)
        (V.Scale3D.Y * 100) (V.Scale3D.Z * 100) V.BlendRadius (Sin (PI / 8)) (Sin (PI / 4))
        (Cos (PI / 8)) := fun p hp => by
    simp only [VisualizePPVol.LocalVertices, List.mem_append]
    exact Or.inl (Or.inl (Or.inl (Or.inl (Or.inl hp))))
  have hXB : ∀ p ∈ VisualizePPVol.XPoints (V.Scale3D.X * 100) (V.Scale3D.Y * 100)
      (V.Scale3D.Z * 100) V.BlendRadius (Sin (PI / 8)) (Sin (PI / 4)) (Cos (PI / 8)),
      (fun P : FVector α => (⟨-P.X, P.Y, P.Z⟩ : FVector α)) p
        ∈ VisualizePPVol.LocalVertices (V.Scale3D.X * 100)
        (V.Scale3D.Y * 100) (V.Scale3D.Z * 100) V.BlendRadius (Sin (PI / 8)) (Sin (PI / 4))
        (Cos (PI / 8)) := fun p hp => by
    simp only [VisualizePPVol.LocalVertices, List.mem_append]
    exact Or.inl (Or.inl (Or.inl (Or.inl (Or.inr (List.mem_map_of_mem _ hp)))))
  have hYA : ∀ p ∈ VisualizePPVol.YPoints (V.Scale3D.X * 100) (V.Scale3D.Y * 100)
      (V.Scale3D.Z * 100) V.BlendRadius (Sin (PI / 8)) (Sin (PI / 4)) (Cos (PI / 8)),
      (fun P : FVector α => P) p ∈ VisualizePPVol.LocalVertices (V.Scale3D.X * 100)
        (V.Scale3D.Y * 100) (V.Scale3D.Z * 100) V.BlendRadius (Sin (PI / 8)) (Sin (PI / 4))
        (Cos (PI / 8)) := fun p hp => by
    simp only [VisualizePPVol.LocalVertices, List.mem_append]
    exact Or.inl (Or.inl (Or.inl (Or.inr hp)))
  have hYB : ∀ p ∈ VisualizePPVol.YPoints (V.Scale3D.X * 100) (V.Scale3D.Y * 100)
      (V.Scale3D.Z * 100) V.BlendRadius (Sin (PI / 8)) (Sin (PI / 4)) (Cos (PI / 8)),
      (fun P : FVector α => (⟨P.X, -P.Y, P.Z⟩ : FVector α)) p
        ∈ VisualizePPVol.LocalVertices (V.Scale3D.X * 100)
        (V.Scale3D.Y * 100) (V.Scale3D.Z * 100) V.BlendRadius (Sin (PI / 8)) (Sin (PI / 4))
        (Cos (PI / 8)) := fun p hp => by
    simp only [VisualizePPVol.LocalVertices, List.mem_append]
    exact Or.inl (Or.inl (Or.inr (List.mem_map_of_mem _ hp)))
  have hZA : ∀ p ∈ VisualizePPVol.ZPoints (V.Scale3D.X * 100) (V.Scale3D.Y * 100)
      (V.Scale3D.Z * 100) V.BlendRadius (Sin (PI / 8)) (Sin (PI / 4)) (Cos (PI / 8)),
      (fun P : FVector α => P) p ∈ VisualizePPVol.LocalVertices (V.Scale3D.X * 100)
        (V.Scale3D.Y * 100) (V.Scale3D.Z * 100) V.BlendRadius (Sin (PI / 8)) (Sin (PI / 4))
        (Cos (PI / 8)) := fun p hp => by
    simp only [VisualizePPVol.LocalVertices, List.mem_append]
    exact Or.inl (Or.inr hp)
  have hZB : ∀ p ∈ VisualizePPVol.ZPoints (V.Scale3D.X * 100) (V.Scale3D.Y * 100)
      (V.Scale3D.Z * 100) V.BlendRadius (Sin (PI / 8)) (Sin (PI / 4)) (Cos (PI / 8)),
      (fun P : FVector α => (⟨P.X, P.Y, -P.Z⟩ : FVector α)) p
        ∈ VisualizePPVol.LocalVertices (V.Scale3D.X * 100)
        (V.Scale3D.Y * 100) (V.Scale3D.Z * 100) V.BlendRadius (Sin (PI / 8)) (Sin (PI / 4))
        (Cos (PI / 8)) := fun p hp => by
    simp only [VisualizePPVol.LocalVertices, List.mem_append]
    exact Or.inr (List.mem_map_of_mem _ hp)
  cases World with
  | none => simp [VisualizePPVol] at hseg
  | some W =>
    cases hb : V.bUnbound with
    | true => simp [VisualizePPVol, hb] at hseg
    | false =>
      cases hn : V.BrushPoints with
      | none => simp [VisualizePPVol, hb, hn] at hseg
      | some n =>
        simp only [VisualizePPVol, hb, hn, Bool.false_eq_true, if_false, List.length_map,
          XPoints_length, List.mem_append, List.mem_flatMap, List.mem_range, List.mem_cons,
          List.mem_singleton, List.not_mem_nil, or_false] at hseg
        rcases hseg with ⟨i, hi, h | h | h | h | h | h⟩ | h | h | h | h | h | h
        all_goals subst h
        · exact Line_endpoints _ _ _ V.TransformPositionNoScale _ _ _ hXA i (i + 1)
            (by rw [XPoints_length]; omega) (by rw [XPoints_length]; omega)
        · exact Line_endpoints _ _ _ V.TransformPositionNoScale _ _ _ hXB i (i + 1)
            (by rw [XPoints_length]; omega) (by rw [XPoints_length]; omega)
        · exact Line_endpoints _ _ _ V.TransformPositionNoScale _ _ _ hYA i (i + 1)
            (by rw [YPoints_length]; omega) (by rw [YPoints_length]; omega)
        · exact Line_endpoints _ _ _ V.TransformPositionNoScale _ _ _ hYB i (i + 1)
            (by rw [YPoints_length]; omega) (by rw [YPoints_length]; omega)
        · exact Line_endpoints _ _ _ V.TransformPositionNoScale _ _ _ hZA i (i + 1)
            (by rw [ZPoints_length]; omega) (by rw [ZPoints_length]; omega)
        · exact Line_endpoints _ _ _ V.TransformPositionNoScale _ _ _ hZB i (i + 1)
            (by rw [ZPoints_length]; omega) (by rw [ZPoints_length]; omega)
        · exact Line_endpoints _ _ _ V.TransformPositionNoScale _ _ _ hXA (20 - 1) 0
            (by rw [XPoints_length]; omega) (by rw [XPoints_length]; omega)
        · exact Line_endpoints _ _ _ V.TransformPositionNoScale _ _ _ hXB (20 - 1) 0
            (by rw [XPoints_length]; omega) (by rw [XPoints_length]; omega)
        · exact Line_endpoints _ _ _ V.TransformPositionNoScale _ _ _ hYA (20 - 1) 0
            (by rw [YPoints_length]; omega) (by rw [YPoints_length]; omega)
        · exact Line_endpoints _ _ _ V.TransformPositionNoScale _ _ _ hYB (20 - 1) 0
            (by rw [YPoints_length]; omega) (by rw [YPoints_length]; omega)
        · exact Line_endpoints _ _ _ V.TransformPositionNoScale _ _ _ hZA (20 - 1) 0
            (by rw [ZPoints_length]; omega) (by rw [ZPoints_length]; omega)
        · exact Line_endpoints _ _ _ V.TransformPositionNoScale _ _ _ hZB (20 - 1) 0
            (by rw [ZPoints_length]; omega) (by rw [ZPoints_length]; omega)

theorem BoxDistSquared_nearest {H p : FVector α} {R : α}
    (hX : 0 ≤ H.X) (hY : 0 ≤ H.Y) (hZ : 0 ≤ H.Z) (hp : BoxDistSquared H p = R ^ 2) :
    (∃ q, InBox H q ∧ DistSquared p q = R ^ 2) ∧
      ∀ b, InBox H b → R ^ 2 ≤ DistSquared p b :=
  ⟨⟨Clamp H p, Clamp_InBox hX hY hZ p, (DistSquared_Clamp hX hY hZ p).trans hp⟩,
    fun _ hb => hp ▸ BoxDistSquared_le hb p⟩

theorem sqrt_dist_of_nearest {H p : FVector ℝ} {R : ℝ} (hR : 0 ≤ R)
    (h : (∃ q, InBox H q ∧ DistSquared p q = R ^ 2) ∧
      ∀ b, InBox H b → R ^ 2 ≤ DistSquared p b) :
    (∃ q, InBox H q ∧ Real.sqrt (DistSquared p q) = R) ∧
      ∀ b, InBox H b → R ≤ Real.sqrt (DistSquared p b) := by
  obtain ⟨⟨q, hq, hd⟩, hlow⟩ := h
  refine ⟨⟨q, hq, ?_⟩, fun b hb => ?_⟩
  · rw [hd, Real.sqrt_sq hR]
  · calc R = Real.sqrt (R ^ 2) := (Real.sqrt_sq hR).symm
      _ ≤ Real.sqrt (DistSquared p b) := Real.sqrt_le_sqrt (hlow b hb)

theorem sin_cos_table :
    0 ≤ Real.sin (Real.pi / 8) ∧ 0 ≤ Real.sin (Real.pi / 4) ∧ 0 ≤ Real.cos (Real.pi / 8) ∧
      Real.sin (Real.pi / 8) ^ 2 + Real.cos (Real.pi / 8) ^ 2 = 1 ∧
      Real.sin (Real.pi / 4) ^ 2 + Real.sin (Real.pi / 4) ^ 2 = 1 := by
  have hpi := Real.pi_pos
  refine ⟨?_, ?_, ?_, Real.sin_sq_add_cos_sq _, ?_⟩
  · exact Real.sin_nonneg_of_nonneg_of_le_pi (by linarith) (by linarith)
  · exact Real.sin_nonneg_of_nonneg_of_le_pi (by linarith) (by linarith)
  · exact Real.cos_nonneg_of_mem_Icc ⟨by linarith, by linarith⟩
  · rw [Real.sin_pi_div_four]
    have h2 : Real.sqrt 2 ^ 2 = 2 := Real.sq_sqrt (by norm_num)
    nlinarith

theorem VisualizePPVol_length (Sin Cos : α → α) (PI : α) (W : UWorld α)
    (V : APostProcessVolume α) (Color : FColor) (LifeTime Thickness : α) (n : Nat)
    (hbound : V.bUnbound = false) (hbrush : V.BrushPoints = some n) :
    (VisualizePPVol Sin Cos PI (some W) (some V) Color LifeTime Thickness).length = 120 := by
  simp only [VisualizePPVol, hbound, hbrush, Bool.false_eq_true, if_false, List.length_map,
    XPoints_length]
  rw [List.length_append, flatMap_six_length]
  rfl

theorem VisualizePPVol_getElem? (Sin Cos : α → α) (PI : α) (W : UWorld α)
    (V : APostProcessVolume α) (Color : FColor) (LifeTime Thickness : α) (n : Nat)
    (hbound : V.bUnbound = false) (hbrush : V.BrushPoints = some n) (i k : Nat)
    (hi : i < 20) (hk : k < 6) :
    (VisualizePPVol Sin Cos PI (some W) (some V) Color LifeTime Thickness)[6 * i + k]?
      = [ VisualizePPVol.Line Color LifeTime Thickness
            ((VisualizePPVol.XPoints (V.Scale3D.X * 100) (V.Scale3D.Y * 100)
        (V.Scale3D.Z * 100) V.BlendRadius (Sin (PI / 8)) (Sin (PI / 4)) (Cos (PI / 8))).map fun Point => V.TransformPositionNoScale Point) i ((i + 1) % 20),
          VisualizePPVol.Line Color LifeTime Thickness
            ((VisualizePPVol.XPoints (V.Scale3D.X * 100) (V.Scale3D.Y * 100)
        (V.Scale3D.Z * 100) V.BlendRadius (Sin (PI / 8)) (Sin (PI / 4)) (Cos (PI / 8))).map fun Point =>
              V.TransformPositionNoScale ⟨-Point.X, Point.Y, Point.Z⟩) i ((i + 1) % 20),
          VisualizePPVol.Line Color LifeTime Thickness
            ((VisualizePPVol.YPoints (V.Scale3D.X * 100) (V.Scale3D.Y * 100)
        (V.Scale3D.Z * 100) V.BlendRadius (Sin (PI / 8)) (Sin (PI / 4)) (Cos (PI / 8))).map fun Point => V.TransformPositionNoScale Point) i ((i + 1) % 20),
          VisualizePPVol.Line Color LifeTime Thickness
            ((VisualizePPVol.YPoints (V.Scale3D.X * 100) (V.Scale3D.Y * 100)
        (V.Scale3D.Z * 100) V.BlendRadius (Sin (PI / 8)) (Sin (PI / 4)) (Cos (PI / 8))).map fun Point =>
              V.TransformPositionNoScale ⟨Point.X, -Point.Y, Point.Z⟩) i ((i + 1) % 20),
          VisualizePPVol.Line Color LifeTime Thickness
            ((VisualizePPVol.ZPoints (V.Scale3D.X * 100) (V.Scale3D.Y * 100)
        (V.Scale3D.Z * 100) V.BlendRadius (Sin (PI / 8)) (Sin (PI / 4)) (Cos (PI / 8))).map fun Point => V.TransformPositionNoScale Point) i ((i + 1) % 20),
          VisualizePPVol.Line Color LifeTime Thickness
            ((VisualizePPVol.ZPoints (V.Scale3D.X * 100) (V.Scale3D.Y * 100)
        (V.Scale3D.Z * 100) V.BlendRadius (Sin (PI / 8)) (Sin (PI / 4)) (Cos (PI / 8))).map fun Point =>
              V.TransformPositionNoScale ⟨Point.X, Point.Y, -Point.Z⟩) i ((i + 1) % 20) ][k]? := by
  simp only [VisualizePPVol, hbound, hbrush, Bool.false_eq_true, if_false, List.length_map,
    XPoints_length]
  exact six_loops_getElem? _ _ _ _ _ _ i k hi hk

theorem emitted_of_loop (segs : List (FBatchedLine α)) (Color : FColor)
    (LifeTime Thickness : α) (T g : FVector α → FVector α) (P S : List (FVector α))
    (hlen : P.length = 20) (hS : ∀ p ∈ P, g p ∈ S)
    (hseg : ∀ i, i < 20 →
      VisualizePPVol.Line Color LifeTime Thickness (P.map fun x => T (g x)) i ((i + 1) % 20)
        ∈ segs) :
    ∀ p ∈ P, ∃ seg ∈ segs, seg.Start = T (g p) ∧ ∃ q ∈ S, seg.End = T q := by
  intro p hp
  obtain ⟨i, hi, e⟩ := List.getElem_of_mem hp
  have hj : (i + 1) % 20 < P.length := by rw [hlen]; exact Nat.mod_lt _ (by omega)
  have hpi : VisualizePPVol.elemAt P i = p := by
    simp [VisualizePPVol.elemAt, List.getElem?_eq_getElem hi, e]
  refine ⟨_, hseg i (by omega), ?_, g (VisualizePPVol.elemAt P ((i + 1) % 20)),
    hS _ (elemAt_mem P _ hj), ?_⟩
  · simp only [VisualizePPVol.Line]
    rw [elemAt_map (fun x => T (g x)) P i hi, hpi]
  · simp only [VisualizePPVol.Line]
    exact elemAt_map (fun x => T (g x)) P _ hj

theorem VisualizePPVol_emits_local_vertices (Sin Cos : α → α) (PI : α) (W : UWorld α)
    (V : APostProcessVolume α) (Color : FColor) (LifeTime Thickness : α) (n : Nat)
    (hbound : V.bUnbound = false) (hbrush : V.BrushPoints = some n) :
    ∀ p ∈ VisualizePPVol.LocalVertices (V.Scale3D.X * 100) (V.Scale3D.Y * 100)
          (V.Scale3D.Z * 100) V.BlendRadius (Sin (PI / 8)) (Sin (PI / 4)) (Cos (PI / 8)),
      ∃ seg ∈ VisualizePPVol Sin Cos PI (some W) (some V) Color LifeTime Thickness, seg.Start = V.TransformPositionNoScale p ∧
        ∃ q ∈ VisualizePPVol.LocalVertices (V.Scale3D.X * 100) (V.Scale3D.Y * 100)
          (V.Scale3D.Z * 100) V.BlendRadius (Sin (PI / 8)) (Sin (PI / 4)) (Cos (PI / 8)), seg.End = V.TransformPositionNoScale q := by
  have hXA : ∀ p ∈ VisualizePPVol.XPoints (V.Scale3D.X * 100) (V.Scale3D.Y * 100)
        (V.Scale3D.Z * 100) V.BlendRadius (Sin (PI / 8)) (Sin (PI / 4)) (Cos (PI / 8)),
      (fun P : FVector α => P) p ∈ VisualizePPVol.LocalVertices (V.Scale3D.X * 100) (V.Scale3D.Y * 100)
          (V.Scale3D.Z * 100) V.BlendRadius (Sin (PI / 8)) (Sin (PI / 4)) (Cos (PI / 8)) := fun p hp => by
    simp only [VisualizePPVol.LocalVertices, List.mem_append]
    exact Or.inl (Or.inl (Or.inl (Or.inl (Or.inl hp))))
  have hXB : ∀ p ∈ VisualizePPVol.XPoints (V.Scale3D.X * 100) (V.Scale3D.Y * 100)
        (V.Scale3D.Z * 100) V.BlendRadius (Sin (PI / 8)) (Sin (PI / 4)) (Cos (PI / 8)),
      (fun P : FVector α => (⟨-P.X, P.Y, P.Z⟩ : FVector α)) p ∈ VisualizePPVol.LocalVertices (V.Scale3D.X * 100) (V.Scale3D.Y * 100)
          (V.Scale3D.Z * 100) V.BlendRadius (Sin (PI / 8)) (Sin (PI / 4)) (Cos (PI / 8)) := fun p hp => by
    simp only [VisualizePPVol.LocalVertices, List.mem_append]
    exact Or.inl (Or.inl (Or.inl (Or.inl (Or.inr (List.mem_map_of_mem _ hp)))))
  have hYA : ∀ p ∈ VisualizePPVol.YPoints (V.Scale3D.X * 100) (V.Scale3D.Y * 100)
        (V.Scale3D.Z * 100) V.BlendRadius (Sin (PI / 8)) (Sin (PI / 4)) (Cos (PI / 8)),
      (fun P : FVector α => P) p ∈ VisualizePPVol.LocalVertices (V.Scale3D.X * 100) (V.Scale3D.Y * 100)
          (V.Scale3D.Z * 100) V.BlendRadius (Sin (PI / 8)) (Sin (PI / 4)) (Cos (PI / 8)) := fun p hp => by
    simp only [VisualizePPVol.LocalVertices, List.mem_append]
    exact Or.inl (Or.inl (Or.inl (Or.inr hp)))
  have hYB : ∀ p ∈ VisualizePPVol.YPoints (V.Scale3D.X * 100) (V.Scale3D.Y * 100)
        (V.Scale3D.Z * 100) V.BlendRadius (Sin (PI / 8)) (Sin (PI / 4)) (Cos (PI / 8)),
      (fun P : FVector α => (⟨P.X, -P.Y, P.Z⟩ : FVector α)) p ∈ VisualizePPVol.LocalVertices (V.Scale3D.X * 100) (V.Scale3D.Y * 100)
          (V.Scale3D.Z * 100) V.BlendRadius (Sin (PI / 8)) (Sin (PI / 4)) (Cos (PI / 8)) := fun p hp => by
    simp only [VisualizePPVol.LocalVertices, List.mem_append]
    exact Or.inl (Or.inl (Or.inr (List.mem_map_of_mem _ hp)))
  have hZA : ∀ p ∈ VisualizePPVol.ZPoints (V.Scale3D.X * 100) (V.Scale3D.Y * 100)
        (V.Scale3D.Z * 100) V.BlendRadius (Sin (PI / 8)) (Sin (PI / 4)) (Cos (PI / 8)),
      (fun P : FVector α => P) p ∈ VisualizePPVol.LocalVertices (V.Scale3D.X * 100) (V.Scale3D.Y * 100)
          (V.Scale3D.Z * 100) V.BlendRadius (Sin (PI / 8)) (Sin (PI / 4)) (Cos (PI / 8)) := fun p hp => by
    simp only [VisualizePPVol.LocalVertices, List.mem_append]
    exact Or.inl (Or.inr hp)
  have hZB : ∀ p ∈ VisualizePPVol.ZPoints (V.Scale3D.X * 100) (V.Scale3D.Y * 100)
        (V.Scale3D.Z * 100) V.BlendRadius (Sin (PI / 8)) (Sin (PI / 4)) (Cos (PI / 8)),
      (fun P : FVector α => (⟨P.X, P.Y, -P.Z⟩ : FVector α)) p ∈ VisualizePPVol.LocalVertices (V.Scale3D.X * 100) (V.Scale3D.Y * 100)
          (V.Scale3D.Z * 100) V.BlendRadius (Sin (PI / 8)) (Sin (PI / 4)) (Cos (PI / 8)) := fun p hp => by
    simp only [VisualizePPVol.LocalVertices, List.mem_append]
    exact Or.inr (List.mem_map_of_mem _ hp)
  have hmem : ∀ i k, i < 20 → k < 6 → ∀ seg,
      [ VisualizePPVol.Line Color LifeTime Thickness
            ((VisualizePPVol.XPoints (V.Scale3D.X * 100) (V.Scale3D.Y * 100)
        (V.Scale3D.Z * 100) V.BlendRadius (Sin (PI / 8)) (Sin (PI / 4)) (Cos (PI / 8))).map fun Point => V.TransformPositionNoScale Point) i ((i + 1) % 20),
          VisualizePPVol.Line Color LifeTime Thickness
            ((VisualizePPVol.XPoints (V.Scale3D.X * 100) (V.Scale3D.Y * 100)
        (V.Scale3D.Z * 100) V.BlendRadius (Sin (PI / 8)) (Sin (PI / 4)) (Cos (PI / 8))).map fun Point =>
              V.TransformPositionNoScale ⟨-Point.X, Point.Y, Point.Z⟩) i ((i + 1) % 20),
          VisualizePPVol.Line Color LifeTime Thickness
            ((VisualizePPVol.YPoints (V.Scale3D.X * 100) (V.Scale3D.Y * 100)
        (V.Scale3D.Z * 100) V.BlendRadius (Sin (PI / 8)) (Sin (PI / 4)) (Cos (PI / 8))).map fun Point => V.TransformPositionNoScale Point) i ((i + 1) % 20),
          VisualizePPVol.Line Color LifeTime Thickness
            ((VisualizePPVol.YPoints (V.Scale3D.X * 100) (V.Scale3D.Y * 100)
        (V.Scale3D.Z * 100) V.BlendRadius (Sin (PI / 8)) (Sin (PI / 4)) (Cos (PI / 8))).map fun Point =>
              V.TransformPositionNoScale ⟨Point.X, -Point.Y, Point.Z⟩) i ((i + 1) % 20),
          VisualizePPVol.Line Color LifeTime Thickness
            ((VisualizePPVol.ZPoints (V.Scale3D.X * 100) (V.Scale3D.Y * 100)
        (V.Scale3D.Z * 100) V.BlendRadius (Sin (PI / 8)) (Sin (PI / 4)) (Cos (PI / 8))).map fun Point => V.TransformPositionNoScale Point) i ((i + 1) % 20),
          VisualizePPVol.Line Color LifeTime Thickness
            ((VisualizePPVol.ZPoints (V.Scale3D.X * 100) (V.Scale3D.Y * 100)
        (V.Scale3D.Z * 100) V.BlendRadius (Sin (PI / 8)) (Sin (PI / 4)) (Cos (PI / 8))).map fun Point =>
              V.TransformPositionNoScale ⟨Point.X, Point.Y, -Point.Z⟩) i ((i + 1) % 20) ][k]?
        = some seg →
      seg ∈ VisualizePPVol Sin Cos PI (some W) (some V) Color LifeTime Thickness := fun i k hi hk seg h =>
    List.getElem?_mem ((VisualizePPVol_getElem? Sin Cos PI W V Color LifeTime Thickness n
      hbound hbrush i k hi hk).trans h)
  have eXA := emitted_of_loop _ Color LifeTime Thickness V.TransformPositionNoScale _ _ _
    (XPoints_length _ _ _ _ _ _ _) hXA (fun i hi => hmem i 0 hi (by omega) _ rfl)
  have eXB := emitted_of_loop _ Color LifeTime Thickness V.TransformPositionNoScale _ _ _
    (XPoints_length _ _ _ _ _ _ _) hXB (fun i hi => hmem i 1 hi (by omega) _ rfl)
  have eYA := emitted_of_loop _ Color LifeTime Thickness V.TransformPositionNoScale _ _ _
    (YPoints_length _ _ _ _ _ _ _) hYA (fun i hi => hmem i 2 hi (by omega) _ rfl)
  have eYB := emitted_of_loop _ Color LifeTime Thickness V.TransformPositionNoScale _ _ _
    (YPoints_length _ _ _ _ _ _ _) hYB (fun i hi => hmem i 3 hi (by omega) _ rfl)
  have eZA := emitted_of_loop _ Color LifeTime Thickness V.TransformPositionNoScale _ _ _
    (ZPoints_length _ _ _ _ _ _ _) hZA (fun i hi => hmem i 4 hi (by omega) _ rfl)
  have eZB := emitted_of_loop _ Color LifeTime Thickness V.TransformPositionNoScale _ _ _
    (ZPoints_length _ _ _ _ _ _ _) hZB (fun i hi => hmem i 5 hi (by omega) _ rfl)
  intro p hp
  simp only [VisualizePPVol.LocalVertices, List.mem_append, List.mem_map] at hp
  rcases hp with ((((hp | ⟨q, hq, rfl⟩) | hp) | ⟨q, hq, rfl⟩) | hp) | ⟨q, hq, rfl⟩
  · exact eXA p hp
  · exact eXB q hq
  · exact eYA p hp
  · exact eYB q hq
  · exact eZA p hp
  · exact eZB q hq

/-- Claim C8: over the reals, with `FMath::Sin`, `FMath::Cos`, `UE_PI` the real sine, cosine
and pi, for a bounded volume with a brush component, a world present, positive scale (half
extents `H = 100 * scale`), blend radius `R ≥ 0` and a `TransformPositionNoScale` that
preserves distances (rotation and translation only): there are 120 local space vertices, each
with a point of the box `[-H, H]` at Euclidean distance exactly `R` and no point of the box
nearer than `R`; `VisualizePPVol` submits 120 segments; the transform of every local vertex
is the start point of a submitted segment, whose end point is the transform of a local vertex
too; and every end point of every submitted segment is the transform of a local vertex and
has a point of the transformed box at distance exactly `R` and none nearer than `R`. -/
theorem VisualizePPVol_vertices_at_blend_radius (W : UWorld ℝ)
    (V : APostProcessVolume ℝ) (Color : FColor) (LifeTime Thickness : ℝ) (n : Nat)
    (hbound : V.bUnbound = false) (hbrush : V.BrushPoints = some n)
    (hsX : 0 < V.Scale3D.X) (hsY : 0 < V.Scale3D.Y) (hsZ : 0 < V.Scale3D.Z)
    (hR : 0 ≤ V.BlendRadius)
    (hT : ∀ a b, DistSquared (V.TransformPositionNoScale a) (V.TransformPositionNoScale b)
      = DistSquared a b) :
    (VisualizePPVol.LocalVertices (V.Scale3D.X * 100) (V.Scale3D.Y * 100)
          (V.Scale3D.Z * 100) V.BlendRadius (Real.sin (Real.pi / 8)) (Real.sin (Real.pi / 4))
          (Real.cos (Real.pi / 8))).length = 120 ∧
    (∀ p ∈ VisualizePPVol.LocalVertices (V.Scale3D.X * 100) (V.Scale3D.Y * 100)
          (V.Scale3D.Z * 100) V.BlendRadius (Real.sin (Real.pi / 8)) (Real.sin (Real.pi / 4))
          (Real.cos (Real.pi / 8)),
      (∃ q, InBox ⟨V.Scale3D.X * 100, V.Scale3D.Y * 100, V.Scale3D.Z * 100⟩ q ∧ Real.sqrt (DistSquared p q) = V.BlendRadius) ∧
        ∀ b, InBox ⟨V.Scale3D.X * 100, V.Scale3D.Y * 100, V.Scale3D.Z * 100⟩ b → V.BlendRadius ≤ Real.sqrt (DistSquared p b)) ∧
    (VisualizePPVol Real.sin Real.cos Real.pi (some W) (some V) Color LifeTime Thickness).length = 120 ∧
    (∀ p ∈ VisualizePPVol.LocalVertices (V.Scale3D.X * 100) (V.Scale3D.Y * 100)
          (V.Scale3D.Z * 100) V.BlendRadius (Real.sin (Real.pi / 8)) (Real.sin (Real.pi / 4))
          (Real.cos (Real.pi / 8)),
      ∃ seg ∈ VisualizePPVol Real.sin Real.cos Real.pi (some W) (some V) Color LifeTime Thickness, seg.Start = V.TransformPositionNoScale p ∧
        ∃ q ∈ VisualizePPVol.LocalVertices (V.Scale3D.X * 100) (V.Scale3D.Y * 100)
          (V.Scale3D.Z * 100) V.BlendRadius (Real.sin (Real.pi / 8)) (Real.sin (Real.pi / 4))
          (Real.cos (Real.pi / 8)), seg.End = V.TransformPositionNoScale q) ∧
    (∀ seg ∈ VisualizePPVol Real.sin Real.cos Real.pi (some W) (some V) Color LifeTime Thickness,
      ∀ v, v = seg.Start ∨ v = seg.End →
        (∃ p ∈ VisualizePPVol.LocalVertices (V.Scale3D.X * 100) (V.Scale3D.Y * 100)
          (V.Scale3D.Z * 100) V.BlendRadius (Real.sin (Real.pi / 8)) (Real.sin (Real.pi / 4))
          (Real.cos (Real.pi / 8)), v = V.TransformPositionNoScale p) ∧
        (∃ q, InBox ⟨V.Scale3D.X * 100, V.Scale3D.Y * 100, V.Scale3D.Z * 100⟩ q ∧
          Real.sqrt (DistSquared v (V.TransformPositionNoScale q)) = V.BlendRadius) ∧
        ∀ b, InBox ⟨V.Scale3D.X * 100, V.Scale3D.Y * 100, V.Scale3D.Z * 100⟩ b →
          V.BlendRadius ≤ Real.sqrt (DistSquared v (V.TransformPositionNoScale b))) := by
  obtain ⟨f1, f2, f3, h13, h22⟩ := sin_cos_table
  have hX : (0 : ℝ) ≤ V.Scale3D.X * 100 := by positivity
  have hY : (0 : ℝ) ≤ V.Scale3D.Y * 100 := by positivity
  have hZ : (0 : ℝ) ≤ V.Scale3D.Z * 100 := by positivity
  have hloc : ∀ p ∈ VisualizePPVol.LocalVertices (V.Scale3D.X * 100) (V.Scale3D.Y * 100)
          (V.Scale3D.Z * 100) V.BlendRadius (Real.sin (Real.pi / 8)) (Real.sin (Real.pi / 4))
          (Real.cos (Real.pi / 8)),
      (∃ q, InBox ⟨V.Scale3D.X * 100, V.Scale3D.Y * 100, V.Scale3D.Z * 100⟩ q ∧ Real.sqrt (DistSquared p q) = V.BlendRadius) ∧
        ∀ b, InBox ⟨V.Scale3D.X * 100, V.Scale3D.Y * 100, V.Scale3D.Z * 100⟩ b → V.BlendRadius ≤ Real.sqrt (DistSquared p b) := fun p hp =>
    sqrt_dist_of_nearest hR (BoxDistSquared_nearest hX hY hZ
      (LocalVertices_BoxDistSquared hX hY hZ hR f1 f2 f3 h13 h22 p hp))
  refine ⟨LocalVertices_length _ _ _ _ _ _ _, hloc,
    VisualizePPVol_length _ _ _ W V Color LifeTime Thickness n hbound hbrush,
    VisualizePPVol_emits_local_vertices _ _ _ W V Color LifeTime Thickness n hbound hbrush,
    ?_⟩
  intro seg hseg v hv
  obtain ⟨p, hp, q, hq, hs, he⟩ :=
    VisualizePPVol_endpoints Real.sin Real.cos Real.pi (some W) (some V) V rfl Color LifeTime
      Thickness seg hseg
  have hw : ∀ p ∈ VisualizePPVol.LocalVertices (V.Scale3D.X * 100) (V.Scale3D.Y * 100)
          (V.Scale3D.Z * 100) V.BlendRadius (Real.sin (Real.pi / 8)) (Real.sin (Real.pi / 4))
          (Real.cos (Real.pi / 8)),
      (∃ q, InBox ⟨V.Scale3D.X * 100, V.Scale3D.Y * 100, V.Scale3D.Z * 100⟩ q ∧
          Real.sqrt (DistSquared (V.TransformPositionNoScale p)
            (V.TransformPositionNoScale q)) = V.BlendRadius) ∧
        ∀ b, InBox ⟨V.Scale3D.X * 100, V.Scale3D.Y * 100, V.Scale3D.Z * 100⟩ b →
          V.BlendRadius ≤ Real.sqrt (DistSquared (V.TransformPositionNoScale p)
            (V.TransformPositionNoScale b)) := fun p hp => by
    simpa only [hT] using hloc p hp
  rcases hv with rfl | rfl
  · rw [hs]
    exact ⟨⟨p, hp, rfl⟩, hw p hp⟩
  · rw [he]
    exact ⟨⟨q, hq, rfl⟩, hw q hq⟩

/-- Sample evaluation for claim C8: a world and the bounded box volume of scale (1, 2, 3) with
blend radius 20 and a brush of 8 points, placed by a quarter turn and a translation; the 120
segments are submitted. -/
theorem VisualizePPVol_vertices_at_blend_radius_witness :
    ((Sample.BoxVolume ℝ 20).bUnbound = false ∧ (Sample.BoxVolume ℝ 20).BrushPoints = some 8 ∧
      (0 : ℝ) < (Sample.BoxVolume ℝ 20).Scale3D.X ∧
      (0 : ℝ) < (Sample.BoxVolume ℝ 20).Scale3D.Y ∧
      (0 : ℝ) < (Sample.BoxVolume ℝ 20).Scale3D.Z ∧
      (0 : ℝ) ≤ (Sample.BoxVolume ℝ 20).BlendRadius ∧
      ∀ a b, DistSquared ((Sample.BoxVolume ℝ 20).TransformPositionNoScale a)
        ((Sample.BoxVolume ℝ 20).TransformPositionNoScale b) = DistSquared a b) ∧
    ((VisualizePPVol.LocalVertices ((Sample.BoxVolume ℝ 20).Scale3D.X * 100) ((Sample.BoxVolume ℝ 20).Scale3D.Y * 100)
          ((Sample.BoxVolume ℝ 20).Scale3D.Z * 100) (Sample.BoxVolume ℝ 20).BlendRadius (Real.sin (Real.pi / 8)) (Real.sin (Real.pi / 4))
          (Real.cos (Real.pi / 8))).length = 120 ∧
    (∀ p ∈ VisualizePPVol.LocalVertices ((Sample.BoxVolume ℝ 20).Scale3D.X * 100) ((Sample.BoxVolume ℝ 20).Scale3D.Y * 100)
          ((Sample.BoxVolume ℝ 20).Scale3D.Z * 100) (Sample.BoxVolume ℝ 20).BlendRadius (Real.sin (Real.pi / 8)) (Real.sin (Real.pi / 4))
          (Real.cos (Real.pi / 8)),
      (∃ q, InBox ⟨(Sample.BoxVolume ℝ 20).Scale3D.X * 100, (Sample.BoxVolume ℝ 20).Scale3D.Y * 100, (Sample.BoxVolume ℝ 20).Scale3D.Z * 100⟩ q ∧ Real.sqrt (DistSquared p q) = (Sample.BoxVolume ℝ 20).BlendRadius) ∧
        ∀ b, InBox ⟨(Sample.BoxVolume ℝ 20).Scale3D.X * 100, (Sample.BoxVolume ℝ 20).Scale3D.Y * 100, (Sample.BoxVolume ℝ 20).Scale3D.Z * 100⟩ b → (Sample.BoxVolume ℝ 20).BlendRadius ≤ Real.sqrt (DistSquared p b)) ∧
    (VisualizePPVol Real.sin Real.cos Real.pi (some (Sample.EmptyWorld ℝ)) (some (Sample.BoxVolume ℝ 20)) ⟨0, 255, 0, 255⟩ (-1) 1).length = 120 ∧
    (∀ p ∈ VisualizePPVol.LocalVertices ((Sample.BoxVolume ℝ 20).Scale3D.X * 100) ((Sample.BoxVolume ℝ 20).Scale3D.Y * 100)
          ((Sample.BoxVolume ℝ 20).Scale3D.Z * 100) (Sample.BoxVolume ℝ 20).BlendRadius (Real.sin (Real.pi / 8)) (Real.sin (Real.pi / 4))
          (Real.cos (Real.pi / 8)),
      ∃ seg ∈ VisualizePPVol Real.sin Real.cos Real.pi (some (Sample.EmptyWorld ℝ)) (some (Sample.BoxVolume ℝ 20)) ⟨0, 255, 0, 255⟩ (-1) 1, seg.Start = (Sample.BoxVolume ℝ 20).TransformPositionNoScale p ∧
        ∃ q ∈ VisualizePPVol.LocalVertices ((Sample.BoxVolume ℝ 20).Scale3D.X * 100) ((Sample.BoxVolume ℝ 20).Scale3D.Y * 100)
          ((Sample.BoxVolume ℝ 20).Scale3D.Z * 100) (Sample.BoxVolume ℝ 20).BlendRadius (Real.sin (Real.pi / 8)) (Real.sin (Real.pi / 4))
          (Real.cos (Real.pi / 8)), seg.End = (Sample.BoxVolume ℝ 20).TransformPositionNoScale q) ∧
    (∀ seg ∈ VisualizePPVol Real.sin Real.cos Real.pi (some (Sample.EmptyWorld ℝ)) (some (Sample.BoxVolume ℝ 20)) ⟨0, 255, 0, 255⟩ (-1) 1,
      ∀ v, v = seg.Start ∨ v = seg.End →
        (∃ p ∈ VisualizePPVol.LocalVertices ((Sample.BoxVolume ℝ 20).Scale3D.X * 100) ((Sample.BoxVolume ℝ 20).Scale3D.Y * 100)
          ((Sample.BoxVolume ℝ 20).Scale3D.Z * 100) (Sample.BoxVolume ℝ 20).BlendRadius (Real.sin (Real.pi / 8)) (Real.sin (Real.pi / 4))
          (Real.cos (Real.pi / 8)), v = (Sample.BoxVolume ℝ 20).TransformPositionNoScale p) ∧
        (∃ q, InBox ⟨(Sample.BoxVolume ℝ 20).Scale3D.X * 100, (Sample.BoxVolume ℝ 20).Scale3D.Y * 100, (Sample.BoxVolume ℝ 20).Scale3D.Z * 100⟩ q ∧
          Real.sqrt (DistSquared v ((Sample.BoxVolume ℝ 20).TransformPositionNoScale q)) = (Sample.BoxVolume ℝ 20).BlendRadius) ∧
        ∀ b, InBox ⟨(Sample.BoxVolume ℝ 20).Scale3D.X * 100, (Sample.BoxVolume ℝ 20).Scale3D.Y * 100, (Sample.BoxVolume ℝ 20).Scale3D.Z * 100⟩ b →
          (Sample.BoxVolume ℝ 20).BlendRadius ≤ Real.sqrt (DistSquared v ((Sample.BoxVolume ℝ 20).TransformPositionNoScale b)))) :=
  ⟨⟨rfl, rfl, by norm_num [Sample.BoxVolume], by norm_num [Sample.BoxVolume],
      by norm_num [Sample.BoxVolume], by norm_num [Sample.BoxVolume],
      fun a b => by simp only [DistSquared, Sample.BoxVolume]; ring⟩,
    VisualizePPVol_vertices_at_blend_radius (Sample.EmptyWorld ℝ) (Sample.BoxVolume ℝ 20)
      ⟨0, 255, 0, 255⟩ (-1) 1 8 rfl rfl
      (by norm_num [Sample.BoxVolume]) (by norm_num [Sample.BoxVolume])
      (by norm_num [Sample.BoxVolume]) (by norm_num [Sample.BoxVolume])
      (fun a b => by simp only [DistSquared, Sample.BoxVolume]; ring)⟩

/-- Sample evaluation for claim C9: the box volume of scale (1, 2, 3) with blend radius 20. -/
theorem VisualizePPVol_closed_loops_witness :
    ((Sample.BoxVolume ℚ 20).bUnbound = false ∧ (Sample.BoxVolume ℚ 20).BrushPoints = some 8) ∧
    ((VisualizePPVol Sample.Sin Sample.Cos Sample.PI (some (Sample.World [])) (some (Sample.BoxVolume ℚ 20)) ⟨0, 255, 0, 255⟩ (-1) 1).length = 120 ∧
    ∀ i, i < 20 →
      (VisualizePPVol Sample.Sin Sample.Cos Sample.PI (some (Sample.World [])) (some (Sample.BoxVolume ℚ 20)) ⟨0, 255, 0, 255⟩ (-1) 1)[6 * i]?
        = some ⟨(Sample.BoxVolume ℚ 20).TransformPositionNoScale (VisualizePPVol.elemAt
          (VisualizePPVol.XPoints ((Sample.BoxVolume ℚ 20).Scale3D.X * 100) ((Sample.BoxVolume ℚ 20).Scale3D.Y * 100) ((Sample.BoxVolume ℚ 20).Scale3D.Z * 100)
            (Sample.BoxVolume ℚ 20).BlendRadius (Sample.Sin (Sample.PI / 8)) (Sample.Sin (Sample.PI / 4))
            (Sample.Cos (Sample.PI / 8))) i),
          (Sample.BoxVolume ℚ 20).TransformPositionNoScale (VisualizePPVol.elemAt
          (VisualizePPVol.XPoints ((Sample.BoxVolume ℚ 20).Scale3D.X * 100) ((Sample.BoxVolume ℚ 20).Scale3D.Y * 100) ((Sample.BoxVolume ℚ 20).Scale3D.Z * 100)
            (Sample.BoxVolume ℚ 20).BlendRadius (Sample.Sin (Sample.PI / 8)) (Sample.Sin (Sample.PI / 4))
            (Sample.Cos (Sample.PI / 8))) ((i + 1) % 20)),
          ⟨0, 255, 0, 255⟩, -1, 1, 0⟩ ∧
      (VisualizePPVol Sample.Sin Sample.Cos Sample.PI (some (Sample.World [])) (some (Sample.BoxVolume ℚ 20)) ⟨0, 255, 0, 255⟩ (-1) 1)[6 * i + 1]?
        = some ⟨(Sample.BoxVolume ℚ 20).TransformPositionNoScale ⟨-(VisualizePPVol.elemAt
          (VisualizePPVol.XPoints ((Sample.BoxVolume ℚ 20).Scale3D.X * 100) ((Sample.BoxVolume ℚ 20).Scale3D.Y * 100) ((Sample.BoxVolume ℚ 20).Scale3D.Z * 100)
            (Sample.BoxVolume ℚ 20).BlendRadius (Sample.Sin (Sample.PI / 8)) (Sample.Sin (Sample.PI / 4))
            (Sample.Cos (Sample.PI / 8))) i).X,
          (VisualizePPVol.elemAt
          (VisualizePPVol.XPoints ((Sample.BoxVolume ℚ 20).Scale3D.X * 100) ((Sample.BoxVolume ℚ 20).Scale3D.Y * 100) ((Sample.BoxVolume ℚ 20).Scale3D.Z * 100)
            (Sample.BoxVolume ℚ 20).BlendRadius (Sample.Sin (Sample.PI / 8)) (Sample.Sin (Sample.PI / 4))
            (Sample.Cos (Sample.PI / 8))) i).Y,
          (VisualizePPVol.elemAt
          (VisualizePPVol.XPoints ((Sample.BoxVolume ℚ 20).Scale3D.X * 100) ((Sample.BoxVolume ℚ 20).Scale3D.Y * 100) ((Sample.BoxVolume ℚ 20).Scale3D.Z * 100)
            (Sample.BoxVolume ℚ 20).BlendRadius (Sample.Sin (Sample.PI / 8)) (Sample.Sin (Sample.PI / 4))
            (Sample.Cos (Sample.PI / 8))) i).Z⟩,
          (Sample.BoxVolume ℚ 20).TransformPositionNoScale ⟨-(VisualizePPVol.elemAt
          (VisualizePPVol.XPoints ((Sample.BoxVolume ℚ 20).Scale3D.X * 100) ((Sample.BoxVolume ℚ 20).Scale3D.Y * 100) ((Sample.BoxVolume ℚ 20).Scale3D.Z * 100)
            (Sample.BoxVolume ℚ 20).BlendRadius (Sample.Sin (Sample.PI / 8)) (Sample.Sin (Sample.PI / 4))
            (Sample.Cos (Sample.PI / 8))) ((i + 1) % 20)).X,
          (VisualizePPVol.elemAt
          (VisualizePPVol.XPoints ((Sample.BoxVolume ℚ 20).Scale3D.X * 100) ((Sample.BoxVolume ℚ 20).Scale3D.Y * 100) ((Sample.BoxVolume ℚ 20).Scale3D.Z * 100)
            (Sample.BoxVolume ℚ 20).BlendRadius (Sample.Sin (Sample.PI / 8)) (Sample.Sin (Sample.PI / 4))
            (Sample.Cos (Sample.PI / 8))) ((i + 1) % 20)).Y,
          (VisualizePPVol.elemAt
          (VisualizePPVol.XPoints ((Sample.BoxVolume ℚ 20).Scale3D.X * 100) ((Sample.BoxVolume ℚ 20).Scale3D.Y * 100) ((Sample.BoxVolume ℚ 20).Scale3D.Z * 100)
            (Sample.BoxVolume ℚ 20).BlendRadius (Sample.Sin (Sample.PI / 8)) (Sample.Sin (Sample.PI / 4))
            (Sample.Cos (Sample.PI / 8))) ((i + 1) % 20)).Z⟩,
          ⟨0, 255, 0, 255⟩, -1, 1, 0⟩ ∧
      (VisualizePPVol Sample.Sin Sample.Cos Sample.PI (some (Sample.World [])) (some (Sample.BoxVolume ℚ 20)) ⟨0, 255, 0, 255⟩ (-1) 1)[6 * i + 2]?
        = some ⟨(Sample.BoxVolume ℚ 20).TransformPositionNoScale (VisualizePPVol.elemAt
          (VisualizePPVol.YPoints ((Sample.BoxVolume ℚ 20).Scale3D.X * 100) ((Sample.BoxVolume ℚ 20).Scale3D.Y * 100) ((Sample.BoxVolume ℚ 20).Scale3D.Z * 100)
            (Sample.BoxVolume ℚ 20).BlendRadius (Sample.Sin (Sample.PI / 8)) (Sample.Sin (Sample.PI / 4))
            (Sample.Cos (Sample.PI / 8))) i),
          (Sample.BoxVolume ℚ 20).TransformPositionNoScale (VisualizePPVol.elemAt
          (VisualizePPVol.YPoints ((Sample.BoxVolume ℚ 20).Scale3D.X * 100) ((Sample.BoxVolume ℚ 20).Scale3D.Y * 100) ((Sample.BoxVolume ℚ 20).Scale3D.Z * 100)
            (Sample.BoxVolume ℚ 20).BlendRadius (Sample.Sin (Sample.PI / 8)) (Sample.Sin (Sample.PI / 4))
            (Sample.Cos (Sample.PI / 8))) ((i + 1) % 20)),
          ⟨0, 255, 0, 255⟩, -1, 1, 0⟩ ∧
      (VisualizePPVol Sample.Sin Sample.Cos Sample.PI (some (Sample.World [])) (some (Sample.BoxVolume ℚ 20)) ⟨0, 255, 0, 255⟩ (-1) 1)[6 * i + 3]?
        = some ⟨(Sample.BoxVolume ℚ 20).TransformPositionNoScale ⟨(VisualizePPVol.elemAt
          (VisualizePPVol.YPoints ((Sample.BoxVolume ℚ 20).Scale3D.X * 100) ((Sample.BoxVolume ℚ 20).Scale3D.Y * 100) ((Sample.BoxVolume ℚ 20).Scale3D.Z * 100)
            (Sample.BoxVolume ℚ 20).BlendRadius (Sample.Sin (Sample.PI / 8)) (Sample.Sin (Sample.PI / 4))
            (Sample.Cos (Sample.PI / 8))) i).X,
          -(VisualizePPVol.elemAt
          (VisualizePPVol.YPoints ((Sample.BoxVolume ℚ 20).Scale3D.X * 100) ((Sample.BoxVolume ℚ 20).Scale3D.Y * 100) ((Sample.BoxVolume ℚ 20).Scale3D.Z * 100)
            (Sample.BoxVolume ℚ 20).BlendRadius (Sample.Sin (Sample.PI / 8)) (Sample.Sin (Sample.PI / 4))
            (Sample.Cos (Sample.PI / 8))) i).Y,
          (VisualizePPVol.elemAt
          (VisualizePPVol.YPoints ((Sample.BoxVolume ℚ 20).Scale3D.X * 100) ((Sample.BoxVolume ℚ 20).Scale3D.Y * 100) ((Sample.BoxVolume ℚ 20).Scale3D.Z * 100)
            (Sample.BoxVolume ℚ 20).BlendRadius (Sample.Sin (Sample.PI / 8)) (Sample.Sin (Sample.PI / 4))
            (Sample.Cos (Sample.PI / 8))) i).Z⟩,
          (Sample.BoxVolume ℚ 20).TransformPositionNoScale ⟨(VisualizePPVol.elemAt
          (VisualizePPVol.YPoints ((Sample.BoxVolume ℚ 20).Scale3D.X * 100) ((Sample.BoxVolume ℚ 20).Scale3D.Y * 100) ((Sample.BoxVolume ℚ 20).Scale3D.Z * 100)
            (Sample.BoxVolume ℚ 20).BlendRadius (Sample.Sin (Sample.PI / 8)) (Sample.Sin (Sample.PI / 4))
            (Sample.Cos (Sample.PI / 8))) ((i + 1) % 20)).X,
          -(VisualizePPVol.elemAt
          (VisualizePPVol.YPoints ((Sample.BoxVolume ℚ 20).Scale3D.X * 100) ((Sample.BoxVolume ℚ 20).Scale3D.Y * 100) ((Sample.BoxVolume ℚ 20).Scale3D.Z * 100)
            (Sample.BoxVolume ℚ 20).BlendRadius (Sample.Sin (Sample.PI / 8)) (Sample.Sin (Sample.PI / 4))
            (Sample.Cos (Sample.PI / 8))) ((i + 1) % 20)).Y,
          (VisualizePPVol.elemAt
          (VisualizePPVol.YPoints ((Sample.BoxVolume ℚ 20).Scale3D.X * 100) ((Sample.BoxVolume ℚ 20).Scale3D.Y * 100) ((Sample.BoxVolume ℚ 20).Scale3D.Z * 100)
            (Sample.BoxVolume ℚ 20).BlendRadius (Sample.Sin (Sample.PI / 8)) (Sample.Sin (Sample.PI / 4))
            (Sample.Cos (Sample.PI / 8))) ((i + 1) % 20)).Z⟩,
          ⟨0, 255, 0, 255⟩, -1, 1, 0⟩ ∧
      (VisualizePPVol Sample.Sin Sample.Cos Sample.PI (some (Sample.World [])) (some (Sample.BoxVolume ℚ 20)) ⟨0, 255, 0, 255⟩ (-1) 1)[6 * i + 4]?
        = some ⟨(Sample.BoxVolume ℚ 20).TransformPositionNoScale (VisualizePPVol.elemAt
          (VisualizePPVol.ZPoints ((Sample.BoxVolume ℚ 20).Scale3D.X * 100) ((Sample.BoxVolume ℚ 20).Scale3D.Y * 100) ((Sample.BoxVolume ℚ 20).Scale3D.Z * 100)
            (Sample.BoxVolume ℚ 20).BlendRadius (Sample.Sin (Sample.PI / 8)) (Sample.Sin (Sample.PI / 4))
            (Sample.Cos (Sample.PI / 8))) i),
          (Sample.BoxVolume ℚ 20).TransformPositionNoScale (VisualizePPVol.elemAt
          (VisualizePPVol.ZPoints ((Sample.BoxVolume ℚ 20).Scale3D.X * 100) ((Sample.BoxVolume ℚ 20).Scale3D.Y * 100) ((Sample.BoxVolume ℚ 20).Scale3D.Z * 100)
            (Sample.BoxVolume ℚ 20).BlendRadius (Sample.Sin (Sample.PI / 8)) (Sample.Sin (Sample.PI / 4))
            (Sample.Cos (Sample.PI / 8))) ((i + 1) % 20)),
          ⟨0, 255, 0, 255⟩, -1, 1, 0⟩ ∧
      (VisualizePPVol Sample.Sin Sample.Cos Sample.PI (some (Sample.World [])) (some (Sample.BoxVolume ℚ 20)) ⟨0, 255, 0, 255⟩ (-1) 1)[6 * i + 5]?
        = some ⟨(Sample.BoxVolume ℚ 20).TransformPositionNoScale ⟨(VisualizePPVol.elemAt
          (VisualizePPVol.ZPoints ((Sample.BoxVolume ℚ 20).Scale3D.X * 100) ((Sample.BoxVolume ℚ 20).Scale3D.Y * 100) ((Sample.BoxVolume ℚ 20).Scale3D.Z * 100)
            (Sample.BoxVolume ℚ 20).BlendRadius (Sample.Sin (Sample.PI / 8)) (Sample.Sin (Sample.PI / 4))
            (Sample.Cos (Sample.PI / 8))) i).X,
          (VisualizePPVol.elemAt
          (VisualizePPVol.ZPoints ((Sample.BoxVolume ℚ 20).Scale3D.X * 100) ((Sample.BoxVolume ℚ 20).Scale3D.Y * 100) ((Sample.BoxVolume ℚ 20).Scale3D.Z * 100)
            (Sample.BoxVolume ℚ 20).BlendRadius (Sample.Sin (Sample.PI / 8)) (Sample.Sin (Sample.PI / 4))
            (Sample.Cos (Sample.PI / 8))) i).Y,
          -(VisualizePPVol.elemAt
          (VisualizePPVol.ZPoints ((Sample.BoxVolume ℚ 20).Scale3D.X * 100) ((Sample.BoxVolume ℚ 20).Scale3D.Y * 100) ((Sample.BoxVolume ℚ 20).Scale3D.Z * 100)
            (Sample.BoxVolume ℚ 20).BlendRadius (Sample.Sin (Sample.PI / 8)) (Sample.Sin (Sample.PI / 4))
            (Sample.Cos (Sample.PI / 8))) i).Z⟩,
          (Sample.BoxVolume ℚ 20).TransformPositionNoScale ⟨(VisualizePPVol.elemAt
          (VisualizePPVol.ZPoints ((Sample.BoxVolume ℚ 20).Scale3D.X * 100) ((Sample.BoxVolume ℚ 20).Scale3D.Y * 100) ((Sample.BoxVolume ℚ 20).Scale3D.Z * 100)
            (Sample.BoxVolume ℚ 20).BlendRadius (Sample.Sin (Sample.PI / 8)) (Sample.Sin (Sample.PI / 4))
            (Sample.Cos (Sample.PI / 8))) ((i + 1) % 20)).X,
          (VisualizePPVol.elemAt
          (VisualizePPVol.ZPoints ((Sample.BoxVolume ℚ 20).Scale3D.X * 100) ((Sample.BoxVolume ℚ 20).Scale3D.Y * 100) ((Sample.BoxVolume ℚ 20).Scale3D.Z * 100)
            (Sample.BoxVolume ℚ 20).BlendRadius (Sample.Sin (Sample.PI / 8)) (Sample.Sin (Sample.PI / 4))
            (Sample.Cos (Sample.PI / 8))) ((i + 1) % 20)).Y,
          -(VisualizePPVol.elemAt
          (VisualizePPVol.ZPoints ((Sample.BoxVolume ℚ 20).Scale3D.X * 100) ((Sample.BoxVolume ℚ 20).Scale3D.Y * 100) ((Sample.BoxVolume ℚ 20).Scale3D.Z * 100)
            (Sample.BoxVolume ℚ 20).BlendRadius (Sample.Sin (Sample.PI / 8)) (Sample.Sin (Sample.PI / 4))
            (Sample.Cos (Sample.PI / 8))) ((i + 1) % 20)).Z⟩,
          ⟨0, 255, 0, 255⟩, -1, 1, 0⟩) :=
  ⟨⟨rfl, rfl⟩,
    VisualizePPVol_closed_loops Sample.Sin Sample.Cos Sample.PI (Sample.World [])
      (Sample.BoxVolume ℚ 20) ⟨0, 255, 0, 255⟩ (-1) 1 8 rfl rfl⟩

/-! ## The sampler with refresh interval zero -/

/-- Claim C11 on the code: with refresh interval 0, state (0, 0) and a tick of 1/60, the
callback `OnUpdateUI` is invoked twice during the tick, first with the delta time 1/60
(line 84) and then with the rate 60 (line 89), in exact arithmetic; and for every rounding
the first call passes the delta time and a second call follows whenever the rounded sum is
not negative. -/
theorem TickComponent_zero_interval_reports_twice :
    Sample.EveryTick.FPSRefreshRate = 0 ∧
      (TickComponent (fun x => x) Sample.EveryTick (1 / 60)).2 = [1 / 60, 60] ∧
      (TickComponent (fun x => x) Sample.EveryTick (1 / 60)).2.length = 2 ∧
      ∀ Round : ℚ → ℚ,
        (TickComponent Round Sample.EveryTick (1 / 60)).2
          = if 0 ≤ Round (0 + 1 / 60) then
              [1 / 60, Round (Round ((1 : Int) : ℚ) / Round (0 + 1 / 60))]
            else [1 / 60] := by
  refine ⟨rfl, ?_, ?_, ?_⟩
  · norm_num [TickComponent, Sample.EveryTick, Sample.Component, WrapInt32]
  · norm_num [TickComponent, Sample.EveryTick, Sample.Component, WrapInt32]
  · intro Round
    have hw1 : WrapInt32 (0 + 1) = 1 := by norm_num [WrapInt32]
    simp only [TickComponent, Sample.EveryTick, Sample.Component, hw1, if_true,
      List.singleton_append]
    split_ifs <;> rfl

/-! ## The visualization pass -/

/-- Claim C12 on the code: for the bounded box volume whose brush has 6 points,
`VisualizePPVol` submits 120 segments to the line batcher. -/
theorem VisualizePPVol_six_brush_points_draws :
    Sample.SixPointVolume.bUnbound = false ∧
      Sample.SixPointVolume.BrushPoints = some 6 ∧
      (VisualizePPVol Sample.Sin Sample.Cos Sample.PI (some (Sample.World []))
        (some Sample.SixPointVolume) ⟨0, 255, 0, 255⟩ (-1) 1).length = 120 :=
  ⟨rfl, rfl, VisualizePPVol_length _ _ _ _ _ _ _ _ 6 rfl rfl⟩

theorem loop_values (Sin Cos : α → α) (PI SMALL_NUMBER : α)
    (ToFColor : FLinearColor α → FColor) (World : Option (UWorld α))
    (self : ULumenSwitchComponentBase α) (VisualizationColor : FLinearColor α)
    (Curve : UCurveLinearColor α) (LifeTime : α)
    (hcol : self.bColorizeByPriority = true) (l : List (IInterface_PostProcessVolume α)) :
    (VisualizePostprocessVolumesInLevel.loop Sin Cos PI SMALL_NUMBER ToFColor World self
        VisualizationColor (some Curve) LifeTime l).1
      = (Volumes l).map fun V =>
          if self.MaxPPVolPrioInLevel < SMALL_NUMBER then 1
          else V.Priority / self.MaxPPVolPrioInLevel := by
  induction l with
  | nil => rfl
  | cons I rest ih =>
    cases I with
    | Volume V =>
      simp only [VisualizePostprocessVolumesInLevel.loop, IInterface_PostProcessVolume.Cast,
        hcol, if_true, ih, Volumes, List.filterMap_cons, List.map_cons]
    | Other P E =>
      simpa only [VisualizePostprocessVolumesInLevel.loop, IInterface_PostProcessVolume.Cast,
        Volumes, List.filterMap_cons] using ih

theorem loop_values_mem (Sin Cos : α → α) (PI SMALL_NUMBER : α)
    (ToFColor : FLinearColor α → FColor) (World : Option (UWorld α))
    (self : ULumenSwitchComponentBase α) (VisualizationColor : FLinearColor α)
    (VisualizationColorCurve : Option (UCurveLinearColor α)) (LifeTime : α)
    (l : List (IInterface_PostProcessVolume α)) :
    ∀ x ∈ (VisualizePostprocessVolumesInLevel.loop Sin Cos PI SMALL_NUMBER ToFColor World self
        VisualizationColor VisualizationColorCurve LifeTime l).1,
      ∃ V ∈ Volumes l, x = if self.MaxPPVolPrioInLevel < SMALL_NUMBER then 1
        else V.Priority / self.MaxPPVolPrioInLevel := by
  induction l with
  | nil => intro x hx; simp [VisualizePostprocessVolumesInLevel.loop] at hx
  | cons I rest ih =>
    intro x hx
    cases I with
    | Other P E =>
      simp only [VisualizePostprocessVolumesInLevel.loop,
        IInterface_PostProcessVolume.Cast] at hx
      obtain ⟨V, hV, e⟩ := ih x hx
      exact ⟨V, by simpa [Volumes, IInterface_PostProcessVolume.Cast] using hV, e⟩
    | Volume V0 =>
      have hsub : ∀ V ∈ Volumes rest,
          V ∈ Volumes (IInterface_PostProcessVolume.Volume V0 :: rest) := fun V hV => by
        simp only [Volumes, List.filterMap_cons, IInterface_PostProcessVolume.Cast]
        exact List.mem_cons_of_mem _ hV
      have hhead : V0 ∈ Volumes (IInterface_PostProcessVolume.Volume V0 :: rest) := by
        simp only [Volumes, List.filterMap_cons, IInterface_PostProcessVolume.Cast]
        exact List.mem_cons_self _ _
      simp only [VisualizePostprocessVolumesInLevel.loop,
        IInterface_PostProcessVolume.Cast] at hx
      cases hcol : self.bColorizeByPriority with
      | false =>
        simp only [hcol, Bool.false_eq_true, if_false] at hx
        obtain ⟨V, hV, e⟩ := ih x hx
        exact ⟨V, hsub V hV, e⟩
      | true =>
        cases VisualizationColorCurve with
        | none => simp [hcol] at hx
        | some Curve =>
          simp only [hcol, if_true, List.mem_cons] at hx
          rcases hx with rfl | hx
          · exact ⟨V0, hhead, rfl⟩
          · obtain ⟨V, hV, e⟩ := ih x hx
            exact ⟨V, hsub V hV, e⟩

theorem GetPostProcessVolumesInLevel_fst_zero_or_bound (World : Option (UWorld α))
    (W : UWorld α) (self : ULumenSwitchComponentBase α)
    (PPVolMap : TMap FName (FPostProcessVolumeInfo α)) (bDebug : Bool)
    (hW : World = some W)
    (hsorted : (Volumes W.PostProcessVolumes).Pairwise
      (fun a b => a.Priority ≤ b.Priority)) :
    (GetPostProcessVolumesInLevel World self PPVolMap bDebug).1 = 0 ∨
      ∀ V ∈ Volumes W.PostProcessVolumes,
        V.Priority ≤ (GetPostProcessVolumesInLevel World self PPVolMap bDebug).1 := by
  subst hW
  cases hcam : self.PlayerCameraComponent with
  | none => left; simp [GetPostProcessVolumesInLevel, hcam]
  | some Cam =>
    have hr : (GetPostProcessVolumesInLevel (some W) self PPVolMap bDebug).1
        = ((Volumes W.PostProcessVolumes).getLast?.map APostProcessVolume.Priority).getD 0 := by
      simp only [GetPostProcessVolumesInLevel, hcam]
      exact foldl_body_fst Cam _ _
    rw [hr]
    rcases List.eq_nil_or_concat (Volumes W.PostProcessVolumes) with h | ⟨vs, V, h⟩
    · left; simp [h]
    · right
      rw [h] at hsorted ⊢
      simp only [List.concat_eq_append] at hsorted ⊢
      rw [List.pairwise_append] at hsorted
      simp only [List.getLast?_append, List.getLast?_singleton, Option.map_some',
        Option.getD_some, List.mem_append, List.mem_singleton]
      rintro V' (hV' | rfl)
      · simpa using hsorted.2.2 V' hV' V (by simp)
      · simp

/-- Claim C13, as amended: in colour-by-priority mode, when the volume actors of the array
stand in ascending order of priority, all priorities are non-negative, `UE_SMALL_NUMBER` is
positive and the stored `MaxPPVolPrioInLevel` is a value returned by
`GetPostProcessVolumesInLevel` on that array, every value that
`VisualizePostprocessVolumesInLevel` passes to the colour curve lies in `[0, 1]`. -/
theorem VisualizePostprocessVolumesInLevel_ramp_in_unit_interval (Sin Cos : α → α)
    (PI SMALL_NUMBER : α) (ToFColor : FLinearColor α → FColor) (W : UWorld α)
    (self self0 : ULumenSwitchComponentBase α) (VisualizationColor : FLinearColor α)
    (VisualizationColorCurve : Option (UCurveLinearColor α)) (LifeTime : α)
    (PPVolMap : TMap FName (FPostProcessVolumeInfo α)) (bDebug : Bool)
    (hsmall : 0 < SMALL_NUMBER)
    (hsorted : (Volumes W.PostProcessVolumes).Pairwise
      (fun a b => a.Priority ≤ b.Priority))
    (hnonneg : ∀ V ∈ Volumes W.PostProcessVolumes, 0 ≤ V.Priority)
    (hmax : self.MaxPPVolPrioInLevel
      = (GetPostProcessVolumesInLevel (some W) self0 PPVolMap bDebug).1) :
    ∀ x ∈ (VisualizePostprocessVolumesInLevel Sin Cos PI SMALL_NUMBER ToFColor (some W) self
        VisualizationColor VisualizationColorCurve LifeTime).1, 0 ≤ x ∧ x ≤ 1 := by
  intro x hx
  unfold VisualizePostprocessVolumesInLevel at hx
  cases hvis : self.bVisualizePPVolBounds with
  | false => simp [hvis] at hx
  | true =>
    simp only [hvis, Bool.not_true, Bool.false_eq_true, if_false] at hx
    obtain ⟨V, hV, rfl⟩ := loop_values_mem _ _ _ _ _ _ _ _ _ _ _ x hx
    by_cases hlt : self.MaxPPVolPrioInLevel < SMALL_NUMBER
    · simp [hlt]
    · simp only [hlt, if_false]
      have hpos : 0 < self.MaxPPVolPrioInLevel := lt_of_lt_of_le hsmall (not_lt.mp hlt)
      have hle : V.Priority ≤ self.MaxPPVolPrioInLevel := by
        rcases GetPostProcessVolumesInLevel_fst_zero_or_bound (some W) W self0 PPVolMap bDebug
          rfl hsorted with h0 | hb
        · rw [hmax, h0] at hpos
          exact absurd hpos (lt_irrefl _)
        · rw [hmax]
          exact hb V hV
      exact ⟨div_nonneg (hnonneg V hV) hpos.le, (div_le_one hpos).mpr hle⟩

/-- Sample evaluation for claim C13 (amended): the sorted array [A (priority 5),
B (priority 10)] with the stored maximum returned by `GetPostProcessVolumesInLevel`. -/
theorem VisualizePostprocessVolumesInLevel_ramp_in_unit_interval_witness :
    ((0 : ℚ) < Sample.SMALL_NUMBER ∧
      (Volumes (Sample.World [Sample.Volume "A" 5 true false true,
          Sample.Volume "B" 10 false false true]).PostProcessVolumes).Pairwise
        (fun a b => a.Priority ≤ b.Priority) ∧
      (∀ V ∈ Volumes (Sample.World [Sample.Volume "A" 5 true false true,
          Sample.Volume "B" 10 false false true]).PostProcessVolumes, 0 ≤ V.Priority) ∧
      (Sample.Visualizer true 10).MaxPPVolPrioInLevel
        = (GetPostProcessVolumesInLevel
            (some (Sample.World [Sample.Volume "A" 5 true false true,
              Sample.Volume "B" 10 false false true]))
            (Sample.Component true (some (Sample.Camera .None .None true))) [] false).1) ∧
    ∀ x ∈ (VisualizePostprocessVolumesInLevel Sample.Sin Sample.Cos Sample.PI
        Sample.SMALL_NUMBER Sample.ToFColor
        (some (Sample.World [Sample.Volume "A" 5 true false true,
          Sample.Volume "B" 10 false false true]))
        (Sample.Visualizer true 10) ⟨0, 1, 0, 1⟩ (some Sample.Curve) (-1)).1,
      0 ≤ x ∧ x ≤ 1 :=
  ⟨⟨by norm_num [Sample.SMALL_NUMBER], by
      simp only [Volumes, Sample.World, Sample.Volume, IInterface_PostProcessVolume.Cast,
        List.map, List.filterMap, List.pairwise_cons, List.mem_cons, List.mem_singleton,
        List.not_mem_nil, forall_eq_or_imp, forall_eq, List.Pairwise.nil]
      norm_num, by
      simp only [Volumes, Sample.World, Sample.Volume, IInterface_PostProcessVolume.Cast,
        List.map, List.filterMap, List.mem_cons, List.mem_singleton,
        List.not_mem_nil, forall_eq_or_imp, forall_eq]
      norm_num, rfl⟩,
    VisualizePostprocessVolumesInLevel_ramp_in_unit_interval _ _ _ _ _ _ _
      (Sample.Component true (some (Sample.Camera .None .None true))) _ _ _ [] false
      (by norm_num [Sample.SMALL_NUMBER]) (by
        simp only [Volumes, Sample.World, Sample.Volume, IInterface_PostProcessVolume.Cast,
          List.map, List.filterMap, List.pairwise_cons, List.mem_cons, List.mem_singleton,
          List.not_mem_nil, forall_eq_or_imp, forall_eq, List.Pairwise.nil]
        norm_num) (by
        simp only [Volumes, Sample.World, Sample.Volume, IInterface_PostProcessVolume.Cast,
          List.map, List.filterMap, List.mem_cons, List.mem_singleton,
          List.not_mem_nil, forall_eq_or_imp, forall_eq]
        norm_num) rfl⟩

/-- Claim C13 fails as stated: on the sorted array [A (priority -1), B (priority 2)] the
stored maximum returned by `GetPostProcessVolumesInLevel` is 2 and the values passed to the
colour curve are -1/2 and 1; on the array [A (priority 10), B (priority 5)] the stored maximum
is 5 and the values passed are 2 and 1. -/
theorem VisualizePostprocessVolumesInLevel_ramp_outside_unit_interval :
    (GetPostProcessVolumesInLevel
        (some (Sample.World [Sample.Volume "A" (-1) true false true,
          Sample.Volume "B" 2 true false true]))
        (Sample.Component true (some (Sample.Camera .None .None true))) [] false).1 = 2 ∧
      (VisualizePostprocessVolumesInLevel Sample.Sin Sample.Cos Sample.PI
        Sample.SMALL_NUMBER Sample.ToFColor
        (some (Sample.World [Sample.Volume "A" (-1) true false true,
          Sample.Volume "B" 2 true false true]))
        (Sample.Visualizer true 2) ⟨0, 1, 0, 1⟩ (some Sample.Curve) (-1)).1 = [-1 / 2, 1] ∧
      (GetPostProcessVolumesInLevel
        (some (Sample.World [Sample.Volume "A" 10 true false true,
          Sample.Volume "B" 5 true false true]))
        (Sample.Component true (some (Sample.Camera .None .None true))) [] false).1 = 5 ∧
      (VisualizePostprocessVolumesInLevel Sample.Sin Sample.Cos Sample.PI
        Sample.SMALL_NUMBER Sample.ToFColor
        (some (Sample.World [Sample.Volume "A" 10 true false true,
          Sample.Volume "B" 5 true false true]))
        (Sample.Visualizer true 5) ⟨0, 1, 0, 1⟩ (some Sample.Curve) (-1)).1 = [2, 1] := by
  refine ⟨rfl, ?_, rfl, ?_⟩
  · simp only [VisualizePostprocessVolumesInLevel, Sample.Visualizer, Bool.not_true,
      Bool.false_eq_true, if_false]
    rw [loop_values _ _ _ _ _ _ _ _ _ _ rfl]
    simp only [Volumes, Sample.World, Sample.Volume, IInterface_PostProcessVolume.Cast,
      List.map, List.filterMap]
    norm_num [Sample.SMALL_NUMBER]
  · simp only [VisualizePostprocessVolumesInLevel, Sample.Visualizer, Bool.not_true,
      Bool.false_eq_true, if_false]
    rw [loop_values _ _ _ _ _ _ _ _ _ _ rfl]
    simp only [Volumes, Sample.World, Sample.Volume, IInterface_PostProcessVolume.Cast,
      List.map, List.filterMap]
    norm_num [Sample.SMALL_NUMBER]

theorem loop_no_curve (Sin Cos : α → α) (PI SMALL_NUMBER : α)
    (ToFColor : FLinearColor α → FColor) (World : Option (UWorld α))
    (self : ULumenSwitchComponentBase α) (VisualizationColor : FLinearColor α)
    (LifeTime : α) (hcol : self.bColorizeByPriority = true)
    (l : List (IInterface_PostProcessVolume α)) :
    VisualizePostprocessVolumesInLevel.loop Sin Cos PI SMALL_NUMBER ToFColor World self
      VisualizationColor none LifeTime l = ([], []) := by
  induction l with
  | nil => rfl
  | cons I rest ih =>
    cases I with
    | Volume V =>
      simp only [VisualizePostprocessVolumesInLevel.loop, IInterface_PostProcessVolume.Cast,
        hcol, if_true]
    | Other P E =>
      simpa only [VisualizePostprocessVolumesInLevel.loop,
        IInterface_PostProcessVolume.Cast] using ih

/-- Claim C14: when `bColorizeByPriority` is set and no colour curve is configured,
`VisualizePostprocessVolumesInLevel` returns a result (it is a total function) in which no
segment is submitted to the line batcher and no value is passed to a colour curve,
for every world and volume array. -/
theorem VisualizePostprocessVolumesInLevel_no_curve (Sin Cos : α → α)
    (PI SMALL_NUMBER : α) (ToFColor : FLinearColor α → FColor) (World : Option (UWorld α))
    (self : ULumenSwitchComponentBase α) (VisualizationColor : FLinearColor α)
    (LifeTime : α) (hcol : self.bColorizeByPriority = true) :
    VisualizePostprocessVolumesInLevel Sin Cos PI SMALL_NUMBER ToFColor World self
      VisualizationColor none LifeTime = ([], []) := by
  unfold VisualizePostprocessVolumesInLevel
  cases self.bVisualizePPVolBounds with
  | false => rfl
  | true =>
    cases World with
    | none => rfl
    | some W => exact loop_no_curve _ _ _ _ _ _ _ _ _ hcol _

/-- Sample evaluation for claim C14: a visualizing component in colour-by-priority mode and
a world with a bounded box volume. -/
theorem VisualizePostprocessVolumesInLevel_no_curve_witness :
    (Sample.Visualizer true 10).bColorizeByPriority = true ∧
      VisualizePostprocessVolumesInLevel Sample.Sin Sample.Cos Sample.PI
        Sample.SMALL_NUMBER Sample.ToFColor
        (some (Sample.World [Sample.BoxVolume ℚ 20, Sample.Volume "B" 10 true false true]))
        (Sample.Visualizer true 10) ⟨0, 1, 0, 1⟩ none (-1) = ([], []) :=
  ⟨rfl, VisualizePostprocessVolumesInLevel_no_curve _ _ _ _ _ _ _ _ _ rfl⟩

/-- Claim C19: in colour-by-priority mode with a colour curve configured, a stored
`MaxPPVolPrioInLevel` of 0 and a positive `UE_SMALL_NUMBER`, every value that
`VisualizePostprocessVolumesInLevel` passes to the colour curve is 1, whatever the priority
of the volume; and when the pass runs (visualization on, a world present) exactly one value
is passed per volume actor of the array. The quotient by `MaxPPVolPrioInLevel` is not
formed: the value comes from the first branch of the conditional of line 202. -/
theorem VisualizePostprocessVolumesInLevel_zero_max (Sin Cos : α → α)
    (PI SMALL_NUMBER : α) (ToFColor : FLinearColor α → FColor) (World : Option (UWorld α))
    (self : ULumenSwitchComponentBase α) (VisualizationColor : FLinearColor α)
    (Curve : UCurveLinearColor α) (LifeTime : α)
    (hcol : self.bColorizeByPriority = true) (hmax : self.MaxPPVolPrioInLevel = 0)
    (hsmall : 0 < SMALL_NUMBER) :
    (∀ x ∈ (VisualizePostprocessVolumesInLevel Sin Cos PI SMALL_NUMBER ToFColor World self
        VisualizationColor (some Curve) LifeTime).1, x = 1) ∧
      ∀ W, World = some W → self.bVisualizePPVolBounds = true →
        (VisualizePostprocessVolumesInLevel Sin Cos PI SMALL_NUMBER ToFColor World self
          VisualizationColor (some Curve) LifeTime).1
          = (Volumes W.PostProcessVolumes).map fun _ => 1 := by
  have hlt : self.MaxPPVolPrioInLevel < SMALL_NUMBER := by rw [hmax]; exact hsmall
  constructor
  · intro x hx
    unfold VisualizePostprocessVolumesInLevel at hx
    cases hvis : self.bVisualizePPVolBounds with
    | false => simp [hvis] at hx
    | true =>
      cases World with
      | none => simp [hvis] at hx
      | some W =>
        simp only [hvis, Bool.not_true, Bool.false_eq_true, if_false] at hx
        obtain ⟨V, _, e⟩ := loop_values_mem _ _ _ _ _ _ _ _ _ _ _ x hx
        simpa [hlt] using e
  · intro W hW hvis
    subst hW
    simp only [VisualizePostprocessVolumesInLevel, hvis, Bool.not_true, Bool.false_eq_true,
      if_false]
    rw [loop_values _ _ _ _ _ _ _ _ _ _ hcol]
    simp [hlt]

/-- Sample evaluation for claim C19: stored maximum 0 and two volumes of priorities 5 and
10. -/
theorem VisualizePostprocessVolumesInLevel_zero_max_witness :
    ((Sample.Visualizer true 0).bColorizeByPriority = true ∧
      (Sample.Visualizer true 0).MaxPPVolPrioInLevel = 0 ∧ (0 : ℚ) < Sample.SMALL_NUMBER ∧
      (Sample.Visualizer true 0).bVisualizePPVolBounds = true) ∧
    (VisualizePostprocessVolumesInLevel Sample.Sin Sample.Cos Sample.PI
        Sample.SMALL_NUMBER Sample.ToFColor
        (some (Sample.World [Sample.Volume "A" 5 true false true,
          Sample.Volume "B" 10 true false true]))
        (Sample.Visualizer true 0) ⟨0, 1, 0, 1⟩ (some Sample.Curve) (-1)).1
      = (Volumes (Sample.World [Sample.Volume "A" 5 true false true,
          Sample.Volume "B" 10 true false true]).PostProcessVolumes).map fun _ => 1 :=
  ⟨⟨rfl, rfl, by norm_num [Sample.SMALL_NUMBER], rfl⟩,
    (VisualizePostprocessVolumesInLevel_zero_max Sample.Sin Sample.Cos Sample.PI
      Sample.SMALL_NUMBER Sample.ToFColor
      (some (Sample.World [Sample.Volume "A" 5 true false true,
        Sample.Volume "B" 10 true false true]))
      (Sample.Visualizer true 0) ⟨0, 1, 0, 1⟩ Sample.Curve (-1) rfl rfl
      (by norm_num [Sample.SMALL_NUMBER])).2 _ rfl rfl⟩

/-! ## Entries of the snapshot map -/

/-- Claim C15, as amended: with a world and an attached camera, the map after
`GetPostProcessVolumesInLevel` has an entry under a name exactly when a volume actor of the
array carries the name or the map passed in had an entry under it (entries are added and
replaced, never removed); so for an empty map passed in, exactly when a volume actor of the
array carries the name. -/
theorem GetPostProcessVolumesInLevel_entries (W : UWorld α)
    (self : ULumenSwitchComponentBase α) (Cam : UCameraComponent α)
    (PPVolMap : TMap FName (FPostProcessVolumeInfo α)) (bDebug : Bool) (n : FName)
    (hcam : self.PlayerCameraComponent = some Cam) :
    ((TMap.Find (GetPostProcessVolumesInLevel (some W) self PPVolMap bDebug).2 n).isSome = true
        ↔ (∃ V ∈ Volumes W.PostProcessVolumes, V.ActorLabel = n) ∨
          (TMap.Find PPVolMap n).isSome = true) ∧
      ((TMap.Find (GetPostProcessVolumesInLevel (some W) self [] bDebug).2 n).isSome = true
        ↔ ∃ V ∈ Volumes W.PostProcessVolumes, V.ActorLabel = n) := by
  have key : ∀ M : TMap FName (FPostProcessVolumeInfo α),
      (TMap.Find (GetPostProcessVolumesInLevel (some W) self M bDebug).2 n).isSome = true
        ↔ (∃ V ∈ Volumes W.PostProcessVolumes, V.ActorLabel = n) ∨
          (TMap.Find M n).isSome = true := by
    intro M
    simp only [GetPostProcessVolumesInLevel, hcam]
    rw [foldl_body_find]
    cases hlast : ((Volumes W.PostProcessVolumes).filter
        (fun V => V.ActorLabel = n)).getLast? with
    | none =>
      have hnil : (Volumes W.PostProcessVolumes).filter (fun V => V.ActorLabel = n) = [] :=
        List.getLast?_eq_none_iff.mp hlast
      have hno : ¬ ∃ V ∈ Volumes W.PostProcessVolumes, V.ActorLabel = n := by
        rintro ⟨V, hV, hn⟩
        have : V ∈ (Volumes W.PostProcessVolumes).filter (fun V => V.ActorLabel = n) := by
          simp [List.mem_filter, hV, hn]
        rw [hnil] at this
        exact List.not_mem_nil _ this
      simp [hno]
    | some V =>
      have hmem : V ∈ (Volumes W.PostProcessVolumes).filter (fun V => V.ActorLabel = n) :=
        List.mem_of_getLast?_eq_some hlast
      have hV : V ∈ Volumes W.PostProcessVolumes ∧ V.ActorLabel = n := by
        simpa [List.mem_filter] using hmem
      simp only [Option.isSome_some, true_iff]
      exact Or.inl ⟨V, hV.1, hV.2⟩
  refine ⟨key PPVolMap, ?_⟩
  rw [key []]
  simp [TMap.Find]

/-- Sample evaluation for claim C15 (amended). -/
theorem GetPostProcessVolumesInLevel_entries_witness :
    (Sample.Component true (some (Sample.Camera .None .None true))).PlayerCameraComponent
        = some (Sample.Camera .None .None true) ∧
    ((TMap.Find (GetPostProcessVolumesInLevel
          (some (Sample.World [Sample.Volume "A" 5 true false true]))
          (Sample.Component true (some (Sample.Camera .None .None true)))
          [("Old", Sample.Info)] false).2 "A").isSome = true
        ↔ (∃ V ∈ Volumes (Sample.World [Sample.Volume "A" 5 true false true]).PostProcessVolumes,
            V.ActorLabel = "A") ∨
          (TMap.Find [("Old", Sample.Info)] "A").isSome = true) ∧
      ((TMap.Find (GetPostProcessVolumesInLevel
          (some (Sample.World [Sample.Volume "A" 5 true false true]))
          (Sample.Component true (some (Sample.Camera .None .None true)))
          [] false).2 "A").isSome = true
        ↔ ∃ V ∈ Volumes (Sample.World [Sample.Volume "A" 5 true false true]).PostProcessVolumes,
            V.ActorLabel = "A") :=
  ⟨rfl, GetPostProcessVolumesInLevel_entries _ _ _ _ false "A" rfl⟩

/-- Claim C15 fails as stated: with a camera attached, the map [("Old", entry)] passed in and
the array [A], the map after the call still has the entry under "Old" although no volume of
the array carries that name. -/
theorem GetPostProcessVolumesInLevel_keeps_stale_entry :
    (Sample.Component true (some (Sample.Camera .None .None true))).PlayerCameraComponent
        = some (Sample.Camera .None .None true) ∧
      TMap.Find (GetPostProcessVolumesInLevel
          (some (Sample.World [Sample.Volume "A" 5 true false true]))
          (Sample.Component true (some (Sample.Camera .None .None true)))
          [("Old", Sample.Info)] false).2 "Old" = some Sample.Info ∧
      ¬ ∃ V ∈ Volumes (Sample.World [Sample.Volume "A" 5 true false true]).PostProcessVolumes,
          V.ActorLabel = "Old" := by
  refine ⟨rfl, rfl, ?_⟩
  simp [Volumes, Sample.World, Sample.Volume, IInterface_PostProcessVolume.Cast]

/-- Claim C20, as amended: when no camera is attached, for every world, volume array and map
passed in, `GetPostProcessVolumesInLevel` returns 0 and leaves the map as it was passed in
(so the map after the call is empty when the map passed in was empty). -/
theorem GetPostProcessVolumesInLevel_no_camera (World : Option (UWorld α))
    (self : ULumenSwitchComponentBase α)
    (PPVolMap : TMap FName (FPostProcessVolumeInfo α)) (bDebug : Bool)
    (hcam : self.PlayerCameraComponent = none) :
    GetPostProcessVolumesInLevel World self PPVolMap bDebug = (0, PPVolMap) ∧
      (GetPostProcessVolumesInLevel World self [] bDebug).2 = [] := by
  cases World <;> simp [GetPostProcessVolumesInLevel, hcam]

/-- Sample evaluation for claim C20 (amended). -/
theorem GetPostProcessVolumesInLevel_no_camera_witness :
    (Sample.Component true none).PlayerCameraComponent = none ∧
      GetPostProcessVolumesInLevel
          (some (Sample.World [Sample.Volume "A" 5 true false true]))
          (Sample.Component true none) [("Old", Sample.Info)] false
        = (0, [("Old", Sample.Info)]) ∧
      (GetPostProcessVolumesInLevel
          (some (Sample.World [Sample.Volume "A" 5 true false true]))
          (Sample.Component true none) [] false).2 = [] :=
  ⟨rfl, GetPostProcessVolumesInLevel_no_camera _ _ _ false rfl⟩

/-- Claim C20 fails as stated: without a camera and with the map [("Old", entry)] passed in,
the map after the call is not empty: it still has the entry under "Old". -/
theorem GetPostProcessVolumesInLevel_no_camera_keeps_map :
    (Sample.Component true none).PlayerCameraComponent = none ∧
      (GetPostProcessVolumesInLevel
          (some (Sample.World [Sample.Volume "A" 5 true false true]))
          (Sample.Component true none) [("Old", Sample.Info)] false).2 ≠ [] ∧
      TMap.Find (GetPostProcessVolumesInLevel
          (some (Sample.World [Sample.Volume "A" 5 true false true]))
          (Sample.Component true none) [("Old", Sample.Info)] false).2 "Old"
        = some Sample.Info :=
  ⟨rfl, List.cons_ne_nil _ _, rfl⟩

/-! ## Missing camera and missing view -/

/-- Claim C16 on the code: on a component without camera and with override disabled,
`ToggleOverrides` enables override (its camera test makes it skip the flags); on the
resulting state, without camera and with override enabled, `ToggleGlobalIlluminationMethod`
and `ToggleReflectionMethod` dereference the null camera pointer. -/
theorem Toggle_method_without_camera_fails :
    ToggleOverrides (Sample.Component false none) = (true, Sample.Component true none) ∧
      (Sample.Component true none).PlayerCameraComponent = none ∧
      (Sample.Component true none).bIsOVerrideEnabled = true ∧
      ToggleGlobalIlluminationMethod (some Sample.ViewWorld) Sample.DefaultSettings
        (Sample.Component true none) = none ∧
      ToggleReflectionMethod (some Sample.ViewWorld) Sample.DefaultSettings
        (Sample.Component true none) = none :=
  ⟨rfl, rfl, rfl, rfl, rfl⟩

/-- Claim C17, as amended: when the host supplies no valid view (no world, no local player
or no scene view), `GetCurrentPostProcessSettings` returns and leaves the out parameter as
the caller passed it; a method toggle made then, with override enabled and a camera attached,
advances from the method of the default constructed local settings value: it stores Lumen
for None, ScreenSpace for Lumen, None for ScreenSpace and leaves the stored method for any
other value, and it sets both override flags. -/
theorem GetCurrentPostProcessSettings_unavailable (World : Option (UWorld α))
    (self : ULumenSwitchComponentBase α) (Out D : FPostProcessSettings)
    (hout : ∀ W LP, World = some W → W.FirstLocalPlayerFromController = some LP →
      LP.CalcSceneView self.PlayerCameraComponent = none) :
    GetCurrentPostProcessSettings World self Out = Out ∧
      ∀ Cam, self.bIsOVerrideEnabled = true → self.PlayerCameraComponent = some Cam →
        (∃ s1 C1, ToggleGlobalIlluminationMethod World D self = some s1 ∧
          s1.PlayerCameraComponent = some C1 ∧
          C1.PostProcessSettings.bOverride_ReflectionMethod = true ∧
          C1.PostProcessSettings.bOverride_DynamicGlobalIlluminationMethod = true ∧
          (D.DynamicGlobalIlluminationMethod = .None →
            C1.PostProcessSettings.DynamicGlobalIlluminationMethod = .Lumen) ∧
          (D.DynamicGlobalIlluminationMethod = .Lumen →
            C1.PostProcessSettings.DynamicGlobalIlluminationMethod = .ScreenSpace) ∧
          (D.DynamicGlobalIlluminationMethod = .ScreenSpace →
            C1.PostProcessSettings.DynamicGlobalIlluminationMethod = .None) ∧
          (D.DynamicGlobalIlluminationMethod = .Plugin →
            C1.PostProcessSettings.DynamicGlobalIlluminationMethod
              = Cam.PostProcessSettings.DynamicGlobalIlluminationMethod)) ∧
        (∃ s1 C1, ToggleReflectionMethod World D self = some s1 ∧
          s1.PlayerCameraComponent = some C1 ∧
          C1.PostProcessSettings.bOverride_ReflectionMethod = true ∧
          C1.PostProcessSettings.bOverride_DynamicGlobalIlluminationMethod = true ∧
          (D.ReflectionMethod = .None → C1.PostProcessSettings.ReflectionMethod = .Lumen) ∧
          (D.ReflectionMethod = .Lumen →
            C1.PostProcessSettings.ReflectionMethod = .ScreenSpace) ∧
          (D.ReflectionMethod = .ScreenSpace →
            C1.PostProcessSettings.ReflectionMethod = .None) ∧
          (D.ReflectionMethod = .Unknown →
            C1.PostProcessSettings.ReflectionMethod
              = Cam.PostProcessSettings.ReflectionMethod)) := by
  have hget : ∀ O, GetCurrentPostProcessSettings World self O = O := by
    intro O
    unfold GetCurrentPostProcessSettings
    cases World with
    | none => rfl
    | some W =>
      cases hLP : W.FirstLocalPlayerFromController with
      | none => simp only [hLP]
      | some LP => simp only [hLP, hout W LP rfl hLP]
  refine ⟨hget Out, fun Cam hen hcam => ⟨?_, ?_⟩⟩
  · simp only [ToggleGlobalIlluminationMethod, hen, hcam, hget, Bool.not_true,
      Bool.false_eq_true, if_false]
    cases D.DynamicGlobalIlluminationMethod <;> simp
  · simp only [ToggleReflectionMethod, hen, hcam, hget, Bool.not_true,
      Bool.false_eq_true, if_false]
    cases D.ReflectionMethod <;> simp

/-- Sample evaluation for claim C17 (amended): a world without local player, default
settings with both methods Lumen, camera with both methods None. -/
theorem GetCurrentPostProcessSettings_unavailable_witness :
    ((∀ W LP, some (Sample.World []) = some W → W.FirstLocalPlayerFromController = some LP →
        LP.CalcSceneView
          (Sample.Component true (some (Sample.Camera .None .None true))).PlayerCameraComponent
          = none) ∧
      (Sample.Component true (some (Sample.Camera .None .None true))).bIsOVerrideEnabled
        = true) ∧
    GetCurrentPostProcessSettings (some (Sample.World []))
        (Sample.Component true (some (Sample.Camera .None .None true)))
        (Sample.Settings .None .ScreenSpace true)
      = Sample.Settings .None .ScreenSpace true ∧
    ∃ s1 C1, ToggleGlobalIlluminationMethod (some (Sample.World [])) Sample.DefaultSettings
        (Sample.Component true (some (Sample.Camera .None .None true))) = some s1 ∧
      s1.PlayerCameraComponent = some C1 ∧
      C1.PostProcessSettings.DynamicGlobalIlluminationMethod = .ScreenSpace :=
  have hout : ∀ W LP, some (Sample.World []) = some W →
      W.FirstLocalPlayerFromController = some LP →
      LP.CalcSceneView
        (Sample.Component true (some (Sample.Camera .None .None true))).PlayerCameraComponent
        = none := fun W LP hW hLP => by
    cases hW
    cases hLP
  ⟨⟨hout, rfl⟩,
    (GetCurrentPostProcessSettings_unavailable (some (Sample.World []))
      (Sample.Component true (some (Sample.Camera .None .None true)))
      (Sample.Settings .None .ScreenSpace true) Sample.DefaultSettings hout).1,
    let ⟨s1, C1, h1, h2, _, _, _, h3, _⟩ :=
      ((GetCurrentPostProcessSettings_unavailable (some (Sample.World []))
        (Sample.Component true (some (Sample.Camera .None .None true)))
        (Sample.Settings .None .ScreenSpace true) Sample.DefaultSettings hout).2
        (Sample.Camera .None .None true) rfl rfl).1
    ⟨s1, C1, h1, h2, h3 rfl⟩⟩

/-- Claim C17 fails as stated: with a valid view the settings resolve to the camera settings
(both methods None); in a following outage (a world without local player) the call made by
the toggle functions, on a default constructed value with both methods Lumen, yields that
default value and not the settings resolved before, and `ToggleGlobalIlluminationMethod`
stores ScreenSpace, the successor of Lumen, where the successor of the last resolved method
None is Lumen. -/
theorem GetCurrentPostProcessSettings_outage_yields_default :
    GetCurrentPostProcessSettings (some Sample.ViewWorld)
        (Sample.Component true (some (Sample.Camera .None .None true))) Sample.DefaultSettings
      = Sample.Settings .None .None true ∧
    GetCurrentPostProcessSettings (some (Sample.World []))
        (Sample.Component true (some (Sample.Camera .None .None true))) Sample.DefaultSettings
      = Sample.DefaultSettings ∧
    Sample.DefaultSettings ≠ Sample.Settings .None .None true ∧
    ToggleGlobalIlluminationMethod (some (Sample.World [])) Sample.DefaultSettings
        (Sample.Component true (some (Sample.Camera .None .None true)))
      = some (Sample.Component true (some
          { ComponentLocation := ⟨0, 0, 0⟩
            PostProcessSettings :=
              { bOverride_SceneColorTint := false
                bOverride_ReflectionMethod := true
                ReflectionMethod := .None
                bOverride_DynamicGlobalIlluminationMethod := true
                DynamicGlobalIlluminationMethod := .ScreenSpace } })) :=
  ⟨rfl, rfl, by decide, rfl⟩

/-! ## Enabled flags and the returned priority -/

theorem body_fst_withEnabled (Cam : UCameraComponent α)
    (acc acc' : α × TMap FName (FPostProcessVolumeInfo α))
    (I : IInterface_PostProcessVolume α) (b : Bool) (h : acc.1 = acc'.1) :
    (GetPostProcessVolumesInLevel.body Cam acc I).1
      = (GetPostProcessVolumesInLevel.body Cam acc' (I.withEnabled b)).1 := by
  cases I with
  | Volume V => rfl
  | Other P E => exact h

theorem foldl_body_fst_withEnabled (Cam : UCameraComponent α)
    (l l' : List (IInterface_PostProcessVolume α))
    (hflip : List.Forall₂ (fun I I' => ∃ b, I' = I.withEnabled b) l l') :
    ∀ acc acc' : α × TMap FName (FPostProcessVolumeInfo α), acc.1 = acc'.1 →
      (l.foldl (GetPostProcessVolumesInLevel.body Cam) acc).1
        = (l'.foldl (GetPostProcessVolumesInLevel.body Cam) acc').1 := by
  induction hflip with
  | nil => intro acc acc' h; exact h
  | cons hI _ ih =>
    intro acc acc' h
    obtain ⟨b, rfl⟩ := hI
    exact ih _ _ (body_fst_withEnabled Cam acc acc' _ b h)

/-- Claim C18: the value returned by `GetPostProcessVolumesInLevel` does not depend on the
enabled flags: two volume arrays that differ only in the enabled flags of their entries give
the same value (same component, any maps passed in); and with a camera attached, on the array
[A, B] with A of priority 5 and enabled and B of priority 10 and disabled the value is 10. -/
theorem GetPostProcessVolumesInLevel_enabled_irrelevant (W W' : UWorld α)
    (self : ULumenSwitchComponentBase α)
    (PPVolMap PPVolMap' : TMap FName (FPostProcessVolumeInfo α)) (bDebug : Bool)
    (hflip : List.Forall₂ (fun I I' => ∃ b, I' = I.withEnabled b)
      W.PostProcessVolumes W'.PostProcessVolumes) :
    (GetPostProcessVolumesInLevel (some W) self PPVolMap bDebug).1
        = (GetPostProcessVolumesInLevel (some W') self PPVolMap' bDebug).1 ∧
      ∀ (W0 : UWorld α) (A B : APostProcessVolume α) (Cam : UCameraComponent α),
        self.PlayerCameraComponent = some Cam →
        W0.PostProcessVolumes = [.Volume A, .Volume B] →
        A.Priority = 5 → A.bEnabled = true → B.Priority = 10 → B.bEnabled = false →
        (GetPostProcessVolumesInLevel (some W0) self PPVolMap bDebug).1 = 10 := by
  constructor
  · cases hcam : self.PlayerCameraComponent with
    | none => simp [GetPostProcessVolumesInLevel, hcam]
    | some Cam =>
      simp only [GetPostProcessVolumesInLevel, hcam]
      exact foldl_body_fst_withEnabled Cam _ _ hflip _ _ rfl
  · intro W0 A B Cam hcam hW0 _ _ hB _
    simp only [GetPostProcessVolumesInLevel, hcam, hW0, List.foldl_cons, List.foldl_nil]
    exact hB

/-- Sample evaluation for claim C18: [A (5, enabled), B (10, disabled)] against the array
with both flags flipped; both calls return 10. -/
theorem GetPostProcessVolumesInLevel_enabled_irrelevant_witness :
    List.Forall₂ (fun I I' => ∃ b, I' = IInterface_PostProcessVolume.withEnabled b I)
        (Sample.World [Sample.Volume "A" 5 true false true,
          Sample.Volume "B" 10 false false true]).PostProcessVolumes
        (Sample.World [Sample.Volume "A" 5 false false true,
          Sample.Volume "B" 10 true false true]).PostProcessVolumes ∧
      (GetPostProcessVolumesInLevel
          (some (Sample.World [Sample.Volume "A" 5 true false true,
            Sample.Volume "B" 10 false false true]))
          (Sample.Component true (some (Sample.Camera .None .None true))) [] false).1
        = (GetPostProcessVolumesInLevel
          (some (Sample.World [Sample.Volume "A" 5 false false true,
            Sample.Volume "B" 10 true false true]))
          (Sample.Component true (some (Sample.Camera .None .None true))) [] false).1 ∧
      (GetPostProcessVolumesInLevel
          (some (Sample.World [Sample.Volume "A" 5 true false true,
            Sample.Volume "B" 10 false false true]))
          (Sample.Component true (some (Sample.Camera .None .None true))) [] false).1 = 10 :=
  have hflip : List.Forall₂ (fun I I' => ∃ b, I' = IInterface_PostProcessVolume.withEnabled b I)
      (Sample.World [Sample.Volume "A" 5 true false true,
        Sample.Volume "B" 10 false false true]).PostProcessVolumes
      (Sample.World [Sample.Volume "A" 5 false false true,
        Sample.Volume "B" 10 true false true]).PostProcessVolumes :=
    List.Forall₂.cons ⟨false, rfl⟩ (List.Forall₂.cons ⟨true, rfl⟩ List.Forall₂.nil)
  ⟨hflip,
    (GetPostProcessVolumesInLevel_enabled_irrelevant _ _
      (Sample.Component true (some (Sample.Camera .None .None true))) [] [] false hflip).1,
    (GetPostProcessVolumesInLevel_enabled_irrelevant _ _
      (Sample.Component true (some (Sample.Camera .None .None true))) [] [] false hflip).2
      (Sample.World [Sample.Volume "A" 5 true false true,
        Sample.Volume "B" 10 false false true])
      (Sample.Volume "A" 5 true false true) (Sample.Volume "B" 10 false false true)
      (Sample.Camera .None .None true) rfl rfl rfl rfl rfl rfl⟩

/-! ## The containment query: absent volume, absent camera, bounded volume -/

/-- Claim C21: `IsCameraInside` returns false when the volume reference is null, and, when no
camera is attached, returns false for every volume whatever its box test answers; with a
camera attached it returns, for a bounded volume, the result of the box test of the volume at
the camera location with the blend radius of the volume. -/
theorem IsCameraInside_spec (self : ULumenSwitchComponentBase α) :
    IsCameraInside self none = false ∧
      (self.PlayerCameraComponent = none →
        ∀ V : APostProcessVolume α, IsCameraInside self (some V) = false) ∧
      ∀ (Cam : UCameraComponent α) (V : APostProcessVolume α),
        self.PlayerCameraComponent = some Cam → V.bUnbound = false →
        IsCameraInside self (some V)
          = V.EncompassesPoint Cam.ComponentLocation V.BlendRadius := by
  refine ⟨rfl, fun h V => ?_, fun Cam V h _ => ?_⟩
  · simp [IsCameraInside, h]
  · simp [IsCameraInside, h, APostProcessVolume.GetProperties]

/-- Sample evaluation for claim C21: without camera the answer is false for a volume whose box
test answers true; with a camera it is the answer of the box test. -/
theorem IsCameraInside_spec_witness :
    ((Sample.Component true none).PlayerCameraComponent = none ∧
      (Sample.Component true (some (Sample.Camera .None .None true))).PlayerCameraComponent
        = some (Sample.Camera .None .None true) ∧
      (Sample.Volume "A" 5 true false true).bUnbound = false) ∧
    IsCameraInside (Sample.Component true none) (some (Sample.Volume "A" 5 true false true))
      = false ∧
    IsCameraInside (Sample.Component true (some (Sample.Camera .None .None true)))
        (some (Sample.Volume "A" 5 true false true))
      = (Sample.Volume "A" 5 true false true).EncompassesPoint
          (Sample.Camera .None .None true).ComponentLocation
          (Sample.Volume "A" 5 true false true).BlendRadius :=
  ⟨⟨rfl, rfl, rfl⟩,
    (IsCameraInside_spec (Sample.Component true none)).2.1 rfl _,
    (IsCameraInside_spec (Sample.Component true (some (Sample.Camera .None .None true)))).2.2
      _ _ rfl rfl⟩

/-! ## Disabling all volumes -/

theorem disable_map_forall₂ (l : List (IInterface_PostProcessVolume α)) :
    List.Forall₂
      (fun I I' => (∃ V, I = .Volume V ∧ I' = .Volume { V with bEnabled := false }) ∨
        (I.Cast = none ∧ I' = I))
      l (l.map (fun PPVolInterface : IInterface_PostProcessVolume α =>
        match PPVolInterface.Cast with
        | some PPVol => IInterface_PostProcessVolume.Volume { PPVol with bEnabled := false }
        | none => PPVolInterface)) := by
  induction l with
  | nil => exact List.Forall₂.nil
  | cons I rest ih =>
    refine List.Forall₂.cons ?_ ih
    cases I with
    | Volume V => exact Or.inl ⟨V, rfl, rfl⟩
    | Other P E => exact Or.inr ⟨rfl, rfl⟩

theorem disable_map_disabled (l : List (IInterface_PostProcessVolume α)) :
    ∀ V ∈ Volumes (l.map (fun PPVolInterface : IInterface_PostProcessVolume α =>
        match PPVolInterface.Cast with
        | some PPVol => IInterface_PostProcessVolume.Volume { PPVol with bEnabled := false }
        | none => PPVolInterface)), V.bEnabled = false := by
  induction l with
  | nil => intro V hV; simp [Volumes] at hV
  | cons I rest ih =>
    intro V hV
    cases I with
    | Volume V0 =>
      simp only [Volumes, List.map_cons, IInterface_PostProcessVolume.Cast,
        List.filterMap_cons, List.mem_cons] at hV
      rcases hV with rfl | hV
      · rfl
      · exact ih V hV
    | Other P E =>
      simp only [Volumes, List.map_cons, IInterface_PostProcessVolume.Cast,
        List.filterMap_cons] at hV
      exact ih V hV

theorem disable_map_idem (l : List (IInterface_PostProcessVolume α)) :
    (l.map (fun PPVolInterface : IInterface_PostProcessVolume α =>
        match PPVolInterface.Cast with
        | some PPVol => IInterface_PostProcessVolume.Volume { PPVol with bEnabled := false }
        | none => PPVolInterface)).map (fun PPVolInterface : IInterface_PostProcessVolume α =>
        match PPVolInterface.Cast with
        | some PPVol => IInterface_PostProcessVolume.Volume { PPVol with bEnabled := false }
        | none => PPVolInterface) = l.map (fun PPVolInterface : IInterface_PostProcessVolume α =>
        match PPVolInterface.Cast with
        | some PPVol => IInterface_PostProcessVolume.Volume { PPVol with bEnabled := false }
        | none => PPVolInterface) := by
  induction l with
  | nil => rfl
  | cons I rest ih =>
    simp only [List.map_cons, List.cons.injEq]
    refine ⟨?_, ih⟩
    cases I <;> rfl

theorem disable_map_congr (l l2 : List (IInterface_PostProcessVolume α))
    (h : List.Forall₂
      (fun I I2 => I2 = I ∨ ∃ V b, I = .Volume V ∧ I2 = .Volume { V with bEnabled := b })
      l l2) :
    l2.map (fun PPVolInterface : IInterface_PostProcessVolume α =>
        match PPVolInterface.Cast with
        | some PPVol => IInterface_PostProcessVolume.Volume { PPVol with bEnabled := false }
        | none => PPVolInterface) = l.map (fun PPVolInterface : IInterface_PostProcessVolume α =>
        match PPVolInterface.Cast with
        | some PPVol => IInterface_PostProcessVolume.Volume { PPVol with bEnabled := false }
        | none => PPVolInterface) := by
  induction h with
  | nil => rfl
  | cons hI _ ih =>
    simp only [List.map_cons, List.cons.injEq]
    refine ⟨?_, ih⟩
    rcases hI with rfl | ⟨V, b, rfl, rfl⟩
    · rfl
    · rfl

/-- Claim C22: for every world, `DisableAllPostprocessVolumesInLevel` returns with the
component unchanged and the local player of the world unchanged; the volume array keeps its
length and order, every volume actor in it is replaced by itself with `bEnabled` false and
every other member as before (entries that are no volume actors are untouched), so every
volume actor, bounded or infinite, is disabled afterwards; a second call changes nothing;
and the result does not depend on the enabled flags the volume actors had before. -/
theorem DisableAllPostprocessVolumesInLevel_spec (W : UWorld α)
    (self : ULumenSwitchComponentBase α) :
    ∃ W1, DisableAllPostprocessVolumesInLevel (some W) self = some (W1, self) ∧
      W1.FirstLocalPlayerFromController = W.FirstLocalPlayerFromController ∧
      List.Forall₂
        (fun I I' => (∃ V, I = .Volume V ∧ I' = .Volume { V with bEnabled := false }) ∨
          (I.Cast = none ∧ I' = I))
        W.PostProcessVolumes W1.PostProcessVolumes ∧
      (∀ V ∈ Volumes W1.PostProcessVolumes, V.bEnabled = false) ∧
      DisableAllPostprocessVolumesInLevel (some W1) self = some (W1, self) ∧
      ∀ W2 : UWorld α,
        W2.FirstLocalPlayerFromController = W.FirstLocalPlayerFromController →
        List.Forall₂
          (fun I I2 => I2 = I ∨ ∃ V b, I = .Volume V ∧ I2 = .Volume { V with bEnabled := b })
          W.PostProcessVolumes W2.PostProcessVolumes →
        DisableAllPostprocessVolumesInLevel (some W2) self = some (W1, self) := by
  refine ⟨_, rfl, rfl, disable_map_forall₂ _, disable_map_disabled _, ?_, ?_⟩
  · simp only [DisableAllPostprocessVolumesInLevel, disable_map_idem]
  · intro W2 hLP h
    simp only [DisableAllPostprocessVolumesInLevel, disable_map_congr _ _ h, hLP]

/-- Sample evaluation for claim C22: a world with an enabled bounded volume and an enabled
infinite volume, against the same world with the first volume disabled beforehand. -/
theorem DisableAllPostprocessVolumesInLevel_spec_witness :
    ((Sample.World [Sample.Volume "A" 5 false false true,
          Sample.Volume "B" 10 true true false]).FirstLocalPlayerFromController
        = (Sample.World [Sample.Volume "A" 5 true false true,
          Sample.Volume "B" 10 true true false]).FirstLocalPlayerFromController ∧
      List.Forall₂
        (fun I I2 => I2 = I ∨
          ∃ V b, I = .Volume V ∧ I2 = .Volume { V with bEnabled := b })
        (Sample.World [Sample.Volume "A" 5 true false true,
          Sample.Volume "B" 10 true true false]).PostProcessVolumes
        (Sample.World [Sample.Volume "A" 5 false false true,
          Sample.Volume "B" 10 true true false]).PostProcessVolumes) ∧
    ∃ W1, DisableAllPostprocessVolumesInLevel
        (some (Sample.World [Sample.Volume "A" 5 true false true,
          Sample.Volume "B" 10 true true false]))
        (Sample.Component true none) = some (W1, Sample.Component true none) ∧
      (∀ V ∈ Volumes W1.PostProcessVolumes, V.bEnabled = false) ∧
      DisableAllPostprocessVolumesInLevel (some W1) (Sample.Component true none)
        = some (W1, Sample.Component true none) ∧
      DisableAllPostprocessVolumesInLevel
        (some (Sample.World [Sample.Volume "A" 5 false false true,
          Sample.Volume "B" 10 true true false]))
        (Sample.Component true none) = some (W1, Sample.Component true none) :=
  have hflip : List.Forall₂
      (fun I I2 => I2 = I ∨
        ∃ V b, I = .Volume V ∧ I2 = .Volume { V with bEnabled := b })
      (Sample.World [Sample.Volume "A" 5 true false true,
        Sample.Volume "B" 10 true true false]).PostProcessVolumes
      (Sample.World [Sample.Volume "A" 5 false false true,
        Sample.Volume "B" 10 true true false]).PostProcessVolumes :=
    List.Forall₂.cons (Or.inr ⟨_, false, rfl, rfl⟩)
      (List.Forall₂.cons (Or.inl rfl) List.Forall₂.nil)
  ⟨⟨rfl, hflip⟩,
    let ⟨W1, h1, _, _, h4, h5, h6⟩ :=
      DisableAllPostprocessVolumesInLevel_spec
        (Sample.World [Sample.Volume "A" 5 true false true,
          Sample.Volume "B" 10 true true false]) (Sample.Component true none)
    ⟨W1, h1, h4, h5, h6 _ rfl hflip⟩⟩

/-! ## The corner arcs of the wireframe -/

theorem corner_table (X Y Z R F1 F2 F3 : α) (k : Fin 5) :
      VisualizePPVol.elemAt (VisualizePPVol.XPoints X Y Z R F1 F2 F3) (1 + k.val)
        = ⟨X, -Y + R * (-1 * ArcCos F1 F2 F3 k.val), Z + R * (1 * ArcSin F1 F2 F3 k.val)⟩ ∧
      VisualizePPVol.elemAt (VisualizePPVol.XPoints X Y Z R F1 F2 F3) (10 - k.val)
        = ⟨X, Y + R * (1 * ArcCos F1 F2 F3 k.val), Z + R * (1 * ArcSin F1 F2 F3 k.val)⟩ ∧
      VisualizePPVol.elemAt (VisualizePPVol.XPoints X Y Z R F1 F2 F3) (11 + k.val)
        = ⟨X, Y + R * (1 * ArcCos F1 F2 F3 k.val), -Z + R * (-1 * ArcSin F1 F2 F3 k.val)⟩ ∧
      VisualizePPVol.elemAt (VisualizePPVol.XPoints X Y Z R F1 F2 F3) ((20 - k.val) % 20)
        = ⟨X, -Y + R * (-1 * ArcCos F1 F2 F3 k.val), -Z + R * (-1 * ArcSin F1 F2 F3 k.val)⟩ ∧
      VisualizePPVol.elemAt (VisualizePPVol.YPoints X Y Z R F1 F2 F3) (1 + k.val)
        = ⟨-X + R * (-1 * ArcCos F1 F2 F3 k.val), Y, Z + R * (1 * ArcSin F1 F2 F3 k.val)⟩ ∧
      VisualizePPVol.elemAt (VisualizePPVol.YPoints X Y Z R F1 F2 F3) (10 - k.val)
        = ⟨X + R * (1 * ArcCos F1 F2 F3 k.val), Y, Z + R * (1 * ArcSin F1 F2 F3 k.val)⟩ ∧
      VisualizePPVol.elemAt (VisualizePPVol.YPoints X Y Z R F1 F2 F3) (11 + k.val)
        = ⟨X + R * (1 * ArcCos F1 F2 F3 k.val), Y, -Z + R * (-1 * ArcSin F1 F2 F3 k.val)⟩ ∧
      VisualizePPVol.elemAt (VisualizePPVol.YPoints X Y Z R F1 F2 F3) ((20 - k.val) % 20)
        = ⟨-X + R * (-1 * ArcCos F1 F2 F3 k.val), Y, -Z + R * (-1 * ArcSin F1 F2 F3 k.val)⟩ ∧
      VisualizePPVol.elemAt (VisualizePPVol.ZPoints X Y Z R F1 F2 F3) (5 - k.val)
        = ⟨X + R * (1 * ArcCos F1 F2 F3 k.val), -Y + R * (-1 * ArcSin F1 F2 F3 k.val), Z⟩ ∧
      VisualizePPVol.elemAt (VisualizePPVol.ZPoints X Y Z R F1 F2 F3) (6 + k.val)
        = ⟨X + R * (1 * ArcCos F1 F2 F3 k.val), Y + R * (1 * ArcSin F1 F2 F3 k.val), Z⟩ ∧
      VisualizePPVol.elemAt (VisualizePPVol.ZPoints X Y Z R F1 F2 F3) (15 - k.val)
        = ⟨-X + R * (-1 * ArcCos F1 F2 F3 k.val), Y + R * (1 * ArcSin F1 F2 F3 k.val), Z⟩ ∧
      VisualizePPVol.elemAt (VisualizePPVol.ZPoints X Y Z R F1 F2 F3) ((16 + k.val) % 20)
        = ⟨-X + R * (-1 * ArcCos F1 F2 F3 k.val), -Y + R * (-1 * ArcSin F1 F2 F3 k.val), Z⟩ := by
  fin_cases k <;>
    simp [VisualizePPVol.elemAt, VisualizePPVol.XPoints, VisualizePPVol.YPoints,
      VisualizePPVol.ZPoints, ArcCos, ArcSin] <;>
    ring_nf <;> simp

theorem arc_table (k : Fin 5) :
    Real.cos (k.val * (Real.pi / 2 / 4))
        = ArcCos (Real.sin (Real.pi / 8)) (Real.sin (Real.pi / 4)) (Real.cos (Real.pi / 8)) k.val ∧
      Real.sin (k.val * (Real.pi / 2 / 4))
        = ArcSin (Real.sin (Real.pi / 8)) (Real.sin (Real.pi / 4)) (Real.cos (Real.pi / 8))
            k.val := by
  have e1 : ((1 : ℕ) : ℝ) * (Real.pi / 2 / 4) = Real.pi / 8 := by push_cast; ring
  have e2 : ((2 : ℕ) : ℝ) * (Real.pi / 2 / 4) = Real.pi / 4 := by push_cast; ring
  have e3 : ((3 : ℕ) : ℝ) * (Real.pi / 2 / 4) = Real.pi / 2 - Real.pi / 8 := by
    push_cast; ring
  have e4 : ((4 : ℕ) : ℝ) * (Real.pi / 2 / 4) = Real.pi / 2 := by push_cast; ring
  fin_cases k
  · simp [ArcCos, ArcSin]
  · show Real.cos (((1 : ℕ) : ℝ) * (Real.pi / 2 / 4)) = _ ∧
      Real.sin (((1 : ℕ) : ℝ) * (Real.pi / 2 / 4)) = _
    rw [e1]
    exact ⟨rfl, rfl⟩
  · show Real.cos (((2 : ℕ) : ℝ) * (Real.pi / 2 / 4)) = _ ∧
      Real.sin (((2 : ℕ) : ℝ) * (Real.pi / 2 / 4)) = _
    rw [e2]
    exact ⟨by rw [Real.cos_pi_div_four, Real.sin_pi_div_four]; rfl, rfl⟩
  · show Real.cos (((3 : ℕ) : ℝ) * (Real.pi / 2 / 4)) = _ ∧
      Real.sin (((3 : ℕ) : ℝ) * (Real.pi / 2 / 4)) = _
    rw [e3, Real.cos_pi_div_two_sub, Real.sin_pi_div_two_sub]
    exact ⟨rfl, rfl⟩
  · show Real.cos (((4 : ℕ) : ℝ) * (Real.pi / 2 / 4)) = _ ∧
      Real.sin (((4 : ℕ) : ℝ) * (Real.pi / 2 / 4)) = _
    rw [e4, Real.cos_pi_div_two, Real.sin_pi_div_two]
    exact ⟨rfl, rfl⟩

/-- Claim C23: over the reals, with the table `F1 = sin (pi / 8)`, `F2 = sin (pi / 4)`,
`F3 = cos (pi / 8)`, in each of the arrays `XPoints`, `YPoints`, `ZPoints` and at each of the
four corners of its rectangle, the five consecutive vertices spanning the corner are the
points `corner + R * (sx * cos (k * step), sy * sin (k * step))` of the plane of the belt for
`k = 0, ..., 4`, where `step = (pi / 2) / 4` and `sx`, `sy` are the outward signs of the
corner; the array runs through them with `k` increasing at two corners and decreasing at the
other two (the last corner of `XPoints` and `YPoints` closes on vertex 0). -/
theorem VisualizePPVol_corner_arcs (X Y Z R : ℝ) (k : Fin 5) :
      VisualizePPVol.elemAt (VisualizePPVol.XPoints X Y Z R (Real.sin (Real.pi / 8)) (Real.sin (Real.pi / 4))
          (Real.cos (Real.pi / 8))) (1 + k.val)
        = ⟨X, -Y + R * (-1 * Real.cos (k.val * (Real.pi / 2 / 4))), Z + R * (1 * Real.sin (k.val * (Real.pi / 2 / 4)))⟩ ∧
      VisualizePPVol.elemAt (VisualizePPVol.XPoints X Y Z R (Real.sin (Real.pi / 8)) (Real.sin (Real.pi / 4))
          (Real.cos (Real.pi / 8))) (10 - k.val)
        = ⟨X, Y + R * (1 * Real.cos (k.val * (Real.pi / 2 / 4))), Z + R * (1 * Real.sin (k.val * (Real.pi / 2 / 4)))⟩ ∧
      VisualizePPVol.elemAt (VisualizePPVol.XPoints X Y Z R (Real.sin (Real.pi / 8)) (Real.sin (Real.pi / 4))
          (Real.cos (Real.pi / 8))) (11 + k.val)
        = ⟨X, Y + R * (1 * Real.cos (k.val * (Real.pi / 2 / 4))), -Z + R * (-1 * Real.sin (k.val * (Real.pi / 2 / 4)))⟩ ∧
      VisualizePPVol.elemAt (VisualizePPVol.XPoints X Y Z R (Real.sin (Real.pi / 8)) (Real.sin (Real.pi / 4))
          (Real.cos (Real.pi / 8))) ((20 - k.val) % 20)
        = ⟨X, -Y + R * (-1 * Real.cos (k.val * (Real.pi / 2 / 4))), -Z + R * (-1 * Real.sin (k.val * (Real.pi / 2 / 4)))⟩ ∧
      VisualizePPVol.elemAt (VisualizePPVol.YPoints X Y Z R (Real.sin (Real.pi / 8)) (Real.sin (Real.pi / 4))
          (Real.cos (Real.pi / 8))) (1 + k.val)
        = ⟨-X + R * (-1 * Real.cos (k.val * (Real.pi / 2 / 4))), Y, Z + R * (1 * Real.sin (k.val * (Real.pi / 2 / 4)))⟩ ∧
      VisualizePPVol.elemAt (VisualizePPVol.YPoints X Y Z R (Real.sin (Real.pi / 8)) (Real.sin (Real.pi / 4))
          (Real.cos (Real.pi / 8))) (10 - k.val)
        = ⟨X + R * (1 * Real.cos (k.val * (Real.pi / 2 / 4))), Y, Z + R * (1 * Real.sin (k.val * (Real.pi / 2 / 4)))⟩ ∧
      VisualizePPVol.elemAt (VisualizePPVol.YPoints X Y Z R (Real.sin (Real.pi / 8)) (Real.sin (Real.pi / 4))
          (Real.cos (Real.pi / 8))) (11 + k.val)
        = ⟨X + R * (1 * Real.cos (k.val * (Real.pi / 2 / 4))), Y, -Z + R * (-1 * Real.sin (k.val * (Real.pi / 2 / 4)))⟩ ∧
      VisualizePPVol.elemAt (VisualizePPVol.YPoints X Y Z R (Real.sin (Real.pi / 8)) (Real.sin (Real.pi / 4))
          (Real.cos (Real.pi / 8))) ((20 - k.val) % 20)
        = ⟨-X + R * (-1 * Real.cos (k.val * (Real.pi / 2 / 4))), Y, -Z + R * (-1 * Real.sin (k.val * (Real.pi / 2 / 4)))⟩ ∧
      VisualizePPVol.elemAt (VisualizePPVol.ZPoints X Y Z R (Real.sin (Real.pi / 8)) (Real.sin (Real.pi / 4))
          (Real.cos (Real.pi / 8))) (5 - k.val)
        = ⟨X + R * (1 * Real.cos (k.val * (Real.pi / 2 / 4))), -Y + R * (-1 * Real.sin (k.val * (Real.pi / 2 / 4))), Z⟩ ∧
      VisualizePPVol.elemAt (VisualizePPVol.ZPoints X Y Z R (Real.sin (Real.pi / 8)) (Real.sin (Real.pi / 4))
          (Real.cos (Real.pi / 8))) (6 + k.val)
        = ⟨X + R * (1 * Real.cos (k.val * (Real.pi / 2 / 4))), Y + R * (1 * Real.sin (k.val * (Real.pi / 2 / 4))), Z⟩ ∧
      VisualizePPVol.elemAt (VisualizePPVol.ZPoints X Y Z R (Real.sin (Real.pi / 8)) (Real.sin (Real.pi / 4))
          (Real.cos (Real.pi / 8))) (15 - k.val)
        = ⟨-X + R * (-1 * Real.cos (k.val * (Real.pi / 2 / 4))), Y + R * (1 * Real.sin (k.val * (Real.pi / 2 / 4))), Z⟩ ∧
      VisualizePPVol.elemAt (VisualizePPVol.ZPoints X Y Z R (Real.sin (Real.pi / 8)) (Real.sin (Real.pi / 4))
          (Real.cos (Real.pi / 8))) ((16 + k.val) % 20)
        = ⟨-X + R * (-1 * Real.cos (k.val * (Real.pi / 2 / 4))), -Y + R * (-1 * Real.sin (k.val * (Real.pi / 2 / 4))), Z⟩ := by
  simp only [arc_table k]
  exact corner_table X Y Z R _ _ _ k

/-! ## The override flags follow the override state -/

theorem apply_keeps_flags (D : FPostProcessSettings) (c : ToggleCall α)
    (self : ULumenSwitchComponentBase α) (Cam : UCameraComponent α)
    (hcam : self.PlayerCameraComponent = some Cam)
    (hR : Cam.PostProcessSettings.bOverride_ReflectionMethod = self.bIsOVerrideEnabled)
    (hG : Cam.PostProcessSettings.bOverride_DynamicGlobalIlluminationMethod
      = self.bIsOVerrideEnabled) :
    ∃ s1 C1, c.apply D self = some s1 ∧ s1.PlayerCameraComponent = some C1 ∧
      C1.PostProcessSettings.bOverride_ReflectionMethod = s1.bIsOVerrideEnabled ∧
      C1.PostProcessSettings.bOverride_DynamicGlobalIlluminationMethod
        = s1.bIsOVerrideEnabled ∧
      s1.bEnableAtStart = self.bEnableAtStart := by
  cases c with
  | Overrides =>
    simp only [ToggleCall.apply, ToggleOverrides, hcam]
    exact ⟨_, _, rfl, rfl, rfl, rfl, rfl⟩
  | GlobalIlluminationMethod World =>
    cases hen : self.bIsOVerrideEnabled with
    | false =>
      refine ⟨self, Cam, ?_, hcam, by rw [hR, hen], by rw [hG, hen], rfl⟩
      simp [ToggleCall.apply, ToggleGlobalIlluminationMethod, hen]
    | true =>
      simp only [ToggleCall.apply, ToggleGlobalIlluminationMethod, hen, hcam, Bool.not_true,
        Bool.false_eq_true, if_false]
      cases (GetCurrentPostProcessSettings World self D).DynamicGlobalIlluminationMethod <;>
        exact ⟨_, _, rfl, rfl, rfl, rfl, rfl⟩
  | ReflectionMethod World =>
    cases hen : self.bIsOVerrideEnabled with
    | false =>
      refine ⟨self, Cam, ?_, hcam, by rw [hR, hen], by rw [hG, hen], rfl⟩
      simp [ToggleCall.apply, ToggleReflectionMethod, hen]
    | true =>
      simp only [ToggleCall.apply, ToggleReflectionMethod, hen, hcam, Bool.not_true,
        Bool.false_eq_true, if_false]
      cases (GetCurrentPostProcessSettings World self D).ReflectionMethod <;>
        exact ⟨_, _, rfl, rfl, rfl, rfl, rfl⟩

theorem RunCalls_keeps_flags (D : FPostProcessSettings) (calls : List (ToggleCall α)) :
    ∀ (self : ULumenSwitchComponentBase α) (Cam : UCameraComponent α),
      self.PlayerCameraComponent = some Cam →
      Cam.PostProcessSettings.bOverride_ReflectionMethod = self.bIsOVerrideEnabled →
      Cam.PostProcessSettings.bOverride_DynamicGlobalIlluminationMethod
        = self.bIsOVerrideEnabled →
      ∃ s1 C1, RunCalls D calls self = some s1 ∧ s1.PlayerCameraComponent = some C1 ∧
        C1.PostProcessSettings.bOverride_ReflectionMethod = s1.bIsOVerrideEnabled ∧
        C1.PostProcessSettings.bOverride_DynamicGlobalIlluminationMethod
          = s1.bIsOVerrideEnabled := by
  induction calls with
  | nil => intro self Cam hcam hR hG; exact ⟨self, Cam, rfl, hcam, hR, hG⟩
  | cons c cs ih =>
    intro self Cam hcam hR hG
    obtain ⟨s1, C1, h1, hc1, hR1, hG1, _⟩ := apply_keeps_flags D c self Cam hcam hR hG
    obtain ⟨s2, C2, h2, hc2, hR2, hG2⟩ := ih s1 C1 hc1 hR1 hG1
    exact ⟨s2, C2, by simp [RunCalls, h1, h2], hc2, hR2, hG2⟩

/-- Claim C24: when the owner is a character with a camera component, `BeginPlay` returns a
state in which `bIsOVerrideEnabled` equals `bEnableAtStart` and a camera is attached; from
that state every sequence of calls of `ToggleOverrides`, `ToggleGlobalIlluminationMethod`
and `ToggleReflectionMethod` (each method toggle with the world as it is at the time of the
call) runs without failure and ends in a state with a camera attached whose override flags
of the reflection method and of the global illumination method both equal
`bIsOVerrideEnabled`. -/
theorem BeginPlay_override_flags_invariant (Sin Cos : α → α) (PI SMALL_NUMBER : α)
    (ToFColor : FLinearColor α → FColor) (World : Option (UWorld α))
    (Owner : ACharacter α) (OwnerCamera : UCameraComponent α)
    (D D1 : FPostProcessSettings) (self : ULumenSwitchComponentBase α)
    (VisualizationColor : FLinearColor α)
    (VisualizationColorCurve : Option (UCurveLinearColor α))
    (hcam : Owner.CameraComponent = some OwnerCamera) :
    ∃ s0 Lines, BeginPlay Sin Cos PI SMALL_NUMBER ToFColor World (some Owner) D self
        VisualizationColor VisualizationColorCurve = some (s0, Lines) ∧
      s0.bIsOVerrideEnabled = self.bEnableAtStart ∧
      ∀ calls : List (ToggleCall α),
        ∃ s1 C1, RunCalls D1 calls s0 = some s1 ∧ s1.PlayerCameraComponent = some C1 ∧
          C1.PostProcessSettings.bOverride_ReflectionMethod = s1.bIsOVerrideEnabled ∧
          C1.PostProcessSettings.bOverride_DynamicGlobalIlluminationMethod
            = s1.bIsOVerrideEnabled := by
  have h : ∃ s0 Lines, BeginPlay Sin Cos PI SMALL_NUMBER ToFColor World (some Owner) D self
        VisualizationColor VisualizationColorCurve = some (s0, Lines) ∧
      s0.bIsOVerrideEnabled = self.bEnableAtStart ∧
      ∃ C0, s0.PlayerCameraComponent = some C0 ∧
        C0.PostProcessSettings.bOverride_ReflectionMethod = s0.bIsOVerrideEnabled ∧
        C0.PostProcessSettings.bOverride_DynamicGlobalIlluminationMethod
          = s0.bIsOVerrideEnabled := by
    simp only [BeginPlay, hcam]
    exact ⟨_, _, rfl, rfl, _, rfl, rfl, rfl⟩
  obtain ⟨s0, Lines, h0, h1, C0, hc, hR, hG⟩ := h
  exact ⟨s0, Lines, h0, h1, fun calls => RunCalls_keeps_flags D1 calls s0 C0 hc hR hG⟩

/-- Sample evaluation for claim C24: a character with a camera, start with override enabled,
then `ToggleGlobalIlluminationMethod`, `ToggleOverrides`, `ToggleReflectionMethod`. -/
theorem BeginPlay_override_flags_invariant_witness :
    Sample.Character.CameraComponent = some (Sample.Camera .Lumen .Lumen false) ∧
    ∃ s0 Lines, BeginPlay Sample.Sin Sample.Cos Sample.PI Sample.SMALL_NUMBER Sample.ToFColor
        (some Sample.ViewWorld) (some Sample.Character) Sample.DefaultSettings
        (Sample.Component false none) ⟨0, 1, 0, 1⟩ none = some (s0, Lines) ∧
      s0.bIsOVerrideEnabled = (Sample.Component false none).bEnableAtStart ∧
      ∃ s1 C1, RunCalls Sample.DefaultSettings
          [.GlobalIlluminationMethod (some Sample.ViewWorld), .Overrides,
            .ReflectionMethod (some Sample.ViewWorld)] s0 = some s1 ∧
        s1.PlayerCameraComponent = some C1 ∧
        C1.PostProcessSettings.bOverride_ReflectionMethod = s1.bIsOVerrideEnabled ∧
        C1.PostProcessSettings.bOverride_DynamicGlobalIlluminationMethod
          = s1.bIsOVerrideEnabled :=
  ⟨rfl,
    let ⟨s0, Lines, h0, h1, h2⟩ :=
      BeginPlay_override_flags_invariant Sample.Sin Sample.Cos Sample.PI Sample.SMALL_NUMBER
        Sample.ToFColor (some Sample.ViewWorld) Sample.Character
        (Sample.Camera .Lumen .Lumen false) Sample.DefaultSettings Sample.DefaultSettings
        (Sample.Component false none) ⟨0, 1, 0, 1⟩ none rfl
    ⟨s0, Lines, h0, h1, h2 _⟩⟩

/-! ## A method toggle leaves the other category alone -/

/-- Claim C25: with override enabled and a camera attached, `ToggleGlobalIlluminationMethod`
returns a state whose camera has the reflection method it had before, and
`ToggleReflectionMethod` one whose camera has the global illumination method it had before;
both override flags are set, and the camera location, the scene colour tint flag and every
member of the component other than the camera are as before; and when the method read from
the view is none of None, Lumen, ScreenSpace, the method of the toggled category is as before
too. -/
theorem Toggle_method_other_category_unchanged (World : Option (UWorld α))
    (D : FPostProcessSettings) (self : ULumenSwitchComponentBase α) (Cam : UCameraComponent α)
    (hen : self.bIsOVerrideEnabled = true) (hcam : self.PlayerCameraComponent = some Cam) :
    (∃ C1, ToggleGlobalIlluminationMethod World D self
          = some { self with PlayerCameraComponent := some C1 } ∧
        C1.PostProcessSettings.ReflectionMethod = Cam.PostProcessSettings.ReflectionMethod ∧
        C1.PostProcessSettings.bOverride_ReflectionMethod = true ∧
        C1.PostProcessSettings.bOverride_DynamicGlobalIlluminationMethod = true ∧
        C1.PostProcessSettings.bOverride_SceneColorTint
          = Cam.PostProcessSettings.bOverride_SceneColorTint ∧
        C1.ComponentLocation = Cam.ComponentLocation ∧
        ((GetCurrentPostProcessSettings World self D).DynamicGlobalIlluminationMethod = .Plugin →
          C1.PostProcessSettings.DynamicGlobalIlluminationMethod
            = Cam.PostProcessSettings.DynamicGlobalIlluminationMethod)) ∧
      (∃ C1, ToggleReflectionMethod World D self
          = some { self with PlayerCameraComponent := some C1 } ∧
        C1.PostProcessSettings.DynamicGlobalIlluminationMethod
          = Cam.PostProcessSettings.DynamicGlobalIlluminationMethod ∧
        C1.PostProcessSettings.bOverride_ReflectionMethod = true ∧
        C1.PostProcessSettings.bOverride_DynamicGlobalIlluminationMethod = true ∧
        C1.PostProcessSettings.bOverride_SceneColorTint
          = Cam.PostProcessSettings.bOverride_SceneColorTint ∧
        C1.ComponentLocation = Cam.ComponentLocation ∧
        ((GetCurrentPostProcessSettings World self D).ReflectionMethod = .Unknown →
          C1.PostProcessSettings.ReflectionMethod
            = Cam.PostProcessSettings.ReflectionMethod)) := by
  constructor
  · simp only [ToggleGlobalIlluminationMethod, hen, hcam, Bool.not_true, Bool.false_eq_true,
      if_false]
    cases (GetCurrentPostProcessSettings World self D).DynamicGlobalIlluminationMethod <;>
      exact ⟨_, rfl, rfl, rfl, rfl, rfl, rfl, by simp⟩
  · simp only [ToggleReflectionMethod, hen, hcam, Bool.not_true, Bool.false_eq_true,
      if_false]
    cases (GetCurrentPostProcessSettings World self D).ReflectionMethod <;>
      exact ⟨_, rfl, rfl, rfl, rfl, rfl, rfl, by simp⟩

/-- Sample evaluation for claim C25: override enabled, camera with reflection method Lumen and
global illumination method None, and a view that reports methods outside the three named
ones: each toggle leaves both stored methods as they were. -/
theorem Toggle_method_other_category_unchanged_witness :
    ((Sample.Component true (some (Sample.Camera .Lumen .None true))).bIsOVerrideEnabled
        = true ∧
      (Sample.Component true (some (Sample.Camera .Lumen .None true))).PlayerCameraComponent
        = some (Sample.Camera .Lumen .None true) ∧
      (GetCurrentPostProcessSettings (some Sample.PluginWorld)
        (Sample.Component true (some (Sample.Camera .Lumen .None true)))
        Sample.DefaultSettings).DynamicGlobalIlluminationMethod = .Plugin ∧
      (GetCurrentPostProcessSettings (some Sample.PluginWorld)
        (Sample.Component true (some (Sample.Camera .Lumen .None true)))
        Sample.DefaultSettings).ReflectionMethod = .Unknown) ∧
    (∃ C1, ToggleGlobalIlluminationMethod (some Sample.PluginWorld) Sample.DefaultSettings
          (Sample.Component true (some (Sample.Camera .Lumen .None true)))
          = some { Sample.Component true (some (Sample.Camera .Lumen .None true)) with
              PlayerCameraComponent := some C1 } ∧
        C1.PostProcessSettings.ReflectionMethod
          = (Sample.Camera .Lumen .None true).PostProcessSettings.ReflectionMethod ∧
        C1.PostProcessSettings.DynamicGlobalIlluminationMethod
          = (Sample.Camera .Lumen .None true).PostProcessSettings.DynamicGlobalIlluminationMethod) ∧
    (∃ C1, ToggleReflectionMethod (some Sample.PluginWorld) Sample.DefaultSettings
          (Sample.Component true (some (Sample.Camera .Lumen .None true)))
          = some { Sample.Component true (some (Sample.Camera .Lumen .None true)) with
              PlayerCameraComponent := some C1 } ∧
        C1.PostProcessSettings.DynamicGlobalIlluminationMethod
          = (Sample.Camera .Lumen .None true).PostProcessSettings.DynamicGlobalIlluminationMethod ∧
        C1.PostProcessSettings.ReflectionMethod
          = (Sample.Camera .Lumen .None true).PostProcessSettings.ReflectionMethod) :=
  ⟨⟨rfl, rfl, rfl, rfl⟩,
    let ⟨C1, h1, h2, _, _, _, _, h3⟩ :=
      (Toggle_method_other_category_unchanged (some Sample.PluginWorld) Sample.DefaultSettings
        (Sample.Component true (some (Sample.Camera .Lumen .None true)))
        (Sample.Camera .Lumen .None true) rfl rfl).1
    ⟨C1, h1, h2, h3 rfl⟩,
    let ⟨C1, h1, h2, _, _, _, _, h3⟩ :=
      (Toggle_method_other_category_unchanged (some Sample.PluginWorld) Sample.DefaultSettings
        (Sample.Component true (some (Sample.Camera .Lumen .None true)))
        (Sample.Camera .Lumen .None true) rfl rfl).2
    ⟨C1, h1, h2, h3 rfl⟩⟩

end LumenSwitcher
